import Mathlib

/-!
Thread Verification System (TVS2101) controller firmware

A shallow embedding of `src/machine/src/main.cpp`.

* Arduino `String` values are lists of byte codes (`Str`); `String::trim`,
  `String::equalsIgnoreCase` and `operator==` are given their library meaning.
* Hardware reads (`millis()`, `digitalRead`, the MFRC522 calls, the scanner
  UART) are inputs of the function that performs them.
* Writes to the pins, delays, reader commands and the `[OUTPUT]` log line are
  recorded, in program order, in the `trace` field of the controller.
-/

namespace TVS

/-! ## Strings -/

/-- An Arduino `String`: the bytes before the terminating NUL. -/
abbrev Str := List Nat

/-- The C `isspace` in the "C" locale: space, TAB, LF, VT, FF, CR. -/
def isSpace (c : Nat) : Bool := c == 32 || (9 ≤ c && c ≤ 13)

/-- The library `String::trim()`: leading and trailing `isspace` characters are removed. -/
def trim (s : Str) : Str :=
  ((s.dropWhile isSpace).reverse.dropWhile isSpace).reverse

/-- The C `tolower` in the "C" locale. -/
def tolower (c : Nat) : Nat := if 65 ≤ c ∧ c ≤ 90 then c + 32 else c

/-- The character loop of `String::equalsIgnoreCase`, run on strings of equal length. -/
def equalsIgnoreCaseLoop : Str → Str → Bool
  | c1 :: p1, c2 :: p2 => if tolower c1 != tolower c2 then false else equalsIgnoreCaseLoop p1 p2
  | _, _ => true

/-- The library `String::equalsIgnoreCase`: different lengths are unequal, otherwise the
characters are compared after `tolower`. -/
def equalsIgnoreCase (s1 s2 : Str) : Bool :=
  if s1.length != s2.length then false
  else if s1.length == 0 then true
  else equalsIgnoreCaseLoop s1 s2

/-- The constant `BYPASS_KEYWORD`, the string "bypass". -/
def BYPASS_KEYWORD : Str := [98, 121, 112, 97, 115, 115]

/-! ## Constants -/

def BLOCK_THREAD1 : Nat := 4
def BLOCK_THREAD2 : Nat := 5
def QR_TIMEOUT : Nat := 5000
def DEBOUNCE_DELAY : Nat := 500
def RESET_ALARM_DELAY : Nat := 250
def RFID_RESET_DELAY : Nat := 50
def QR_TRIGGER_DELAY : Nat := 500
def QR_READ_DELAY : Nat := 50
def QR_POLL_DELAY : Nat := 10
def BOBBIN_WAIT_TIMEOUT : Nat := 30000
def CARD_CHECK_INTERVAL : Nat := 300
def CARD_MISSING_THRESHOLD : Int := 1

/-! ## `byteArrayToString` -/

/-- The `for` loop of `byteArrayToString`: `buffer` is what is left of the
array, `n` the number of indices still to visit, `result` the string so far. -/
def byteArrayToStringLoop : List Nat → Nat → Str → Str
  | [], _, result => result
  | _ :: _, 0, result => result
  | b :: buffer, n + 1, result =>
    if b == 0 then result
    else if 32 ≤ b && b ≤ 126 then byteArrayToStringLoop buffer n (result ++ [b])
    else byteArrayToStringLoop buffer n result

/-- The function `byteArrayToString(buffer, bufferSize)`. -/
def byteArrayToString (buffer : List Nat) (bufferSize : Nat) : Str :=
  trim (byteArrayToStringLoop buffer bufferSize [])

/-- The decoding of a block as the specification words it: the bytes before
the first NUL among the first 16, of which those in 32..126 are kept, with the
surrounding white space removed. -/
def decodeBlockSpec (buffer : List Nat) : Str :=
  trim (((buffer.take 16).takeWhile (fun b => b != 0)).filter (fun b => 32 ≤ b && b ≤ 126))

/-- Equality of two strings ignoring ASCII case, as the specification words it. -/
def eqIgnoringAsciiCase (a b : Str) : Bool := a.map tolower == b.map tolower

/-! ## `readKanbanCard` -/

structure ThreadData where
  thread1 : Str
  thread2 : Str
  isBypass : Bool
  deriving DecidableEq, Repr

/-- Commands sent to the MFRC522 reader. -/
inductive RfidOp where
  | PICC_ReadCardSerial
  | PICC_IsNewCardPresent
  | PCD_Authenticate (block : Nat)
  | MIFARE_Read (block : Nat)
  | PCD_StopCrypto1
  | PICC_HaltA
  | PICC_WakeupA
  | PCD_Init
  deriving DecidableEq, Repr

/-- What the reader answers during one `readKanbanCard` call. A block read
answers `none` on a status other than `STATUS_OK` and the buffer otherwise. -/
structure CardReply where
  serialFirst : Bool
  newCardPresent : Bool
  serialRetry : Bool
  auth4 : Bool
  block4 : Option (List Nat)
  auth5 : Bool
  block5 : Option (List Nat)
  uidSize : Nat
  uidByte : List Nat
  deriving DecidableEq, Repr

/-- The result of `readKanbanCard`: the returned flag, the `data` argument
after the call, and the reader commands issued, in order. -/
structure CardRead where
  ok : Bool
  data : ThreadData
  ops : List RfidOp
  deriving DecidableEq, Repr

/-- The part of `readKanbanCard` after the card serial has been read;
`ops` are the commands issued so far. -/
def readKanbanBlocks (c : CardReply) (ops : List RfidOp) : CardRead :=
  let ops := ops ++ [RfidOp.PCD_Authenticate BLOCK_THREAD1]
  if !c.auth4 then
    ⟨false, ⟨[], [], false⟩, ops ++ [RfidOp.PCD_StopCrypto1, RfidOp.PICC_HaltA]⟩
  else
    let ops := ops ++ [RfidOp.MIFARE_Read BLOCK_THREAD1]
    match c.block4 with
    | none => ⟨false, ⟨[], [], false⟩, ops ++ [RfidOp.PCD_StopCrypto1, RfidOp.PICC_HaltA]⟩
    | some buffer1 =>
      let thread1 := byteArrayToString buffer1 16
      if equalsIgnoreCase thread1 BYPASS_KEYWORD then
        ⟨true, ⟨thread1, [], true⟩, ops ++ [RfidOp.PCD_StopCrypto1, RfidOp.PICC_HaltA]⟩
      else
        let ops := ops ++ [RfidOp.PCD_Authenticate BLOCK_THREAD2]
        if !c.auth5 then
          ⟨false, ⟨thread1, [], false⟩, ops ++ [RfidOp.PCD_StopCrypto1, RfidOp.PICC_HaltA]⟩
        else
          let ops := ops ++ [RfidOp.MIFARE_Read BLOCK_THREAD2]
          match c.block5 with
          | none =>
            ⟨false, ⟨thread1, [], false⟩, ops ++ [RfidOp.PCD_StopCrypto1, RfidOp.PICC_HaltA]⟩
          | some buffer2 =>
            ⟨true, ⟨thread1, byteArrayToString buffer2 16, false⟩,
              ops ++ [RfidOp.PCD_StopCrypto1, RfidOp.PICC_HaltA]⟩

/-- The function `readKanbanCard(data)`: `data` is reset first, so the result does not
depend on its previous value. -/
def readKanbanCard (c : CardReply) : CardRead :=
  if !c.serialFirst then
    if !c.newCardPresent then
      ⟨false, ⟨[], [], false⟩, [RfidOp.PICC_ReadCardSerial, RfidOp.PICC_IsNewCardPresent]⟩
    else if !c.serialRetry then
      ⟨false, ⟨[], [], false⟩,
        [RfidOp.PICC_ReadCardSerial, RfidOp.PICC_IsNewCardPresent, RfidOp.PICC_ReadCardSerial]⟩
    else
      readKanbanBlocks c
        [RfidOp.PICC_ReadCardSerial, RfidOp.PICC_IsNewCardPresent, RfidOp.PICC_ReadCardSerial]
  else
    readKanbanBlocks c [RfidOp.PICC_ReadCardSerial]

/-- The card serial was read: at once, or after a new detection. -/
def CardReply.serialOk (c : CardReply) : Bool :=
  c.serialFirst || (c.newCardPresent && c.serialRetry)

/-! ## `readQRCode`

The receive side of a scanner UART is the list of the bytes still to be read,
each with the time (ms after the call of `readQRCode`) from which
`available()` reports it. Time passes in `delay` only. The timeout is the
`int` argument, non-negative at both call sites (`QR_TIMEOUT`); the unsigned
subtraction `millis() - startTime` is the elapsed time, which cannot wrap
before the loop condition fails. -/

/-- A byte on the line: arrival time and value. -/
abbrev Rx := List (Nat × Nat)

/-- The value of `scanner.available()` at time `now`. -/
def available (now : Nat) : Rx → Bool
  | [] => false
  | (t, _) :: _ => decide (t ≤ now)

/-- The local variables of `readQRCode` together with the receive queue. -/
structure QrLocals where
  rx : Rx
  headerBytes : Nat
  headerSkipped : Bool
  qrData : Str
  deriving DecidableEq, Repr

/-- The inner `while (scanner.available())` loop at time `now`. -/
def qrInner (now : Nat) : Rx → Nat → Bool → Str → QrLocals
  | [], headerBytes, headerSkipped, qrData => ⟨[], headerBytes, headerSkipped, qrData⟩
  | (t, b) :: rest, headerBytes, headerSkipped, qrData =>
    if t ≤ now then
      if !headerSkipped then
        qrInner now rest (headerBytes + 1) (decide (headerBytes + 1 ≥ 7)) qrData
      else if b == 13 || b == 10 then
        if qrData.length > 0 then ⟨rest, headerBytes, headerSkipped, qrData⟩
        else qrInner now rest headerBytes headerSkipped qrData
      else if 32 ≤ b && b ≤ 126 then
        qrInner now rest headerBytes headerSkipped (qrData ++ [b])
      else
        qrInner now rest headerBytes headerSkipped qrData
    else
      ⟨(t, b) :: rest, headerBytes, headerSkipped, qrData⟩

/-- The outer `while (millis() - startTime < timeoutMs)` loop, `now` being the
elapsed time; `none` when `fuel` iterations did not end it. The value is
`qrData` as the loop leaves it. -/
def qrOuter : Nat → Nat → Nat → QrLocals → Option Str
  | 0, _, _, _ => none
  | fuel + 1, timeoutMs, now, l =>
    if now < timeoutMs then
      let l1 := qrInner now l.rx l.headerBytes l.headerSkipped l.qrData
      if l1.qrData.length > 0 && l1.headerSkipped then
        if !available (now + QR_READ_DELAY) l1.rx then some l1.qrData
        else qrOuter fuel timeoutMs (now + QR_READ_DELAY + QR_POLL_DELAY) l1
      else
        qrOuter fuel timeoutMs (now + QR_POLL_DELAY) l1
    else
      some l.qrData

/-- The string `readQRCode` has accumulated when its loop ends, before `trim`.
Every pass that does not leave the loop advances the clock by at least
`QR_POLL_DELAY`, so `timeoutMs + 1` passes are enough (`readQRCodeRaw_total`). -/
def readQRCodeRaw (rx : Rx) (timeoutMs : Nat) : Option Str :=
  qrOuter (timeoutMs + 1) timeoutMs 0 ⟨rx, 0, false, []⟩

/-- The function `readQRCode(scanner, timeoutMs)`: the accumulated string,
trimmed. The value is `none` only if the loop did not end within its fuel,
which `readQRCode_total` excludes. -/
def readQRCode (rx : Rx) (timeoutMs : Nat) : Option Str :=
  (readQRCodeRaw rx timeoutMs).map trim

/-- The `delay` calls made inside `readQRCode`, in program order: the
durations `QR_READ_DELAY` and `QR_POLL_DELAY` of the passes of the outer loop,
which this function follows pass by pass as `qrOuter` does. -/
def qrDelays : Nat → Nat → Nat → QrLocals → List Nat
  | 0, _, _, _ => []
  | fuel + 1, timeoutMs, now, l =>
    if now < timeoutMs then
      let l1 := qrInner now l.rx l.headerBytes l.headerSkipped l.qrData
      if l1.qrData.length > 0 && l1.headerSkipped then
        if !available (now + QR_READ_DELAY) l1.rx then [QR_READ_DELAY]
        else QR_READ_DELAY :: QR_POLL_DELAY ::
          qrDelays fuel timeoutMs (now + QR_READ_DELAY + QR_POLL_DELAY) l1
      else
        QR_POLL_DELAY :: qrDelays fuel timeoutMs (now + QR_POLL_DELAY) l1
    else
      []

/-- The durations of the `delay` calls of one call of `readQRCode`, with the
fuel of `readQRCodeRaw`. -/
def readQRCodeDelays (rx : Rx) (timeoutMs : Nat) : List Nat :=
  qrDelays (timeoutMs + 1) timeoutMs 0 ⟨rx, 0, false, []⟩

/-- A frame already in the receive buffer when `readQRCode` is called. -/
def buffered (bytes : List Nat) : Rx := bytes.map (fun b => (0, b))

/-! ## The controller -/

inductive SystemState where
  | STATE_INIT
  | STATE_WAIT_KANBAN
  | STATE_READ_KANBAN
  | STATE_WAIT_BOBBINS
  | STATE_SCAN_QR1
  | STATE_SCAN_QR2
  | STATE_VERIFY
  | STATE_READY
  | STATE_ERROR
  | STATE_BYPASS
  deriving DecidableEq, Repr

open SystemState

/-- The levels of the four lamp pins. -/
structure Lamps where
  ready1 : Bool
  ready2 : Bool
  alarm1 : Bool
  alarm2 : Bool
  deriving DecidableEq, Repr

/-- What the firmware does to the outside, in program order. -/
inductive Event where
  /-- The four `digitalWrite` of `updateLEDs`. -/
  | lamps (ready1 ready2 alarm1 alarm2 : Bool)
  /-- The instruction `digitalWrite(MACHINE_OUT1_PIN, ...)`. -/
  | relayPin (level : Bool)
  /-- The `[OUTPUT] Machine: ENABLED/DISABLED` line. -/
  | outputLog (enable : Bool)
  | delay (ms : Nat)
  | rfid (op : RfidOp)
  /-- The routine `triggerQRScanner(scannerNum)`: drain, then the 9-byte command. -/
  | qrTrigger (scannerNum : Nat)
  deriving DecidableEq, Repr

/-- The file-scope variables, the function-local statics and the output pins. -/
structure Controller where
  currentState : SystemState
  kanbanData : ThreadData
  qrCode1 : Str
  qrCode2 : Str
  kanbanUID : List Nat
  kanbanUIDSize : Nat
  thread1Error : Bool
  thread2Error : Bool
  resetMonitoringArmed : Bool
  bobbinsLatched : Bool
  cardMissingCount : Int
  /-- Statics of `handleStateMachine`. -/
  stateEntryTime : Nat
  previousState : SystemState
  /-- Static of the `STATE_WAIT_KANBAN` case. -/
  readerReset : Bool
  /-- Static `lastCardCheck` of the `STATE_READY` case. -/
  lastCardCheckReady : Nat
  /-- Static `lastCardCheck` of the `STATE_BYPASS` case. -/
  lastCardCheckBypass : Nat
  /-- Static `lastCardCheck` of the `STATE_ERROR` case. -/
  lastCardCheckError : Nat
  /-- Statics of `setMachineOutput`. -/
  lastState : Bool
  initialized : Bool
  /-- Level of `MACHINE_OUT1_PIN`. -/
  relay : Bool
  lamps : Lamps
  trace : List Event
  deriving DecidableEq, Repr

/-- What the hardware answers during one call of `handleStateMachine`, one
field for each read the code can perform. -/
structure Inputs where
  /-- The `millis()` of the state-change detection. -/
  millisEntry : Nat
  /-- The two `detectBobbin` of `handleResetIfBobbinRemoved`. -/
  resetBobbin1 : Bool
  resetBobbin2 : Bool
  /-- The `millis()` of the blink computation. -/
  millisBlink : Nat
  /-- The `PICC_IsNewCardPresent()` of `STATE_WAIT_KANBAN`. -/
  newCard : Bool
  card : CardReply
  /-- The two `detectBobbin` of the state handler. -/
  bobbin1 : Bool
  bobbin2 : Bool
  /-- The `millis()` of the `STATE_WAIT_BOBBINS` timeout test. -/
  millisTimeout : Nat
  /-- The receive line of the triggered scanner, as `readQRCode` finds it. -/
  rx : Rx
  /-- The `millis()` of the card-check interval test. -/
  millisCheck : Nat
  /-- The `millis()` stored in `lastCardCheck`. -/
  millisStamp : Nat
  /-- Whether `PICC_WakeupA` answered `STATUS_OK`. -/
  wakeupOk : Bool
  deriving DecidableEq, Repr

/-- An `unsigned long` value. -/
def u32 (n : Nat) : Nat := n % 4294967296

/-- The unsigned difference `now - since` of two `millis()` values. -/
def elapsedMs (now since : Nat) : Nat := (u32 now + 4294967296 - u32 since) % 4294967296

/-- The blink phase `(millis() / 1000) % 2 == 0`. -/
def blinkState (millis : Nat) : Bool := (u32 millis / 1000) % 2 == 0

def emit (s : Controller) (e : List Event) : Controller := { s with trace := s.trace ++ e }

def delay (s : Controller) (ms : Nat) : Controller := emit s [Event.delay ms]

def updateLEDs (s : Controller) (ready1 ready2 alarm1 alarm2 : Bool) : Controller :=
  { s with lamps := ⟨ready1, ready2, alarm1, alarm2⟩,
           trace := s.trace ++ [Event.lamps ready1 ready2 alarm1 alarm2] }

def setMachineOutput (s : Controller) (enable : Bool) : Controller :=
  if !s.initialized || s.lastState != enable then
    { s with relay := enable, lastState := enable, initialized := true,
             trace := s.trace ++ [Event.relayPin enable, Event.outputLog enable] }
  else s

def clearProcessData (s : Controller) : Controller :=
  { s with kanbanData := ⟨[], [], false⟩, qrCode1 := [], qrCode2 := [],
           kanbanUID := List.replicate 10 0, kanbanUIDSize := 0,
           thread1Error := false, thread2Error := false,
           resetMonitoringArmed := false, bobbinsLatched := false, cardMissingCount := 0 }

/-- The function `isKanbanCardStillPresent()`: wake-up probe, then halt. -/
def isKanbanCardStillPresent (s : Controller) (wakeupOk : Bool) : Bool × Controller :=
  (wakeupOk, emit s [Event.rfid RfidOp.PICC_WakeupA, Event.rfid RfidOp.PICC_HaltA])

/-- The function `handleResetIfBobbinRemoved`, with the two bobbin samples it takes when armed. -/
def handleResetIfBobbinRemoved (s : Controller) (bobbin1Present bobbin2Present : Bool) :
    Bool × Controller :=
  if !s.resetMonitoringArmed then (false, s)
  else
    let s := if bobbin1Present && bobbin2Present && !s.bobbinsLatched
      then { s with bobbinsLatched := true } else s
    if !s.bobbinsLatched || (bobbin1Present && bobbin2Present) then (false, s)
    else
      let s := updateLEDs s false false true true
      let s := setMachineOutput s false
      let s := delay s RESET_ALARM_DELAY
      let s := clearProcessData s
      (true, { s with currentState := STATE_WAIT_KANBAN })

def triggerQRScanner (s : Controller) (scannerNum : Nat) : Controller :=
  emit s [Event.qrTrigger scannerNum]

def verifyThreads (s : Controller) : Bool × Controller :=
  let match1 := decide (s.qrCode1 = s.kanbanData.thread1)
  let match2 := decide (s.qrCode2 = s.kanbanData.thread2)
  (match1 && match2, { s with thread1Error := !match1, thread2Error := !match2 })

/-- The loop that copies `rfid.uid.uidByte[0 .. size-1]` into `kanbanUID`. -/
def storeUID (kanbanUID uidByte : List Nat) (size : Nat) : List Nat :=
  (List.range size).foldl (fun uid k => uid.set k (uidByte.getD k 0)) kanbanUID

/-- The card-removal block shared, text for text, by the `STATE_READY`,
`STATE_BYPASS` and `STATE_ERROR` cases, from `cardMissingCount++` on. -/
def cardRemovedReset (s : Controller) : Controller :=
  let s := setMachineOutput s false
  let s := updateLEDs s false false true true
  let s := delay s RESET_ALARM_DELAY
  let s := clearProcessData s
  let s := emit s [Event.rfid RfidOp.PCD_Init]
  let s := delay s RFID_RESET_DELAY
  { s with currentState := STATE_WAIT_KANBAN }

/-- The outcome of the card-presence check of a steady state: whether the case
was left by `break` after a reset, the new value of its `lastCardCheck`, and
the controller. -/
structure CardCheck where
  reset : Bool
  lastCardCheck : Nat
  state : Controller

/-- The card-presence check of `STATE_READY`, `STATE_BYPASS` and `STATE_ERROR`,
on the `lastCardCheck` static of the case. -/
def cardCheck (s : Controller) (i : Inputs) (lastCardCheck : Nat) : CardCheck :=
  if elapsedMs i.millisCheck lastCardCheck > CARD_CHECK_INTERVAL then
    let p := isKanbanCardStillPresent s i.wakeupOk
    if !p.1 then
      let s := { p.2 with cardMissingCount := p.2.cardMissingCount + 1 }
      if s.cardMissingCount ≥ CARD_MISSING_THRESHOLD then
        ⟨true, u32 i.millisStamp, cardRemovedReset s⟩
      else ⟨false, u32 i.millisStamp, s⟩
    else ⟨false, u32 i.millisStamp, { p.2 with cardMissingCount := 0 }⟩
  else ⟨false, lastCardCheck, s⟩

/-- The `switch (currentState)` of `handleStateMachine`. -/
def stateHandler (s : Controller) (i : Inputs) : Controller :=
  match s.currentState with
  | STATE_WAIT_KANBAN =>
    let s := if !s.readerReset then
        { delay (emit s [Event.rfid RfidOp.PCD_Init]) RFID_RESET_DELAY with readerReset := true }
      else s
    let s := updateLEDs s (blinkState i.millisBlink) (blinkState i.millisBlink) false false
    let s := setMachineOutput s false
    let s := emit s [Event.rfid RfidOp.PICC_IsNewCardPresent]
    if i.newCard then { s with readerReset := false, currentState := STATE_READ_KANBAN } else s
  | STATE_READ_KANBAN =>
    let r := readKanbanCard i.card
    let s := { s with kanbanData := r.data, trace := s.trace ++ r.ops.map Event.rfid }
    if r.ok then
      let s := { s with kanbanUIDSize := i.card.uidSize,
                        kanbanUID := storeUID s.kanbanUID i.card.uidByte i.card.uidSize }
      if s.kanbanData.isBypass then
        { s with resetMonitoringArmed := true, bobbinsLatched := false,
                 currentState := STATE_BYPASS }
      else if s.kanbanData.thread1.length > 0 && s.kanbanData.thread2.length > 0 then
        { s with resetMonitoringArmed := true, bobbinsLatched := false,
                 currentState := STATE_WAIT_BOBBINS }
      else { s with currentState := STATE_ERROR }
    else
      { delay s DEBOUNCE_DELAY with currentState := STATE_WAIT_KANBAN }
  | STATE_WAIT_BOBBINS =>
    let s := updateLEDs s (blinkState i.millisBlink) (blinkState i.millisBlink) false false
    let s := if i.bobbin1 && i.bobbin2 then
        { delay s DEBOUNCE_DELAY with currentState := STATE_SCAN_QR1 }
      else s
    if elapsedMs i.millisTimeout s.stateEntryTime > BOBBIN_WAIT_TIMEOUT then
      { s with currentState := STATE_ERROR }
    else s
  | STATE_SCAN_QR1 =>
    let s := triggerQRScanner s 1
    let s := delay s QR_TRIGGER_DELAY
    let s := emit s ((readQRCodeDelays i.rx QR_TIMEOUT).map Event.delay)
    let s := { s with qrCode1 := (readQRCode i.rx QR_TIMEOUT).getD [] }
    if s.qrCode1.length > 0 then
      { updateLEDs s true false false false with currentState := STATE_SCAN_QR2 }
    else
      let s := { s with thread1Error := true, thread2Error := false }
      { updateLEDs s false false true false with currentState := STATE_ERROR }
  | STATE_SCAN_QR2 =>
    let s := triggerQRScanner s 2
    let s := delay s QR_TRIGGER_DELAY
    let s := emit s ((readQRCodeDelays i.rx QR_TIMEOUT).map Event.delay)
    let s := { s with qrCode2 := (readQRCode i.rx QR_TIMEOUT).getD [] }
    if s.qrCode2.length > 0 then
      { updateLEDs s true true false false with currentState := STATE_VERIFY }
    else
      let s := { s with thread1Error := false, thread2Error := true }
      { updateLEDs s true false false true with currentState := STATE_ERROR }
  | STATE_VERIFY =>
    let v := verifyThreads s
    if v.1 then { v.2 with currentState := STATE_READY }
    else { v.2 with currentState := STATE_ERROR }
  | STATE_READY =>
    let c := cardCheck s i s.lastCardCheckReady
    let s := { c.state with lastCardCheckReady := c.lastCardCheck }
    if c.reset then s
    else if !i.bobbin1 || !i.bobbin2 then
      let s := setMachineOutput s false
      let s := updateLEDs s false false true true
      let s := delay s RESET_ALARM_DELAY
      let s := clearProcessData s
      { s with currentState := STATE_WAIT_KANBAN }
    else
      let s := updateLEDs s true true false false
      setMachineOutput s true
  | STATE_BYPASS =>
    let c := cardCheck s i s.lastCardCheckBypass
    let s := { c.state with lastCardCheckBypass := c.lastCardCheck }
    if c.reset then s
    else
      let s := updateLEDs s true true false false
      setMachineOutput s true
  | STATE_ERROR =>
    let s := updateLEDs s (!s.thread1Error) (!s.thread2Error) s.thread1Error s.thread2Error
    let s := setMachineOutput s false
    let c := cardCheck s i s.lastCardCheckError
    let s := { c.state with lastCardCheckError := c.lastCardCheck }
    if c.reset then s
    else if !i.bobbin1 || !i.bobbin2 then
      let s := delay s RESET_ALARM_DELAY
      let s := clearProcessData s
      { s with currentState := STATE_WAIT_KANBAN }
    else s
  | STATE_INIT => { s with currentState := STATE_WAIT_KANBAN }

/-- The state-change detection at the top of `handleStateMachine`. -/
def detectStateChange (s : Controller) (i : Inputs) : Controller :=
  if s.currentState != s.previousState then
    { s with stateEntryTime := u32 i.millisEntry, previousState := s.currentState }
  else s

/-- One call of `handleStateMachine()`. -/
def handleStateMachine (s : Controller) (i : Inputs) : Controller :=
  let s := detectStateChange s i
  let r := handleResetIfBobbinRemoved s i.resetBobbin1 i.resetBobbin2
  if r.1 then r.2 else stateHandler r.2 i

/-- The variables as their initialisers leave them at power-on, the output
pins at the levels `relay` and `lamps`. -/
def powerOn (relay : Bool) (lamps : Lamps) : Controller :=
  { currentState := STATE_INIT, kanbanData := ⟨[], [], false⟩, qrCode1 := [], qrCode2 := [],
    kanbanUID := List.replicate 10 0, kanbanUIDSize := 0,
    thread1Error := false, thread2Error := false,
    resetMonitoringArmed := false, bobbinsLatched := false, cardMissingCount := 0,
    stateEntryTime := 0, previousState := STATE_INIT, readerReset := false,
    lastCardCheckReady := 0, lastCardCheckBypass := 0, lastCardCheckError := 0,
    lastState := false, initialized := false, relay := relay, lamps := lamps, trace := [] }

/-- The routine `setupPins()`. -/
def setupPins (s : Controller) : Controller :=
  setMachineOutput (updateLEDs s false false false false) false

/-- The routine `setupRFID()`, as far as the reader and the clock see it. -/
def setupRFID (s : Controller) : Controller :=
  emit s [Event.delay RFID_RESET_DELAY, Event.delay RFID_RESET_DELAY,
    Event.rfid RfidOp.PCD_Init, Event.delay 100]

/-- The routine `setup()`. -/
def setup (s : Controller) : Controller :=
  let s := emit s [Event.delay 1000]
  let s := setupPins s
  let s := setupRFID s
  let s := emit s [Event.delay 100]
  { s with currentState := STATE_WAIT_KANBAN }

/-- The boot state: `setup()` run on the power-on state. -/
def boot (relay : Bool) (lamps : Lamps) : Controller := setup (powerOn relay lamps)

/-- The controller after the ticks of `loop()` fed with `inputs`, in order. -/
def run (s : Controller) (inputs : List Inputs) : Controller :=
  inputs.foldl handleStateMachine s

/-! ## Concrete inputs -/

/-- A 16-byte block holding "BYPASS" (upper case), NUL padded. -/
def blockUpperBypass : List Nat := [66, 89, 80, 65, 83, 83, 0, 0, 0, 0, 0, 0, 0, 0, 0, 0]

/-- A card whose serial, authentication and read of block 4 succeed, with
"BYPASS" in block 4; block 5 would fail if it were touched. -/
def cardUpperBypass : CardReply :=
  { serialFirst := true, newCardPresent := false, serialRetry := false,
    auth4 := true, block4 := some blockUpperBypass, auth5 := false, block5 := none,
    uidSize := 4, uidByte := [222, 173, 190, 239, 0, 0, 0, 0, 0, 0] }

/-- The scanner frame `02 00 00 01 00 00 03 "RED" 0D`. -/
def frameRED : List Nat := [2, 0, 0, 1, 0, 0, 3, 82, 69, 68, 13]

/-- The scanner frame `02 00 00 01 00 00 04 "BLUE" 0D`. -/
def frameBLUE : List Nat := [2, 0, 0, 1, 0, 0, 4, 66, 76, 85, 69, 13]

/-- The scanner frame `02 00 00 01 00 00 05 "GREEN" 0D`. -/
def frameGREEN : List Nat := [2, 0, 0, 1, 0, 0, 5, 71, 82, 69, 69, 78, 13]

/-- The frame of "RED" received in two bursts: header and "RE" at once, "D"
and CR 100 ms later. -/
def rxGap : Rx :=
  [(0, 2), (0, 0), (0, 0), (0, 1), (0, 0), (0, 0), (0, 3), (0, 82), (0, 69), (100, 68), (100, 13)]

/-- Two frames of "RED" in the receive buffer, as after the code was scanned twice. -/
def rxTwoFrames : Rx := buffered (frameRED ++ frameRED)

/-- A frame whose payload is one space. -/
def rxSpace : Rx := buffered [2, 0, 0, 1, 0, 0, 1, 32, 13]

/-- A frame of "A" whose payload arrives 6000 ms after the call. -/
def rxLate : Rx :=
  [(0, 2), (0, 0), (0, 0), (0, 1), (0, 0), (0, 0), (0, 1), (6000, 65), (6000, 13)]

/-- Whether the reset helper at the top of the tick fires. -/
def resetFires (s : Controller) (i : Inputs) : Bool :=
  (handleResetIfBobbinRemoved s i.resetBobbin1 i.resetBobbin2).1

/-- The controller is in one of the seven states in which the machine must be off. -/
def offState (s : Controller) : Prop :=
  s.currentState = STATE_WAIT_KANBAN ∨ s.currentState = STATE_READ_KANBAN
    ∨ s.currentState = STATE_WAIT_BOBBINS ∨ s.currentState = STATE_SCAN_QR1
    ∨ s.currentState = STATE_SCAN_QR2 ∨ s.currentState = STATE_VERIFY
    ∨ s.currentState = STATE_ERROR

instance (s : Controller) : Decidable (offState s) := by
  unfold offState
  infer_instance

/-- A card with "RED" in block 4 and "BLUE" in block 5, NUL padded. -/
def cardRedBlue : CardReply :=
  { serialFirst := true, newCardPresent := false, serialRetry := false,
    auth4 := true, block4 := some [82, 69, 68, 0, 0, 0, 0, 0, 0, 0, 0, 0, 0, 0, 0, 0, 0, 0],
    auth5 := true, block5 := some [66, 76, 85, 69, 0, 0, 0, 0, 0, 0, 0, 0, 0, 0, 0, 0, 0, 0],
    uidSize := 4, uidByte := [222, 173, 190, 239, 0, 0, 0, 0, 0, 0] }

/-- A tick at clock value `millis` with both bobbins present, the card in the
field and answering, and the scanner line `rx`. -/
def steady (millis : Nat) (card : CardReply) (rx : Rx) : Inputs :=
  { millisEntry := millis, resetBobbin1 := true, resetBobbin2 := true, millisBlink := millis,
    newCard := true, card := card, bobbin1 := true, bobbin2 := true, millisTimeout := millis,
    rx := rx, millisCheck := millis, millisStamp := millis, wakeupOk := true }

def lampsOff : Lamps := ⟨false, false, false, false⟩

/-- Scenario 2 up to the tick of `STATE_VERIFY`: the card holds "RED"/"BLUE",
scanner 1 returns "GREEN", scanner 2 returns "BLUE". -/
def mismatchCycle : List Inputs :=
  [steady 2000 cardRedBlue [], steady 2100 cardRedBlue [], steady 2200 cardRedBlue [],
   steady 2800 cardRedBlue (buffered frameGREEN), steady 3400 cardRedBlue (buffered frameBLUE),
   steady 4000 cardRedBlue []]

/-- Scenario 1 up to the first tick of `STATE_READY`: the card holds
"RED"/"BLUE", scanner 1 returns "RED", scanner 2 returns "BLUE". -/
def happyCycle : List Inputs :=
  [steady 2000 cardRedBlue [], steady 2100 cardRedBlue [], steady 2200 cardRedBlue [],
   steady 2800 cardRedBlue (buffered frameRED), steady 3400 cardRedBlue (buffered frameBLUE),
   steady 4000 cardRedBlue [], steady 4100 cardRedBlue []]

/-- What holds of every controller state reached from boot: the relay pin is
what `setMachineOutput` last wrote, it is high in `STATE_READY` and
`STATE_BYPASS` only, the states from `STATE_WAIT_BOBBINS` to `STATE_READY` hold
a non-bypass card with two thread names, `STATE_READY` holds matching codes and
`STATE_BYPASS` a bypass card; `STATE_INIT` is left for good, the monitoring is
not armed while a card is awaited or read, the latch is set only when armed,
and the card-miss counter is back at 0. -/
def Inv (s : Controller) : Prop :=
  s.initialized = true ∧ s.relay = s.lastState
  ∧ (s.relay = true → s.currentState = STATE_READY ∨ s.currentState = STATE_BYPASS)
  ∧ ((s.currentState = STATE_WAIT_BOBBINS ∨ s.currentState = STATE_SCAN_QR1
        ∨ s.currentState = STATE_SCAN_QR2 ∨ s.currentState = STATE_VERIFY
        ∨ s.currentState = STATE_READY) →
      s.kanbanData.isBypass = false ∧ s.kanbanData.thread1 ≠ [] ∧ s.kanbanData.thread2 ≠ [])
  ∧ (s.currentState = STATE_READY →
      s.qrCode1 = s.kanbanData.thread1 ∧ s.qrCode2 = s.kanbanData.thread2)
  ∧ (s.currentState = STATE_BYPASS → s.kanbanData.isBypass = true)
  ∧ s.currentState ≠ STATE_INIT
  ∧ (s.currentState = STATE_WAIT_KANBAN ∨ s.currentState = STATE_READ_KANBAN →
      s.resetMonitoringArmed = false)
  ∧ (s.resetMonitoringArmed = false → s.bobbinsLatched = false)
  ∧ s.cardMissingCount = 0

/-- The happy path after the tick of `STATE_WAIT_KANBAN`: in `STATE_READ_KANBAN`. -/
def readState : Controller := run (boot false lampsOff) (happyCycle.take 1)

/-- The happy path after the tick of `STATE_SCAN_QR2`: in `STATE_VERIFY`. -/
def verifyState : Controller := run (boot false lampsOff) (happyCycle.take 5)

/-- The process data is as `clearProcessData` leaves it. -/
def processDataCleared (s : Controller) : Prop :=
  s.kanbanData.thread1 = [] ∧ s.kanbanData.thread2 = [] ∧ s.kanbanData.isBypass = false
    ∧ s.qrCode1 = [] ∧ s.qrCode2 = []
    ∧ s.kanbanUID = List.replicate 10 0 ∧ s.kanbanUIDSize = 0
    ∧ s.thread1Error = false ∧ s.thread2Error = false
    ∧ s.resetMonitoringArmed = false ∧ s.bobbinsLatched = false ∧ s.cardMissingCount = 0

instance (s : Controller) : Decidable (processDataCleared s) := by
  unfold processDataCleared
  infer_instance

/-- What one call of `handleStateMachine` appends to the trace. -/
def tickEvents (s : Controller) (i : Inputs) : List Event :=
  (handleStateMachine s i).trace.drop s.trace.length

/-- More of what holds of every controller state reached from boot: the error
flags are set in `STATE_ERROR` only, the scanned codes, the stored UID, the
second thread name and the bypass mark are clear while a card is awaited or
read, and the reader-reset flag of `STATE_WAIT_KANBAN` is down in every other
state. -/
def Inv2 (s : Controller) : Prop :=
  (s.currentState ≠ STATE_ERROR → s.thread1Error = false ∧ s.thread2Error = false)
  ∧ (s.currentState = STATE_WAIT_KANBAN ∨ s.currentState = STATE_READ_KANBAN →
      s.qrCode1 = [] ∧ s.qrCode2 = [] ∧ s.kanbanUID = List.replicate 10 0
        ∧ s.kanbanUIDSize = 0 ∧ s.kanbanData.thread2 = [] ∧ s.kanbanData.isBypass = false)
  ∧ (s.currentState ≠ STATE_WAIT_KANBAN → s.readerReset = false)

/-- The controller after a sequence of calls of `setMachineOutput`. -/
def setOutputs (s : Controller) (calls : List Bool) : Controller :=
  calls.foldl setMachineOutput s

/-- A tick at clock value `millis` in which the wake-up probe finds no card;
both bobbins are present. -/
def cardGone (millis : Nat) : Inputs :=
  { steady millis cardRedBlue [] with wakeupOk := false }

/-- The mismatch cycle followed by the removal of the card. -/
def mismatchThenRemoval : List Inputs := mismatchCycle ++ [cardGone 4400]

/-- The controller as the state handler finds it in a tick in which the reset
helper does not fire: entry time recorded, latch updated. -/
def entered (s : Controller) (i : Inputs) : Controller :=
  { detectStateChange s i with
    bobbinsLatched := (detectStateChange s i).bobbinsLatched
      || ((detectStateChange s i).resetMonitoringArmed && i.resetBobbin1 && i.resetBobbin2) }

/-- The number of ALARM lamps that are lit. -/
def alarmCount (l : Lamps) : Nat := l.alarm1.toNat + l.alarm2.toNat

/-- The number of error flags that are set. -/
def flagCount (s : Controller) : Nat := s.thread1Error.toNat + s.thread2Error.toNat

/-- A card with "RED" in block 4 and an empty block 5. -/
def cardNoThread2 : CardReply :=
  { serialFirst := true, newCardPresent := false, serialRetry := false,
    auth4 := true, block4 := some [82, 69, 68, 0, 0, 0, 0, 0, 0, 0, 0, 0, 0, 0, 0, 0, 0, 0],
    auth5 := true, block5 := some [0, 0, 0, 0, 0, 0, 0, 0, 0, 0, 0, 0, 0, 0, 0, 0, 0, 0],
    uidSize := 4, uidByte := [222, 173, 190, 239, 0, 0, 0, 0, 0, 0] }

/-- A tick at clock value `millis` with no bobbin on either channel. -/
def noBobbins (millis : Nat) : Inputs :=
  { steady millis cardRedBlue [] with
    resetBobbin1 := false, resetBobbin2 := false, bobbin1 := false, bobbin2 := false }

/-- The card without second thread name is detected and read: `STATE_ERROR`. -/
def malformedCardRun : List Inputs := [steady 2000 cardNoThread2 [], steady 2100 cardNoThread2 []]

/-- The card "RED"/"BLUE" is read and no bobbin is loaded for more than 30 s:
`STATE_ERROR`. -/
def bobbinTimeoutRun : List Inputs :=
  [steady 2000 cardRedBlue [], steady 2100 cardRedBlue [], noBobbins 2200, noBobbins 40000]

/-- A card with "RED" in block 4 whose block 5 cannot be authenticated. -/
def cardAuth5Fails : CardReply :=
  { serialFirst := true, newCardPresent := false, serialRetry := false,
    auth4 := true, block4 := some [82, 69, 68, 0, 0, 0, 0, 0, 0, 0, 0, 0, 0, 0, 0, 0, 0, 0],
    auth5 := false, block5 := none,
    uidSize := 4, uidByte := [222, 173, 190, 239, 0, 0, 0, 0, 0, 0] }

/-- The controller with the first thread name put aside. -/
def withoutThread1 (s : Controller) : Controller :=
  { s with kanbanData := { s.kanbanData with thread1 := [] } }

/-- In a list of events, no write that de-asserts the relay comes after a lamp
write: the relay goes low before any lamp changes. -/
def relayBeforeLamps : List Event → Bool
  | [] => true
  | Event.lamps _ _ _ _ :: rest =>
    !decide (Event.relayPin false ∈ rest) && relayBeforeLamps rest
  | _ :: rest => relayBeforeLamps rest

/-- A tick at clock value `millis` in which bobbin 1 is gone; the card answers. -/
def bobbinLost (millis : Nat) : Inputs :=
  { steady millis cardRedBlue [] with resetBobbin1 := false, bobbin1 := false }

/-- The `lastCardCheck` static of the state the controller is in. -/
def lastCardCheckOf (s : Controller) : Nat :=
  match s.currentState with
  | STATE_READY => s.lastCardCheckReady
  | STATE_BYPASS => s.lastCardCheckBypass
  | STATE_ERROR => s.lastCardCheckError
  | _ => 0

/-- Two tick inputs that differ at most in the four bobbin samples. -/
def sameExceptBobbins (i j : Inputs) : Prop :=
  { i with resetBobbin1 := j.resetBobbin1, resetBobbin2 := j.resetBobbin2,
           bobbin1 := j.bobbin1, bobbin2 := j.bobbin2 } = j

instance (i j : Inputs) : Decidable (sameExceptBobbins i j) := by
  unfold sameExceptBobbins
  infer_instance

/-- Two controllers that differ at most in `bobbinsLatched`. -/
def sameExceptLatch (s t : Controller) : Prop :=
  { s with bobbinsLatched := t.bobbinsLatched } = t

/-- A card with "bypass" in block 4. -/
def cardBypass : CardReply :=
  { serialFirst := true, newCardPresent := false, serialRetry := false,
    auth4 := true, block4 := some [98, 121, 112, 97, 115, 115, 0, 0, 0, 0, 0, 0, 0, 0, 0, 0, 0, 0],
    auth5 := false, block5 := none,
    uidSize := 4, uidByte := [222, 173, 190, 239, 0, 0, 0, 0, 0, 0] }

/-- The controller in `STATE_BYPASS`, right after the bypass card was read. -/
def bypassState : Controller :=
  run (boot false lampsOff) [steady 2000 cardBypass [], steady 2100 cardBypass []]

/-- In `STATE_BYPASS`: both bobbins are seen in one tick, bobbin 1 is gone in the next. -/
def bobbinsThenOneLost : List Inputs := [steady 2200 cardRedBlue [], bobbinLost 2300]

/-- In `STATE_BYPASS`: no bobbin in either tick; clock and card probe as in
`bobbinsThenOneLost`. -/
def bobbinsNever : List Inputs := [noBobbins 2200, noBobbins 2300]

/-- Two tick inputs of two cycles that run alike, the second `d` ms after
the first: same card, scanner line and bobbin samples, the card answering the
wake-up probe in both, and the clock values of the state-change detection and
of the bobbin timeout `d` ms apart (as `unsigned long`). The clock values of the
blink and of the card check are free. -/
def sameCycleInput (d : Nat) (i j : Inputs) : Prop :=
  u32 j.millisEntry = u32 (i.millisEntry + d) ∧ u32 j.millisTimeout = u32 (i.millisTimeout + d)
    ∧ j.resetBobbin1 = i.resetBobbin1 ∧ j.resetBobbin2 = i.resetBobbin2
    ∧ j.newCard = i.newCard ∧ j.card = i.card
    ∧ j.bobbin1 = i.bobbin1 ∧ j.bobbin2 = i.bobbin2 ∧ j.rx = i.rx
    ∧ i.wakeupOk = true ∧ j.wakeupOk = true

instance (d : Nat) (i j : Inputs) : Decidable (sameCycleInput d i j) := by
  unfold sameCycleInput
  infer_instance

/-- The entry-time statics of two controllers agree, `d` ms apart. -/
def sameEntry (d : Nat) (a b : Controller) : Prop :=
  a.previousState = b.previousState ∧ b.stateEntryTime = u32 (a.stateEntryTime + d)

/-- Two controllers at the same point of a cycle: same state, card data,
scanned codes, UID, error flags, monitoring flags, reader-reset flag, relay and
output statics, the card-miss counter at 0 in both; the lamps are the same from
`STATE_SCAN_QR2` to `STATE_READY`; and either both are about to record the
entry into their state or their entry-time statics agree, `d` ms apart. The
`lastCardCheck` statics and the traces are free. -/
def sameCycle (d : Nat) (a b : Controller) : Prop :=
  a.currentState = b.currentState ∧ a.kanbanData = b.kanbanData
    ∧ a.qrCode1 = b.qrCode1 ∧ a.qrCode2 = b.qrCode2
    ∧ a.kanbanUID = b.kanbanUID ∧ a.kanbanUIDSize = b.kanbanUIDSize
    ∧ a.thread1Error = b.thread1Error ∧ a.thread2Error = b.thread2Error
    ∧ a.resetMonitoringArmed = b.resetMonitoringArmed ∧ a.bobbinsLatched = b.bobbinsLatched
    ∧ a.cardMissingCount = 0 ∧ b.cardMissingCount = 0
    ∧ a.readerReset = b.readerReset
    ∧ a.lastState = b.lastState ∧ a.initialized = b.initialized ∧ a.relay = b.relay
    ∧ (a.currentState = STATE_SCAN_QR2 ∨ a.currentState = STATE_VERIFY
        ∨ a.currentState = STATE_READY → a.lamps = b.lamps)
    ∧ ((a.previousState ≠ a.currentState ∧ b.previousState ≠ b.currentState) ∨ sameEntry d a b)

/-- The tick input `i` presented `d` ms later. -/
def later (d : Nat) (i : Inputs) : Inputs :=
  { i with millisEntry := i.millisEntry + d, millisBlink := i.millisBlink + d,
           millisTimeout := i.millisTimeout + d, millisCheck := i.millisCheck + d,
           millisStamp := i.millisStamp + d }

/-- A frame whose bytes all become available `T` ms after the call of
`readQRCode`. -/
def burst (T : Nat) (bytes : List Nat) : Rx := bytes.map (fun b => (T, b))

/-- The controller waiting for the bobbins since clock value 2200. -/
def waitingState : Controller :=
  run (boot false lampsOff) [steady 2000 cardRedBlue [], steady 2100 cardRedBlue [], noBobbins 2200]

/-- The last lamp write among the events, if any. -/
def lastLampWrite (events : List Event) : Option Lamps :=
  events.foldl (fun acc e =>
    match e with
    | Event.lamps r1 r2 a1 a2 => some ⟨r1, r2, a1, a2⟩
    | _ => acc) none

/-- A tick at clock value `millis` in which the helper finds both bobbins and
the state handler, sampling after it, finds bobbin 1 gone. -/
def bobbinSlips (millis : Nat) : Inputs :=
  { steady millis cardRedBlue [] with bobbin1 := false }

theorem trim_sublist (s : Str) : List.Sublist (trim s) s := by
  unfold trim
  have h1 : List.Sublist ((s.dropWhile isSpace).reverse.dropWhile isSpace)
      (s.dropWhile isSpace).reverse := List.dropWhile_sublist _
  have h2 := List.reverse_sublist.mpr h1
  rw [List.reverse_reverse] at h2
  exact h2.trans (List.dropWhile_sublist _)

theorem dropWhile_isSpace_of_head (s : Str) (h : ∀ c, s.head? = some c → isSpace c = false) :
    s.dropWhile isSpace = s := by
  cases s with
  | nil => rfl
  | cons a t =>
    have ha := h a rfl
    simp [List.dropWhile, ha]

/-- A string that neither starts nor ends with white space is left as it is. -/
theorem trim_eq_self (s : Str) (hh : ∀ c, s.head? = some c → isSpace c = false)
    (hl : ∀ c, s.getLast? = some c → isSpace c = false) : trim s = s := by
  unfold trim
  rw [dropWhile_isSpace_of_head s hh, dropWhile_isSpace_of_head s.reverse, List.reverse_reverse]
  intro c hc
  rw [List.head?_reverse] at hc
  exact hl c hc

theorem trim_eq_nil_iff (s : Str) : trim s = [] ↔ ∀ c ∈ s, isSpace c = true := by
  unfold trim
  rw [List.reverse_eq_nil_iff, List.dropWhile_eq_nil_iff]
  constructor
  · intro h c hc
    by_cases hd : c ∈ s.dropWhile isSpace
    · exact h c (List.mem_reverse.mpr hd)
    · by_contra hsp
      apply hd
      clear h hd
      induction s with
      | nil => cases hc
      | cons a t ih =>
        by_cases ha : isSpace a = true
        · simp only [List.dropWhile, ha]
          rcases List.mem_cons.mp hc with h1 | h1
          · exact absurd (h1 ▸ ha) hsp
          · exact ih h1
        · have : isSpace a = false := by simpa using ha
          simp only [List.dropWhile, this]
          exact hc
  · intro h c hc
    exact h c ((List.dropWhile_sublist _).subset (List.mem_reverse.mp hc))

theorem byteArrayToStringLoop_eq (buffer : List Nat) (n : Nat) (result : Str) :
    byteArrayToStringLoop buffer n result
      = result ++ (((buffer.take n).takeWhile (fun b => b != 0)).filter
          (fun b => 32 ≤ b && b ≤ 126)) := by
  induction buffer generalizing n result with
  | nil => simp [byteArrayToStringLoop]
  | cons b t ih =>
    cases n with
    | zero => simp [byteArrayToStringLoop]
    | succ n =>
      by_cases hb : b = 0
      · simp [byteArrayToStringLoop, hb, List.takeWhile]
      · by_cases hp : (32 ≤ b && b ≤ 126) = true
        · simp only [byteArrayToStringLoop, List.take_succ_cons, List.takeWhile_cons]
          simp only [beq_iff_eq, hb, if_false, bne_iff_ne, ne_eq, not_false_eq_true, if_true, hp,
            List.filter_cons, ih, List.append_assoc, List.singleton_append]
        · simp only [byteArrayToStringLoop, List.take_succ_cons, List.takeWhile_cons]
          simp only [beq_iff_eq, hb, if_false, bne_iff_ne, ne_eq, not_false_eq_true, if_true, hp,
            List.filter_cons, ih]
          simp

theorem equalsIgnoreCaseLoop_eq (a b : Str) (h : a.length = b.length) :
    equalsIgnoreCaseLoop a b = eqIgnoringAsciiCase a b := by
  induction a generalizing b with
  | nil =>
    cases b with
    | nil => simp [equalsIgnoreCaseLoop, eqIgnoringAsciiCase]
    | cons y t => simp at h
  | cons x s ih =>
    cases b with
    | nil => simp at h
    | cons y t =>
      have hlen : s.length = t.length := by simpa using h
      have ih2 := ih t hlen
      unfold eqIgnoringAsciiCase at ih2 ⊢
      by_cases hxy : tolower x = tolower y
      · simp [equalsIgnoreCaseLoop, hxy, ih2]
      · simp [equalsIgnoreCaseLoop, hxy]

/-- The library comparison is equality after `tolower` of every character. -/
theorem equalsIgnoreCase_eq (a b : Str) : equalsIgnoreCase a b = eqIgnoringAsciiCase a b := by
  unfold equalsIgnoreCase
  by_cases hlen : a.length = b.length
  · by_cases h0 : a.length = 0
    · have ha : a = [] := List.length_eq_zero.mp h0
      have hb : b = [] := List.length_eq_zero.mp (hlen ▸ h0)
      subst ha hb
      simp [eqIgnoringAsciiCase]
    · simp [hlen, equalsIgnoreCaseLoop_eq a b hlen]
      intro hb
      subst hb
      exact absurd hlen h0
  · have hne : eqIgnoringAsciiCase a b = false := by
      unfold eqIgnoringAsciiCase
      by_contra hc
      have hm : a.map tolower = b.map tolower := by simpa using hc
      apply hlen
      have := congrArg List.length hm
      simpa using this
    simp [hlen, hne]

/-! ## Card decoding -/

/-- C5: for every block buffer, `byteArrayToString(buffer, 16)` is the bytes
before the first NUL among the first 16, restricted to 32..126 in their order,
with surrounding white space removed; the result has at most 16 characters,
all in 32..126, and a block beginning "ABC\x00XYZ" decodes to "ABC". -/
theorem byteArrayToString_block (buffer : List Nat) :
    byteArrayToString buffer 16 = decodeBlockSpec buffer
    ∧ (byteArrayToString buffer 16).length ≤ 16
    ∧ (∀ c ∈ byteArrayToString buffer 16, 32 ≤ c ∧ c ≤ 126)
    ∧ (∀ rest, byteArrayToString ([65, 66, 67, 0, 88, 89, 90] ++ rest) 16 = [65, 66, 67]) := by
  have heq : byteArrayToString buffer 16 = decodeBlockSpec buffer := by
    unfold byteArrayToString decodeBlockSpec
    rw [byteArrayToStringLoop_eq, List.nil_append]
  refine ⟨heq, ?_, ?_, ?_⟩
  · rw [heq]
    unfold decodeBlockSpec
    calc (trim _).length
        ≤ (((buffer.take 16).takeWhile (fun b => b != 0)).filter
            (fun b => 32 ≤ b && b ≤ 126)).length := (trim_sublist _).length_le
      _ ≤ ((buffer.take 16).takeWhile (fun b => b != 0)).length :=
          (List.filter_sublist _).length_le
      _ ≤ (buffer.take 16).length := (List.takeWhile_sublist _).length_le
      _ ≤ 16 := List.length_take_le 16 buffer
  · intro c hc
    rw [heq] at hc
    have hmem := (trim_sublist _).subset hc
    have hp := (List.mem_filter.mp hmem).2
    simpa using hp
  · intro rest
    simp [byteArrayToString, byteArrayToStringLoop, trim, isSpace]

/-- C6: `readKanbanCard` reports bypass exactly when the serial read, the
authentication and the read of block 4 succeed and block 4 decodes to a string
equal to "bypass" ignoring ASCII case; it then returns true, leaves `thread2`
empty and issues neither an authentication nor a read of block 5. -/
theorem readKanbanCard_bypass_iff (c : CardReply) :
    ((readKanbanCard c).data.isBypass = true ↔
      (c.serialOk = true ∧ c.auth4 = true ∧ ∃ buffer1, c.block4 = some buffer1 ∧
        eqIgnoringAsciiCase (byteArrayToString buffer1 16) BYPASS_KEYWORD = true))
    ∧ ((readKanbanCard c).data.isBypass = true →
      ((readKanbanCard c).ok = true ∧ (readKanbanCard c).data.thread2 = []
        ∧ RfidOp.PCD_Authenticate 5 ∉ (readKanbanCard c).ops
        ∧ RfidOp.MIFARE_Read 5 ∉ (readKanbanCard c).ops)) := by
  rcases c with ⟨sf, ncp, sr, a4, b4, a5, b5, us, ub⟩
  cases b4 with
  | none =>
    cases sf <;> cases ncp <;> cases sr <;> cases a4 <;>
      simp [readKanbanCard, readKanbanBlocks, CardReply.serialOk]
  | some buffer1 =>
    by_cases hb : eqIgnoringAsciiCase (byteArrayToString buffer1 16) BYPASS_KEYWORD = true
    · cases sf <;> cases ncp <;> cases sr <;> cases a4 <;>
        simp [readKanbanCard, readKanbanBlocks, CardReply.serialOk, equalsIgnoreCase_eq, hb,
          BLOCK_THREAD1, BLOCK_THREAD2]
    · cases sf <;> cases ncp <;> cases sr <;> cases a4 <;> cases a5 <;> cases b5 <;>
        simp [readKanbanCard, readKanbanBlocks, CardReply.serialOk, equalsIgnoreCase_eq, hb,
          BLOCK_THREAD1, BLOCK_THREAD2]

/-- A card with "BYPASS" in upper case in block 4 is accepted as bypass,
without any access to block 5. -/
theorem readKanbanCard_bypass_iff_witness :
    (readKanbanCard cardUpperBypass).ok = true
      ∧ (readKanbanCard cardUpperBypass).data.thread2 = []
      ∧ RfidOp.PCD_Authenticate 5 ∉ (readKanbanCard cardUpperBypass).ops
      ∧ RfidOp.MIFARE_Read 5 ∉ (readKanbanCard cardUpperBypass).ops :=
  (readKanbanCard_bypass_iff cardUpperBypass).2
    ((readKanbanCard_bypass_iff cardUpperBypass).1.mpr
      ⟨by decide, by decide, blockUpperBypass, rfl, by decide⟩)

/-! ## The scanner frame reader -/

/-- Invariant rule for the polling loop of `readQRCode`: a property of the
locals kept by every pass of the inner loop before the timeout holds of the
locals on exit, and the loop does exit within `fuel` passes. -/
theorem qrOuter_inv (P : QrLocals → Prop) (timeoutMs : Nat)
    (hstep : ∀ now l, now < timeoutMs → P l →
      P (qrInner now l.rx l.headerBytes l.headerSkipped l.qrData)) :
    ∀ fuel now l, timeoutMs - now < fuel → P l →
      ∃ l1, P l1 ∧ qrOuter fuel timeoutMs now l = some l1.qrData := by
  intro fuel
  induction fuel with
  | zero => intro now l h; omega
  | succ n ih =>
    intro now l h hP
    unfold qrOuter
    by_cases hlt : now < timeoutMs
    · have h1 := hstep now l hlt hP
      simp only [hlt, if_true]
      split
      · split
        · exact ⟨_, h1, rfl⟩
        · exact ih _ _ (by simp only [QR_READ_DELAY, QR_POLL_DELAY]; omega) h1
      · exact ih _ _ (by simp only [QR_POLL_DELAY]; omega) h1
    · simp only [hlt, if_false]
      exact ⟨l, hP, rfl⟩

/-- The loop of `readQRCode` ends: the function returns a string. -/
theorem readQRCodeRaw_total (rx : Rx) (timeoutMs : Nat) :
    ∃ raw, readQRCodeRaw rx timeoutMs = some raw := by
  obtain ⟨l1, _, h⟩ := qrOuter_inv (fun _ => True) timeoutMs (fun _ _ _ _ => trivial)
    (timeoutMs + 1) 0 ⟨rx, 0, false, []⟩ (by omega) trivial
  exact ⟨_, h⟩

theorem readQRCode_total (rx : Rx) (timeoutMs : Nat) :
    ∃ r, readQRCode rx timeoutMs = some r := by
  obtain ⟨raw, h⟩ := readQRCodeRaw_total rx timeoutMs
  exact ⟨trim raw, by simp [readQRCode, h]⟩

theorem qrInner_printable (now : Nat) : ∀ (rx : Rx) (hb : Nat) (hs : Bool) (qd : Str),
    (∀ c ∈ qd, 32 ≤ c ∧ c ≤ 126) →
    ∀ c ∈ (qrInner now rx hb hs qd).qrData, 32 ≤ c ∧ c ≤ 126 := by
  intro rx
  induction rx with
  | nil => intro hb hs qd h; simpa [qrInner] using h
  | cons p rest ih =>
    obtain ⟨t, b⟩ := p
    intro hb hs qd h
    unfold qrInner
    split
    · split
      · exact ih _ _ _ h
      · split
        · split
          · exact h
          · exact ih _ _ _ h
        · split
          · rename_i hpr
            apply ih
            intro c hc
            rcases List.mem_append.mp hc with h1 | h1
            · exact h c h1
            · have : c = b := by simpa using h1
              subst this
              simpa using hpr
          · exact ih _ _ _ h
    · exact h

/-- While the timeout has not passed, the inner loop appends nothing but
spaces when every payload byte other than a space arrives after the timeout. -/
theorem qrInner_spaces (timeoutMs now : Nat) (hnow : now < timeoutMs) :
    ∀ (rx : Rx) (hb : Nat) (hs : Bool) (qd : Str),
    (hs = true ↔ 7 ≤ hb) →
    (∀ p ∈ rx.drop (7 - hb), 33 ≤ p.2 → p.2 ≤ 126 → timeoutMs ≤ p.1) →
    (∀ c ∈ qd, c = 32) →
    ((qrInner now rx hb hs qd).headerSkipped = true ↔ 7 ≤ (qrInner now rx hb hs qd).headerBytes)
    ∧ (∀ p ∈ (qrInner now rx hb hs qd).rx.drop (7 - (qrInner now rx hb hs qd).headerBytes),
        33 ≤ p.2 → p.2 ≤ 126 → timeoutMs ≤ p.1)
    ∧ (∀ c ∈ (qrInner now rx hb hs qd).qrData, c = 32) := by
  intro rx
  induction rx with
  | nil => intro hb hs qd h1 h2 h3; simpa [qrInner] using ⟨h1, h3⟩
  | cons p rest ih =>
    obtain ⟨t, b⟩ := p
    intro hb hs qd h1 h2 h3
    unfold qrInner
    by_cases ht : t ≤ now
    · simp only [ht, if_true]
      cases hs with
      | false =>
        have hlt : hb < 7 := by
          by_contra hc
          have := h1.mpr (by omega)
          cases this
        simp only [Bool.not_false, if_true]
        apply ih
        · simp
        · intro q hq
          apply h2 q
          have : 7 - hb = (7 - (hb + 1)) + 1 := by omega
          rw [this, List.drop_succ_cons]
          exact hq
        · exact h3
      | true =>
        have hge : 7 ≤ hb := h1.mp rfl
        have h70 : 7 - hb = 0 := by omega
        rw [h70] at h2
        have hrest : ∀ q ∈ rest.drop (7 - hb), 33 ≤ q.2 → q.2 ≤ 126 → timeoutMs ≤ q.1 := by
          intro q hq
          rw [h70] at hq
          exact h2 q (List.mem_cons_of_mem _ (by simpa using hq))
        simp only [Bool.not_true, Bool.false_eq_true, if_false]
        split
        · split
          · exact ⟨h1, hrest, h3⟩
          · exact ih _ _ _ h1 hrest h3
        · split
          · rename_i hpr
            apply ih _ _ _ h1 hrest
            intro c hc
            rcases List.mem_append.mp hc with hc1 | hc1
            · exact h3 c hc1
            · have hcb : c = b := by simpa using hc1
              subst hcb
              have hpr2 : 32 ≤ c ∧ c ≤ 126 := by simpa using hpr
              by_contra hne
              have := h2 (t, c) (by simp) (by simp only; omega) hpr2.2
              simp only at this
              omega
          · exact ih _ _ _ h1 hrest h3
    · simp only [ht, if_false]
      exact ⟨h1, h2, h3⟩

theorem qrInner_header (now : Nat) (header : List Nat) (hh : header.length = 7) (rest : Rx)
    (qd : Str) :
    qrInner now (buffered header ++ rest) 0 false qd = qrInner now rest 7 true qd := by
  match header, hh with
  | [a, b, c, d, e, f, g], _ => simp [buffered, qrInner]

theorem qrInner_payload (now : Nat) (rest : Rx) (hb : Nat) : ∀ (payload : List Nat) (qd : Str),
    (∀ b ∈ payload, 32 ≤ b ∧ b ≤ 126) →
    qrInner now (buffered payload ++ rest) hb true qd = qrInner now rest hb true (qd ++ payload) := by
  intro payload
  induction payload with
  | nil => intro qd _; simp [buffered]
  | cons b t ih =>
    intro qd h
    have hb1 := h b (List.mem_cons_self _ _)
    have hne : ¬ (b = 13 ∨ b = 10) := by omega
    have ih2 := ih (qd ++ [b]) (fun c hc => h c (List.mem_cons_of_mem _ hc))
    simp only [buffered, List.map_cons, List.cons_append] at ih2 ⊢
    conv_lhs => unfold qrInner
    simp [hne, hb1.1, hb1.2, ih2]

/-- The claim C7 as written fails: a frame of "RED" whose bytes all arrive within
100 ms, long before the 5000 ms timeout, but with a pause after "RE", is
returned as "RE", because the loop leaves after one quiet `QR_READ_DELAY`. -/
theorem readQRCode_gap_counterexample :
    (∀ p ∈ rxGap, p.1 < 5000) ∧ rxGap.map Prod.snd = frameRED
      ∧ readQRCode rxGap 5000 = some [82, 69]
      ∧ readQRCode rxGap 5000 ≠ some [82, 69, 68] := by
  decide

/-- A frame that is whole in the receive buffer when `readQRCode` is called
with a positive timeout is read in the first pass of the loop. -/
theorem readQRCode_buffered (header payload : List Nat) (term timeoutMs : Nat)
    (hh : header.length = 7) (hne : payload ≠ [])
    (hp : ∀ b ∈ payload, 32 ≤ b ∧ b ≤ 126)
    (hfirst : payload.head? ≠ some 32) (hlast : payload.getLast? ≠ some 32)
    (ht : term = 13 ∨ term = 10) (hto : 0 < timeoutMs) :
    readQRCode (buffered (header ++ payload ++ [term])) timeoutMs = some payload := by
  have hlen : 0 < payload.length := List.length_pos.mpr hne
  have hsplit : buffered (header ++ payload ++ [term])
      = buffered header ++ (buffered payload ++ [(0, term)]) := by
    simp [buffered]
  have hinner : qrInner 0 (buffered (header ++ payload ++ [term])) 0 false []
      = ⟨[], 7, true, payload⟩ := by
    rw [hsplit, qrInner_header 0 header hh, qrInner_payload 0 _ 7 payload [] hp]
    unfold qrInner
    simp [ht, hlen, qrInner]
  have hsp : ∀ c, 32 ≤ c ∧ c ≤ 126 → c ≠ 32 → isSpace c = false := by
    intro c hc hne32
    simp only [isSpace, Bool.or_eq_false_iff, beq_eq_false_iff_ne, ne_eq, hne32,
      not_false_eq_true, Bool.and_eq_false_imp, decide_eq_true_eq, decide_eq_false_iff_not,
      true_and]
    omega
  have htrim : trim payload = payload := by
    apply trim_eq_self
    · intro c hc
      have hmem : c ∈ payload := List.mem_of_mem_head? hc
      exact hsp c (hp c hmem) (fun h => hfirst (h ▸ hc))
    · intro c hc
      have hmem : c ∈ payload := List.mem_of_mem_getLast? hc
      exact hsp c (hp c hmem) (fun h => hlast (h ▸ hc))
  unfold readQRCode readQRCodeRaw qrOuter
  simp only [hto, if_true, hinner]
  simp [hlen, available, htrim]

theorem qrInner_rx_subset (now : Nat) : ∀ (rx : Rx) (hb : Nat) (hs : Bool) (qd : Str),
    ∀ p ∈ (qrInner now rx hb hs qd).rx, p ∈ rx := by
  intro rx
  induction rx with
  | nil => intro hb hs qd p hp; simp [qrInner] at hp
  | cons x rest ih =>
    obtain ⟨t, b⟩ := x
    intro hb hs qd p
    unfold qrInner
    split
    · split
      · exact fun hp => List.mem_cons_of_mem _ (ih _ _ _ p hp)
      · split
        · split
          · exact fun hp => List.mem_cons_of_mem _ hp
          · exact fun hp => List.mem_cons_of_mem _ (ih _ _ _ p hp)
        · split
          · exact fun hp => List.mem_cons_of_mem _ (ih _ _ _ p hp)
          · exact fun hp => List.mem_cons_of_mem _ (ih _ _ _ p hp)
    · exact fun hp => hp

/-- The inner loop on a queue that starts with header bytes: either the whole
header is skipped, or it stops at a header byte that has not arrived. -/
theorem qrInner_header_phase (now : Nat) (rest : Rx) : ∀ (H : Rx) (hb : Nat),
    hb + H.length = 7 → H ≠ [] →
    qrInner now (H ++ rest) hb false [] = qrInner now rest 7 true []
    ∨ ∃ t b H3 hb3, hb3 + (H3.length + 1) = 7 ∧ now < t ∧
        qrInner now (H ++ rest) hb false [] = ⟨(t, b) :: H3 ++ rest, hb3, false, []⟩ := by
  intro H
  induction H with
  | nil => intro hb _ h; exact absurd rfl h
  | cons x H2 ih =>
    obtain ⟨t, b⟩ := x
    intro hb hlen _
    simp only [List.length_cons] at hlen
    by_cases ht : t ≤ now
    · cases H2 with
      | nil =>
        left
        have h6 : hb = 6 := by simpa using hlen
        subst h6
        simp [qrInner, ht]
      | cons y H3 =>
        have hlt : ¬ (hb + 1 ≥ 7) := by simp only [List.length_cons] at hlen; omega
        have hstep : qrInner now ((t, b) :: (y :: H3) ++ rest) hb false []
            = qrInner now ((y :: H3) ++ rest) (hb + 1) false [] := by
          conv_lhs => unfold qrInner
          simp [ht, hlt]
        rw [hstep]
        exact ih (hb + 1) (by omega) (by simp)
    · right
      refine ⟨t, b, H2, hb, hlen, by omega, ?_⟩
      conv_lhs => unfold qrInner
      simp [ht]

/-- The inner loop on a queue that holds the rest of the payload and the
terminator: either it reads up to the terminator, or it stops at a byte that
has not arrived, having appended the payload bytes before it. -/
theorem qrInner_payload_phase (now : Nat) (T : Nat × Nat) (hT : T.2 = 13 ∨ T.2 = 10) :
    ∀ (P2 : Rx) (qd : Str), (∀ p ∈ P2, 32 ≤ p.2 ∧ p.2 ≤ 126) → (qd ≠ [] ∨ P2 ≠ []) →
    qrInner now (P2 ++ [T]) 7 true qd = ⟨[], 7, true, qd ++ P2.map Prod.snd⟩
    ∨ ∃ A B, P2 = A ++ B ∧ (∀ p ∈ A, p.1 ≤ now)
        ∧ (∃ t b R, B ++ [T] = (t, b) :: R ∧ now < t)
        ∧ qrInner now (P2 ++ [T]) 7 true qd = ⟨B ++ [T], 7, true, qd ++ A.map Prod.snd⟩ := by
  obtain ⟨tt, term⟩ := T
  simp only at hT
  intro P2
  induction P2 with
  | nil =>
    intro qd _ hne
    have hqd : qd ≠ [] := by simpa using hne
    have hlen : 0 < qd.length := List.length_pos.mpr hqd
    by_cases ht : tt ≤ now
    · left
      simp [qrInner, ht, hT, hlen]
    · right
      refine ⟨[], [], rfl, by simp, ⟨tt, term, [], rfl, by omega⟩, ?_⟩
      simp [qrInner, ht]
  | cons x P3 ih =>
    obtain ⟨t, b⟩ := x
    intro qd hp _
    have hb := hp (t, b) (List.mem_cons_self _ _)
    simp only at hb
    have hne : ¬ (b = 13 ∨ b = 10) := by omega
    by_cases ht : t ≤ now
    · have hstep : qrInner now ((t, b) :: P3 ++ [(tt, term)]) 7 true qd
          = qrInner now (P3 ++ [(tt, term)]) 7 true (qd ++ [b]) := by
        conv_lhs => unfold qrInner
        simp [ht, hne, hb.1, hb.2]
      rw [hstep]
      rcases ih (qd ++ [b]) (fun p hp2 => hp p (List.mem_cons_of_mem _ hp2)) (Or.inl (by simp))
        with h | ⟨A, B, hAB, hA, hB, h⟩
      · left
        rw [h]
        simp
      · right
        refine ⟨(t, b) :: A, B, by simp [hAB], ?_, hB, ?_⟩
        · intro p hp2
          rcases List.mem_cons.mp hp2 with h1 | h1
          · rw [h1]; exact ht
          · exact hA p h1
        · rw [h]
          simp
    · right
      refine ⟨[], (t, b) :: P3, rfl, by simp, ⟨t, b, P3 ++ [(tt, term)], rfl, by omega⟩, ?_⟩
      conv_lhs => unfold qrInner
      simp [ht]


/-- The polling loop on a frame in transit: from a state inside the header or
inside the payload it ends with the whole payload, provided every byte arrives
no later than the terminator, consecutive bytes from the first payload byte on
are at most 50 ms apart and the terminator arrives 60 ms before the timeout. -/
theorem qrOuter_frame (P : Rx) (tt term timeoutMs : Nat)
    (hP : P ≠ []) (hprint : ∀ p ∈ P, 32 ≤ p.2 ∧ p.2 ≤ 126) (hterm : term = 13 ∨ term = 10)
    (hgap : List.Chain' (fun a b => b ≤ a + 50) ((P ++ [(tt, term)]).map Prod.fst))
    (hlate : tt + 60 ≤ timeoutMs) :
    ∀ (fuel now : Nat) (l : QrLocals), timeoutMs - now < fuel → now < timeoutMs →
      (∀ p ∈ l.rx, p.1 ≤ tt) →
      ((∃ H hb, H ≠ [] ∧ hb + H.length = 7 ∧ l = ⟨H ++ (P ++ [(tt, term)]), hb, false, []⟩)
        ∨ (∃ P1 P2, P = P1 ++ P2 ∧ (∀ p ∈ P1, p.1 ≤ now)
            ∧ l = ⟨P2 ++ [(tt, term)], 7, true, P1.map Prod.snd⟩)) →
      qrOuter fuel timeoutMs now l = some (P.map Prod.snd) := by
  intro fuel
  induction fuel with
  | zero => intro now l h; omega
  | succ n ih =>
    intro now l hfuel hnow hrx hform
    have hbody : qrOuter (n + 1) timeoutMs now l
        = (fun l1 : QrLocals =>
            if l1.qrData.length > 0 && l1.headerSkipped then
              if !available (now + QR_READ_DELAY) l1.rx then some l1.qrData
              else qrOuter n timeoutMs (now + QR_READ_DELAY + QR_POLL_DELAY) l1
            else qrOuter n timeoutMs (now + QR_POLL_DELAY) l1)
          (qrInner now l.rx l.headerBytes l.headerSkipped l.qrData) := by
      conv_lhs => unfold qrOuter
      simp only [hnow, if_true]
    rw [hbody]
    have hpay : ∀ P1 P2, P = P1 ++ P2 → (∀ p ∈ P1, p.1 ≤ now) →
        (∀ p ∈ P2 ++ [(tt, term)], p.1 ≤ tt) →
        (fun l1 : QrLocals =>
            if l1.qrData.length > 0 && l1.headerSkipped then
              if !available (now + QR_READ_DELAY) l1.rx then some l1.qrData
              else qrOuter n timeoutMs (now + QR_READ_DELAY + QR_POLL_DELAY) l1
            else qrOuter n timeoutMs (now + QR_POLL_DELAY) l1)
          (qrInner now (P2 ++ [(tt, term)]) 7 true (P1.map Prod.snd))
          = some (P.map Prod.snd) := by
      intro P1 P2 hPP hP1 hP2
      have hne : P1.map Prod.snd ≠ [] ∨ P2 ≠ [] := by
        by_cases h2 : P2 = []
        · left
          subst h2
          simp only [List.append_nil] at hPP
          subst hPP
          simpa using hP
        · exact Or.inr h2
      rcases qrInner_payload_phase now (tt, term) hterm P2 (P1.map Prod.snd)
          (fun p hp => hprint p (by rw [hPP]; exact List.mem_append_right _ hp)) hne
        with h | ⟨A, B, hAB, hA, ⟨t, b, R, hBR, hlt⟩, h⟩
      · rw [h]
        have hlen : 0 < (P1.map Prod.snd ++ P2.map Prod.snd).length := by
          rw [← List.map_append, ← hPP, List.length_map]
          exact List.length_pos.mpr hP
        simp only [gt_iff_lt, hlen, decide_True, Bool.and_self, if_true, available]
        simp [hPP]
      · rw [h]
        have htmem : (t, b) ∈ P2 ++ [(tt, term)] := by
          rw [hAB, List.append_assoc, hBR]
          exact List.mem_append_right _ (List.mem_cons_self _ _)
        have httt : t ≤ tt := hP2 _ htmem
        have hPA : P = (P1 ++ A) ++ B := by rw [hPP, hAB, List.append_assoc]
        have hPAt : ∀ p ∈ P1 ++ A, p.1 ≤ now := by
          intro p hp
          rcases List.mem_append.mp hp with h1 | h1
          · exact hP1 p h1
          · exact hA p h1
        have hrest : ∀ p ∈ B ++ [(tt, term)], p.1 ≤ tt := by
          intro p hp
          apply hP2
          rw [hAB, List.append_assoc]
          exact List.mem_append_right _ hp
        by_cases hq : P1 ++ A = []
        · have hq2 : P1.map Prod.snd ++ A.map Prod.snd = [] := by
            rw [← List.map_append, hq]; rfl
          simp only [hq2, List.length_nil, gt_iff_lt, lt_self_iff_false, decide_False,
            Bool.false_and, Bool.false_eq_true, if_false]
          apply ih
          · simp only [QR_POLL_DELAY]; omega
          · simp only [QR_POLL_DELAY]; omega
          · exact hrest
          · right
            refine ⟨P1 ++ A, B, hPA, ?_, ?_⟩
            · intro p hp
              rw [hq] at hp
              cases hp
            · rw [List.map_append, hq2]
        · have hlen : 0 < (P1.map Prod.snd ++ A.map Prod.snd).length := by
            rw [← List.map_append, List.length_map]
            exact List.length_pos.mpr hq
          have hsplit : (P ++ [(tt, term)]).map Prod.fst
              = (P1 ++ A).map Prod.fst ++ (B ++ [(tt, term)]).map Prod.fst := by
            rw [hPA, List.append_assoc, List.map_append]
          rw [hsplit] at hgap
          obtain ⟨-, -, hjoin⟩ := List.chain'_append.mp hgap
          obtain ⟨x, hx⟩ : ∃ x, ((P1 ++ A).map Prod.fst).getLast? = some x := by
            cases hgl : ((P1 ++ A).map Prod.fst).getLast? with
            | none =>
              rw [List.getLast?_eq_none_iff] at hgl
              simp at hgl
              exact absurd hgl (by simpa using hq)
            | some x => exact ⟨x, rfl⟩
          have hxnow : x ≤ now := by
            have hxm : x ∈ (P1 ++ A).map Prod.fst := List.mem_of_mem_getLast? hx
            obtain ⟨p, hp, hpx⟩ := List.mem_map.mp hxm
            rw [← hpx]
            exact hPAt p hp
          have hy : ((B ++ [(tt, term)]).map Prod.fst).head? = some t := by
            rw [hBR]; rfl
          have htgap : t ≤ x + 50 := hjoin x hx t hy
          have hav : available (now + QR_READ_DELAY) (B ++ [(tt, term)]) = true := by
            rw [hBR]
            simp only [available, QR_READ_DELAY, decide_eq_true_eq]
            omega
          simp only [gt_iff_lt, hlen, decide_True, Bool.and_self, if_true, hav, Bool.not_true,
            Bool.false_eq_true, if_false]
          apply ih
          · simp only [QR_READ_DELAY, QR_POLL_DELAY]; omega
          · simp only [QR_READ_DELAY, QR_POLL_DELAY]; omega
          · exact hrest
          · right
            refine ⟨P1 ++ A, B, hPA, ?_, ?_⟩
            · intro p hp
              have := hPAt p hp
              omega
            · rw [List.map_append]
    rcases hform with ⟨H, hb, hH, hlen, hl⟩ | ⟨P1, P2, hPP, hP1, hl⟩
    · subst hl
      simp only at hrx ⊢
      rcases qrInner_header_phase now (P ++ [(tt, term)]) H hb hlen hH
        with h | ⟨t, b, H3, hb3, hlen3, hlt, h⟩
      · rw [h]
        have := hpay [] P rfl (by simp)
          (fun p hp => hrx p (List.mem_append_right _ hp))
        simpa using this
      · rw [h]
        have htmem : (t, b) ∈ H ++ (P ++ [(tt, term)]) := by
          have := qrInner_rx_subset now (H ++ (P ++ [(tt, term)])) hb false [] (t, b)
          rw [h] at this
          exact this (by simp)
        have httt : t ≤ tt := hrx _ htmem
        simp only [List.length_nil, gt_iff_lt, lt_self_iff_false, decide_False, Bool.false_and,
          Bool.false_eq_true, if_false]
        apply ih
        · simp only [QR_POLL_DELAY]; omega
        · simp only [QR_POLL_DELAY]; omega
        · intro p hp
          have := qrInner_rx_subset now (H ++ (P ++ [(tt, term)])) hb false [] p
          rw [h] at this
          exact hrx p (this hp)
        · left
          exact ⟨(t, b) :: H3, hb3, by simp, by simpa using hlen3, by simp⟩
    · subst hl
      simp only at hrx ⊢
      exact hpay P1 P2 hPP hP1 hrx


theorem buffered_of_times_zero : ∀ (l : Rx), (∀ p ∈ l, p.1 = 0) → l = buffered (l.map Prod.snd) := by
  intro l
  induction l with
  | nil => intro _; rfl
  | cons x t ih =>
    intro h
    obtain ⟨a, b⟩ := x
    have ha : a = 0 := h (a, b) (List.mem_cons_self _ _)
    subst ha
    have := ih (fun p hp => h p (List.mem_cons_of_mem _ hp))
    simp only [buffered, List.map_cons, List.map_map] at this ⊢
    rw [← this]

/-- C7 (amended): for every 7-byte header (any byte values), every non-empty
payload of bytes in 32..126 that neither starts nor ends with a space, and a
terminating CR or LF with nothing after it, `readQRCode` returns exactly the
payload when no byte arrives later than the terminator, consecutive bytes
from the first payload byte on arrive at most 50 ms apart, and the terminator
arrives at least 60 ms before the timeout (or the whole frame is already in the
receive buffer at the call and the timeout is positive). -/
theorem readQRCode_frame (H P : Rx) (tt term timeoutMs : Nat)
    (hH : H.length = 7) (hP : P ≠ [])
    (hprint : ∀ p ∈ P, 32 ≤ p.2 ∧ p.2 ≤ 126)
    (hfirst : (P.map Prod.snd).head? ≠ some 32)
    (hlast : (P.map Prod.snd).getLast? ≠ some 32)
    (hterm : term = 13 ∨ term = 10)
    (horder : ∀ p ∈ H ++ P, p.1 ≤ tt)
    (hgap : List.Chain' (fun a b => b ≤ a + 50) ((P ++ [(tt, term)]).map Prod.fst))
    (hlate : tt + 60 ≤ timeoutMs ∨ (tt = 0 ∧ 0 < timeoutMs)) :
    readQRCode (H ++ P ++ [(tt, term)]) timeoutMs = some (P.map Prod.snd) := by
  have hprint2 : ∀ b ∈ P.map Prod.snd, 32 ≤ b ∧ b ≤ 126 := by
    intro b hb
    obtain ⟨p, hp, hpb⟩ := List.mem_map.mp hb
    rw [← hpb]
    exact hprint p hp
  rcases hlate with hlate | ⟨h0, hto⟩
  · have hraw : readQRCodeRaw (H ++ P ++ [(tt, term)]) timeoutMs = some (P.map Prod.snd) := by
      unfold readQRCodeRaw
      apply qrOuter_frame P tt term timeoutMs hP hprint hterm hgap hlate
      · omega
      · omega
      · intro p hp
        simp only [List.append_assoc, List.mem_append, List.mem_singleton] at hp
        rcases hp with h | h | h
        · exact horder p (List.mem_append_left _ h)
        · exact horder p (List.mem_append_right _ h)
        · rw [h]
      · left
        refine ⟨H, 0, ?_, by omega, by simp⟩
        intro hnil
        rw [hnil] at hH
        simp at hH
    have hsp : ∀ c, 32 ≤ c ∧ c ≤ 126 → c ≠ 32 → isSpace c = false := by
      intro c hc hne32
      simp only [isSpace, Bool.or_eq_false_iff, beq_eq_false_iff_ne, ne_eq, hne32,
        not_false_eq_true, Bool.and_eq_false_imp, decide_eq_true_eq, decide_eq_false_iff_not,
        true_and]
      omega
    have htrim : trim (P.map Prod.snd) = P.map Prod.snd := by
      apply trim_eq_self
      · intro c hc
        exact hsp c (hprint2 c (List.mem_of_mem_head? hc)) (fun h => hfirst (h ▸ hc))
      · intro c hc
        exact hsp c (hprint2 c (List.mem_of_mem_getLast? hc)) (fun h => hlast (h ▸ hc))
    unfold readQRCode
    rw [hraw]
    simp [htrim]
  · subst h0
    have hz : ∀ p ∈ H ++ P ++ [(0, term)], p.1 = 0 := by
      intro p hp
      rcases List.mem_append.mp hp with h | h
      · exact Nat.le_zero.mp (horder p h)
      · rw [List.mem_singleton.mp h]
    have hbuf := buffered_of_times_zero _ hz
    rw [hbuf]
    simp only [List.map_append, List.map_cons, List.map_nil]
    exact readQRCode_buffered (H.map Prod.snd) (P.map Prod.snd) term timeoutMs
      (by simpa using hH) (by simpa using hP) hprint2 hfirst hlast hterm hto

/-- A frame of "RED" whose last two bytes arrive 40 ms after the others is
read whole, and so are the buffered frames of "RED" and "BLUE" of the happy
path. -/
theorem readQRCode_frame_witness :
    readQRCode ([(0, 2), (0, 0), (0, 0), (0, 1), (0, 0), (0, 0), (0, 3)]
        ++ [(0, 82), (0, 69), (40, 68)] ++ [(40, 13)]) 5000 = some [82, 69, 68]
    ∧ readQRCode ([(0, 2), (0, 0), (0, 0), (0, 1), (0, 0), (0, 0), (0, 4)]
        ++ [(0, 66), (0, 76), (0, 85), (0, 69)] ++ [(0, 13)]) 5000 = some [66, 76, 85, 69] :=
  ⟨readQRCode_frame [(0, 2), (0, 0), (0, 0), (0, 1), (0, 0), (0, 0), (0, 3)]
      [(0, 82), (0, 69), (40, 68)] 40 13 5000
      (by decide) (by decide) (by decide) (by decide) (by decide) (by decide) (by decide)
      (by simp) (by decide),
    readQRCode_frame [(0, 2), (0, 0), (0, 0), (0, 1), (0, 0), (0, 0), (0, 4)]
      [(0, 66), (0, 76), (0, 85), (0, 69)] 0 13 5000
      (by decide) (by decide) (by decide) (by decide) (by decide) (by decide) (by decide)
      (by simp) (by decide)⟩

/-- C8: two frames of "RED" waiting in the receive buffer are returned as
"REDRED": the CR of the first frame leaves the inner loop only, and the bytes
that follow it are appended on the next pass. -/
theorem readQRCode_two_frames :
    rxTwoFrames = buffered ([2, 0, 0, 1, 0, 0, 3] ++ [82, 69, 68] ++ [13] ++ frameRED)
      ∧ readQRCode rxTwoFrames 5000 = some [82, 69, 68, 82, 69, 68] := by
  decide

set_option maxRecDepth 100000 in
/-- The claim C9 as written fails: a payload of one space arrives within the
timeout and the result is the empty string all the same; and so it is for the
frame of "RED" that arrives 4995 ms after the call, within the timeout of
5000 ms but after the last poll. -/
theorem readQRCode_space_counterexample :
    (∃ p ∈ rxSpace.drop 7, 32 ≤ p.2 ∧ p.2 ≤ 126 ∧ p.1 < 5000)
      ∧ readQRCode rxSpace 5000 = some []
      ∧ (∃ p ∈ (burst 4995 frameRED).drop 7, 32 ≤ p.2 ∧ p.2 ≤ 126 ∧ p.1 < 5000)
      ∧ readQRCode (burst 4995 frameRED) 5000 = some [] := by
  decide


/-! ## The controller: lemmas -/

/-- Once `setMachineOutput` has been called and the pin holds what it wrote,
a call leaves the pin at `enable` and logs on a change only. -/
theorem setMachineOutput_eq (s : Controller) (enable : Bool)
    (hi : s.initialized = true) (hp : s.relay = s.lastState) :
    setMachineOutput s enable =
      { s with relay := enable, lastState := enable,
               trace := s.trace ++ (if s.lastState = enable then []
                 else [Event.relayPin enable, Event.outputLog enable]) } := by
  rcases s with ⟨cs, kd, q1, q2, uid, us, e1, e2, arm, lat, cnt, st, ps, rr, l1, l2, l3, ls, ini,
    rel, lmp, tr⟩
  simp only at hi hp
  subst hi hp
  cases rel <;> cases enable <;> simp [setMachineOutput]

/-- The boot state does not depend on the pin levels at power-on. -/
theorem boot_eq (relay : Bool) (lamps : Lamps) : boot relay lamps = boot false lampsOff := by
  simp [boot, setup, setupRFID, setupPins, powerOn, emit, updateLEDs, setMachineOutput]

theorem inv_boot (relay : Bool) (lamps : Lamps) : Inv (boot relay lamps) := by
  simp [Inv, boot, setup, setupRFID, setupPins, powerOn, emit, updateLEDs, setMachineOutput]

/-- The reset helper fires exactly when armed, latched before the call, and a
bobbin is missing. -/
theorem reset_fires_iff (s : Controller) (b1 b2 : Bool) :
    (handleResetIfBobbinRemoved s b1 b2).1 = true ↔
      (s.resetMonitoringArmed = true ∧ s.bobbinsLatched = true ∧ ¬ (b1 = true ∧ b2 = true)) := by
  cases ha : s.resetMonitoringArmed <;> cases hl : s.bobbinsLatched <;> cases b1 <;> cases b2 <;>
    simp [handleResetIfBobbinRemoved, ha, hl]

theorem reset_false_eq (s : Controller) (b1 b2 : Bool)
    (h : (handleResetIfBobbinRemoved s b1 b2).1 = false) :
    (handleResetIfBobbinRemoved s b1 b2).2
      = { s with bobbinsLatched := s.bobbinsLatched || (s.resetMonitoringArmed && b1 && b2) } := by
  revert h
  rcases s with ⟨cs, kd, q1, q2, uid, us, e1, e2, arm, lat, cnt, st, ps, rr, l1, l2, l3, ls, ini,
    rel, lmp, tr⟩
  cases arm <;> cases lat <;> cases b1 <;> cases b2 <;>
    simp [handleResetIfBobbinRemoved]

theorem reset_true_eq (s : Controller) (b1 b2 : Bool)
    (h : (handleResetIfBobbinRemoved s b1 b2).1 = true) :
    (handleResetIfBobbinRemoved s b1 b2).2
      = { clearProcessData (delay (setMachineOutput (updateLEDs s false false true true) false)
            RESET_ALARM_DELAY) with currentState := STATE_WAIT_KANBAN } := by
  revert h
  rcases s with ⟨cs, kd, q1, q2, uid, us, e1, e2, arm, lat, cnt, st, ps, rr, l1, l2, l3, ls, ini,
    rel, lmp, tr⟩
  cases arm <;> cases lat <;> cases b1 <;> cases b2 <;>
    simp [handleResetIfBobbinRemoved]

theorem resetFires_detect (s : Controller) (i : Inputs) :
    (handleResetIfBobbinRemoved (detectStateChange s i) i.resetBobbin1 i.resetBobbin2).1
      = resetFires s i := by
  have hd : (detectStateChange s i).resetMonitoringArmed = s.resetMonitoringArmed
      ∧ (detectStateChange s i).bobbinsLatched = s.bobbinsLatched := by
    unfold detectStateChange
    split <;> exact ⟨rfl, rfl⟩
  have h1 := reset_fires_iff (detectStateChange s i) i.resetBobbin1 i.resetBobbin2
  have h2 := reset_fires_iff s i.resetBobbin1 i.resetBobbin2
  rw [hd.1, hd.2] at h1
  unfold resetFires
  exact Bool.eq_iff_iff.mpr (h1.trans h2.symm)

/-- A tick in which the reset helper does not fire runs the state handler, on
the controller with the entry time recorded and the latch updated. -/
theorem tick_quiet (s : Controller) (i : Inputs) (h : resetFires s i = false) :
    handleStateMachine s i
      = stateHandler { detectStateChange s i with
          bobbinsLatched := (detectStateChange s i).bobbinsLatched
            || ((detectStateChange s i).resetMonitoringArmed && i.resetBobbin1 && i.resetBobbin2) }
          i := by
  have hr := resetFires_detect s i
  rw [h] at hr
  unfold handleStateMachine
  simp only [hr, Bool.false_eq_true, if_false]
  rw [reset_false_eq _ _ _ hr]

/-- A tick in which the reset helper fires ends with its reset sequence. -/
theorem tick_fired (s : Controller) (i : Inputs) (h : resetFires s i = true) :
    handleStateMachine s i
      = { clearProcessData (delay (setMachineOutput
            (updateLEDs (detectStateChange s i) false false true true) false)
            RESET_ALARM_DELAY) with currentState := STATE_WAIT_KANBAN } := by
  have hr := resetFires_detect s i
  rw [h] at hr
  unfold handleStateMachine
  simp only [hr, if_true]
  rw [reset_true_eq _ _ _ hr]

theorem inv_stateHandler (s : Controller) (i : Inputs) (h : Inv s) : Inv (stateHandler s i) := by
  obtain ⟨h1, h2, h3, h4, h5, h6, h7, h8, h9, h10⟩ := h
  unfold Inv
  cases hs : s.currentState <;> simp only [hs] at h3 h4 h5 h6 h7 h8 <;>
    simp only [stateHandler, hs, cardCheck, verifyThreads, isKanbanCardStillPresent] <;>
    (try split_ifs) <;>
    simp_all [setMachineOutput_eq, updateLEDs, delay, emit, clearProcessData, cardRemovedReset,
      triggerQRScanner, List.length_pos, CARD_MISSING_THRESHOLD]

theorem inv_detect (s : Controller) (i : Inputs) (h : Inv s) : Inv (detectStateChange s i) := by
  unfold detectStateChange
  split
  · exact h
  · exact h

theorem inv_tick (s : Controller) (i : Inputs) (h : Inv s) : Inv (handleStateMachine s i) := by
  have hentry := inv_detect s i h
  cases hr : resetFires s i
  · rw [tick_quiet s i hr]
    apply inv_stateHandler
    obtain ⟨h1, h2, h3, h4, h5, h6, h7, h8, h9, h10⟩ := hentry
    refine ⟨h1, h2, h3, h4, h5, h6, h7, h8, ?_, h10⟩
    intro ha
    simp only at ha
    simp [ha, h9 ha]
  · rw [tick_fired s i hr]
    obtain ⟨h1, h2, -⟩ := hentry
    simp [Inv, setMachineOutput_eq, updateLEDs, delay, emit, clearProcessData, h1, h2]

theorem inv_run (inputs : List Inputs) : ∀ s, Inv s → Inv (run s inputs) := by
  induction inputs with
  | nil => intro s h; exact h
  | cons i rest ih => intro s h; exact ih _ (inv_tick s i h)

/-! ## The controller: safety invariants -/

/-- C1: after any sequence of ticks from the boot state, whatever the hardware
inputs, the relay is low whenever the state is one of `STATE_WAIT_KANBAN`,
`STATE_READ_KANBAN`, `STATE_WAIT_BOBBINS`, `STATE_SCAN_QR1`, `STATE_SCAN_QR2`,
`STATE_VERIFY`, `STATE_ERROR`; it is high only in `STATE_READY` or `STATE_BYPASS`. -/
theorem relay_safety (relay0 : Bool) (lamps0 : Lamps) (inputs : List Inputs) :
    (offState (run (boot relay0 lamps0) inputs) → (run (boot relay0 lamps0) inputs).relay = false)
    ∧ ((run (boot relay0 lamps0) inputs).relay = true →
        ((run (boot relay0 lamps0) inputs).currentState = STATE_READY
          ∨ (run (boot relay0 lamps0) inputs).currentState = STATE_BYPASS)) := by
  obtain ⟨-, -, h3, -⟩ := inv_run inputs _ (inv_boot relay0 lamps0)
  refine ⟨?_, h3⟩
  intro hoff
  cases hr : (run (boot relay0 lamps0) inputs).relay
  · rfl
  · unfold offState at hoff
    rcases h3 hr with h | h <;> rw [h] at hoff <;> simp at hoff

/-- After the mismatch cycle the controller is in `STATE_ERROR` and the relay,
high at power-on, is low. -/
theorem relay_safety_witness : (run (boot true lampsOff) mismatchCycle).relay = false :=
  (relay_safety true lampsOff mismatchCycle).1 (by decide)

/-- C2: after any sequence of ticks from the boot state, `STATE_READY` holds a
non-bypass card with two non-empty thread names equal to the two scanned codes,
and `STATE_BYPASS` holds a bypass card; so the relay is high for a non-bypass
card only when both scanned codes match the card. -/
theorem verified_before_enable (s : Controller) (relay0 : Bool) (lamps0 : Lamps)
    (inputs : List Inputs) (hrun : s = run (boot relay0 lamps0) inputs) :
    (s.currentState = STATE_READY →
      (s.kanbanData.isBypass = false ∧ s.kanbanData.thread1 ≠ [] ∧ s.kanbanData.thread2 ≠ []
        ∧ s.qrCode1 = s.kanbanData.thread1 ∧ s.qrCode2 = s.kanbanData.thread2))
    ∧ (s.currentState = STATE_BYPASS → s.kanbanData.isBypass = true)
    ∧ (s.relay = true → s.kanbanData.isBypass = false →
        (s.qrCode1 = s.kanbanData.thread1 ∧ s.qrCode2 = s.kanbanData.thread2)) := by
  have hinv := inv_run inputs _ (inv_boot relay0 lamps0)
  rw [← hrun] at hinv
  obtain ⟨-, -, h3, h4, h5, h6, -⟩ := hinv
  refine ⟨fun h => ?_, h6, fun hr hb => ?_⟩
  · obtain ⟨a, b, c⟩ := h4 (by simp [h])
    exact ⟨a, b, c, (h5 h).1, (h5 h).2⟩
  · rcases h3 hr with h | h
    · exact h5 h
    · rw [h6 h] at hb
      cases hb

/-- The happy path reaches `STATE_READY` with the relay high and the scanned
codes equal to the thread names of the card. -/
theorem verified_before_enable_witness :
    (run (boot false lampsOff) happyCycle).relay = true
      ∧ (run (boot false lampsOff) happyCycle).qrCode1 = [82, 69, 68]
      ∧ (run (boot false lampsOff) happyCycle).kanbanData.thread1 = [82, 69, 68]
      ∧ (run (boot false lampsOff) happyCycle).qrCode1
          = (run (boot false lampsOff) happyCycle).kanbanData.thread1 :=
  ⟨by decide, by decide, by decide,
    ((verified_before_enable _ false lampsOff happyCycle rfl).1 (by decide)).2.2.2.1⟩

/-! ## The controller: single ticks -/

theorem detect_fields (s : Controller) (i : Inputs) :
    (detectStateChange s i).currentState = s.currentState
    ∧ (detectStateChange s i).kanbanData = s.kanbanData
    ∧ (detectStateChange s i).qrCode1 = s.qrCode1
    ∧ (detectStateChange s i).qrCode2 = s.qrCode2
    ∧ (detectStateChange s i).thread1Error = s.thread1Error
    ∧ (detectStateChange s i).thread2Error = s.thread2Error
    ∧ (detectStateChange s i).initialized = s.initialized
    ∧ (detectStateChange s i).relay = s.relay
    ∧ (detectStateChange s i).lastState = s.lastState
    ∧ (detectStateChange s i).trace = s.trace
    ∧ (detectStateChange s i).lamps = s.lamps := by
  unfold detectStateChange
  split <;> simp

/-- C3: `verifyThreads` returns true exactly when `qrCode1 = thread1` and
`qrCode2 = thread2`, and leaves `thread1Error`, `thread2Error` set exactly on
the channels that differ; a `STATE_VERIFY` tick in which it is called ends in
`STATE_READY` when it returned true and in `STATE_ERROR` otherwise. -/
theorem verifyThreads_exact (s : Controller) (i : Inputs) :
    ((verifyThreads s).1 = true ↔
      (s.qrCode1 = s.kanbanData.thread1 ∧ s.qrCode2 = s.kanbanData.thread2))
    ∧ ((verifyThreads s).2.thread1Error = true ↔ s.qrCode1 ≠ s.kanbanData.thread1)
    ∧ ((verifyThreads s).2.thread2Error = true ↔ s.qrCode2 ≠ s.kanbanData.thread2)
    ∧ (s.currentState = STATE_VERIFY → resetFires s i = false →
        (((handleStateMachine s i).currentState = STATE_READY ↔ (verifyThreads s).1 = true)
          ∧ ((handleStateMachine s i).currentState = STATE_ERROR ↔ (verifyThreads s).1 = false)
          ∧ (handleStateMachine s i).thread1Error = (verifyThreads s).2.thread1Error
          ∧ (handleStateMachine s i).thread2Error = (verifyThreads s).2.thread2Error)) := by
  refine ⟨by simp [verifyThreads], by simp [verifyThreads], by simp [verifyThreads], ?_⟩
  intro hs hq
  obtain ⟨d1, d2, d3, d4, -⟩ := detect_fields s i
  rw [tick_quiet s i hq]
  simp only [stateHandler, d1, hs, verifyThreads, d2, d3, d4]
  split_ifs <;> simp_all


/-- In the happy path the `STATE_VERIFY` tick ends in `STATE_READY`. -/
theorem verifyThreads_exact_witness :
    (handleStateMachine verifyState (steady 4000 cardRedBlue [])).currentState = STATE_READY :=
  ((verifyThreads_exact verifyState (steady 4000 cardRedBlue [])).2.2.2
    (by decide) (by decide)).1.mpr (by decide)

theorem readKanbanCard_ok_iff (c : CardReply) :
    (readKanbanCard c).ok = false ↔
      (c.serialOk = false ∨ c.auth4 = false ∨ c.block4 = none
        ∨ ((readKanbanCard c).data.isBypass = false ∧ (c.auth5 = false ∨ c.block5 = none))) := by
  rcases c with ⟨sf, ncp, sr, a4, b4, a5, b5, us, ub⟩
  cases b4 with
  | none =>
    cases sf <;> cases ncp <;> cases sr <;> cases a4 <;>
      simp [readKanbanCard, readKanbanBlocks, CardReply.serialOk]
  | some buffer1 =>
    by_cases hb : equalsIgnoreCase (byteArrayToString buffer1 16) BYPASS_KEYWORD = true
    · cases sf <;> cases ncp <;> cases sr <;> cases a4 <;>
        simp [readKanbanCard, readKanbanBlocks, CardReply.serialOk, hb]
    · cases sf <;> cases ncp <;> cases sr <;> cases a4 <;> cases a5 <;> cases b5 <;>
        simp [readKanbanCard, readKanbanBlocks, CardReply.serialOk, hb]

/-- The outcome of a `STATE_READ_KANBAN` tick of any controller, when the reset
helper does not fire at the top of the tick. -/
theorem readKanban_handler (s : Controller) (i : Inputs)
    (hs : s.currentState = STATE_READ_KANBAN) (hq : resetFires s i = false) :
    (handleStateMachine s i).kanbanData = (readKanbanCard i.card).data
    ∧ ((readKanbanCard i.card).ok = true → (readKanbanCard i.card).data.isBypass = true →
        ((handleStateMachine s i).resetMonitoringArmed = true
          ∧ (handleStateMachine s i).bobbinsLatched = false
          ∧ (handleStateMachine s i).currentState = STATE_BYPASS))
    ∧ ((readKanbanCard i.card).ok = true → (readKanbanCard i.card).data.isBypass = false →
        (readKanbanCard i.card).data.thread1 ≠ [] → (readKanbanCard i.card).data.thread2 ≠ [] →
        ((handleStateMachine s i).resetMonitoringArmed = true
          ∧ (handleStateMachine s i).bobbinsLatched = false
          ∧ (handleStateMachine s i).currentState = STATE_WAIT_BOBBINS))
    ∧ ((readKanbanCard i.card).ok = true → (readKanbanCard i.card).data.isBypass = false →
        ((readKanbanCard i.card).data.thread1 = [] ∨ (readKanbanCard i.card).data.thread2 = []) →
        (handleStateMachine s i).currentState = STATE_ERROR)
    ∧ ((readKanbanCard i.card).ok = false →
        (handleStateMachine s i).currentState = STATE_WAIT_KANBAN)
    ∧ ((readKanbanCard i.card).ok = false ↔
        (i.card.serialOk = false ∨ i.card.auth4 = false ∨ i.card.block4 = none
          ∨ ((readKanbanCard i.card).data.isBypass = false
              ∧ (i.card.auth5 = false ∨ i.card.block5 = none)))) := by
  obtain ⟨d1, -⟩ := detect_fields s i
  rw [tick_quiet s i hq]
  simp only [stateHandler, d1, hs]
  refine ⟨?_, ?_, ?_, ?_, ?_, readKanbanCard_ok_iff i.card⟩
  · split_ifs <;> simp [delay, emit]
  · intro h1 h2
    simp [h1, h2]
  · intro h1 h2 h3 h4
    simp [h1, h2, List.length_pos, h3, h4]
  · intro h1 h2 h3
    have : ¬ ((readKanbanCard i.card).data.thread1 ≠ [] ∧ (readKanbanCard i.card).data.thread2 ≠ []) := by
      rcases h3 with h | h <;> simp [h]
    simp [h1, h2, List.length_pos, this]
  · intro h1
    simp [h1, delay, emit]

/-- C4: in every `STATE_READ_KANBAN` tick of a run from boot the state handler
runs and stores what `readKanbanCard` read; a successful bypass read arms the
monitoring, clears the latch and moves to `STATE_BYPASS`; a successful
non-bypass read with two non-empty thread names does the same and moves to
`STATE_WAIT_BOBBINS`; a successful non-bypass read with an empty thread name
moves to `STATE_ERROR`; a failed read, which is a failure of the serial read,
of an authentication or of a block read, moves to `STATE_WAIT_KANBAN`. -/
theorem readKanban_tick (s : Controller) (relay0 : Bool) (lamps0 : Lamps)
    (inputs : List Inputs) (i : Inputs)
    (hrun : s = run (boot relay0 lamps0) inputs) (hs : s.currentState = STATE_READ_KANBAN) :
    resetFires s i = false
    ∧ (handleStateMachine s i).kanbanData = (readKanbanCard i.card).data
    ∧ ((readKanbanCard i.card).ok = true → (readKanbanCard i.card).data.isBypass = true →
        ((handleStateMachine s i).resetMonitoringArmed = true
          ∧ (handleStateMachine s i).bobbinsLatched = false
          ∧ (handleStateMachine s i).currentState = STATE_BYPASS))
    ∧ ((readKanbanCard i.card).ok = true → (readKanbanCard i.card).data.isBypass = false →
        (readKanbanCard i.card).data.thread1 ≠ [] → (readKanbanCard i.card).data.thread2 ≠ [] →
        ((handleStateMachine s i).resetMonitoringArmed = true
          ∧ (handleStateMachine s i).bobbinsLatched = false
          ∧ (handleStateMachine s i).currentState = STATE_WAIT_BOBBINS))
    ∧ ((readKanbanCard i.card).ok = true → (readKanbanCard i.card).data.isBypass = false →
        ((readKanbanCard i.card).data.thread1 = [] ∨ (readKanbanCard i.card).data.thread2 = []) →
        (handleStateMachine s i).currentState = STATE_ERROR)
    ∧ ((readKanbanCard i.card).ok = false →
        (handleStateMachine s i).currentState = STATE_WAIT_KANBAN)
    ∧ ((readKanbanCard i.card).ok = false ↔
        (i.card.serialOk = false ∨ i.card.auth4 = false ∨ i.card.block4 = none
          ∨ ((readKanbanCard i.card).data.isBypass = false
              ∧ (i.card.auth5 = false ∨ i.card.block5 = none)))) := by
  have hinv := inv_run inputs _ (inv_boot relay0 lamps0)
  rw [← hrun] at hinv
  obtain ⟨-, -, -, -, -, -, -, h8, -⟩ := hinv
  have harm : s.resetMonitoringArmed = false := h8 (Or.inr hs)
  have hq : resetFires s i = false := by
    cases hf : resetFires s i
    · rfl
    · have := (reset_fires_iff s i.resetBobbin1 i.resetBobbin2).mp hf
      rw [harm] at this
      exact absurd this.1 (by simp)
  exact ⟨hq, readKanban_handler s i hs hq⟩

/-- The card "RED"/"BLUE" read in `STATE_READ_KANBAN` leads to `STATE_WAIT_BOBBINS`. -/
theorem readKanban_tick_witness :
    (handleStateMachine readState (steady 2100 cardRedBlue [])).resetMonitoringArmed = true
      ∧ (handleStateMachine readState (steady 2100 cardRedBlue [])).bobbinsLatched = false
      ∧ (handleStateMachine readState (steady 2100 cardRedBlue [])).currentState
          = STATE_WAIT_BOBBINS :=
  (readKanban_tick readState false lampsOff (happyCycle.take 1) (steady 2100 cardRedBlue [])
    rfl (by decide)).2.2.2.1 (by decide) (by decide) (by decide) (by decide)

/-! ## The controller: more invariants -/

theorem readKanbanCard_failed (c : CardReply) (h : (readKanbanCard c).ok = false) :
    (readKanbanCard c).data.thread2 = [] ∧ (readKanbanCard c).data.isBypass = false := by
  revert h
  rcases c with ⟨sf, ncp, sr, a4, b4, a5, b5, us, ub⟩
  cases b4 with
  | none =>
    cases sf <;> cases ncp <;> cases sr <;> cases a4 <;>
      simp [readKanbanCard, readKanbanBlocks]
  | some buffer1 =>
    by_cases hb : equalsIgnoreCase (byteArrayToString buffer1 16) BYPASS_KEYWORD = true
    · cases sf <;> cases ncp <;> cases sr <;> cases a4 <;>
        simp [readKanbanCard, readKanbanBlocks, hb]
    · cases sf <;> cases ncp <;> cases sr <;> cases a4 <;> cases a5 <;> cases b5 <;>
        simp [readKanbanCard, readKanbanBlocks, hb]

theorem inv2_boot (relay : Bool) (lamps : Lamps) : Inv2 (boot relay lamps) := by
  simp [Inv2, boot, setup, setupRFID, setupPins, powerOn, emit, updateLEDs, setMachineOutput]

theorem inv2_stateHandler (s : Controller) (i : Inputs) (h : Inv s) (h2 : Inv2 s) :
    Inv2 (stateHandler s i) := by
  obtain ⟨h1, hp, -, -, -, -, h7, -, -, -⟩ := h
  obtain ⟨k1, k2, k3⟩ := h2
  have hf := readKanbanCard_failed i.card
  unfold Inv2
  cases hs : s.currentState <;> simp only [hs] at h7 k1 k2 k3 <;>
    simp only [stateHandler, hs, cardCheck, verifyThreads, isKanbanCardStillPresent] <;>
    (try split_ifs) <;>
    simp_all [setMachineOutput_eq, updateLEDs, delay, emit, clearProcessData, cardRemovedReset,
      triggerQRScanner]

theorem inv2_tick (s : Controller) (i : Inputs) (h : Inv s) (h2 : Inv2 s) :
    Inv2 (handleStateMachine s i) := by
  have hd := inv_detect s i h
  have hd2 : Inv2 (detectStateChange s i) := by
    unfold detectStateChange
    split
    · exact h2
    · exact h2
  cases hr : resetFires s i
  · rw [tick_quiet s i hr]
    apply inv2_stateHandler
    · obtain ⟨h1, h2, h3, h4, h5, h6, h7, h8, h9, h10⟩ := hd
      refine ⟨h1, h2, h3, h4, h5, h6, h7, h8, ?_, h10⟩
      intro ha
      simp only at ha
      simp [ha, h9 ha]
    · exact hd2
  · rw [tick_fired s i hr]
    have h8 := hd.2.2.2.2.2.2.2.1
    obtain ⟨h1, hp, -⟩ := hd
    obtain ⟨-, -, k3⟩ := hd2
    have hne : (detectStateChange s i).currentState ≠ STATE_WAIT_KANBAN := by
      intro hwk
      have harm := h8 (Or.inl hwk)
      have hf := (reset_fires_iff (detectStateChange s i) i.resetBobbin1 i.resetBobbin2).mp
        (by rw [resetFires_detect]; exact hr)
      rw [harm] at hf
      exact absurd hf.1 (by simp)
    have hrr := k3 hne
    simp [Inv2, setMachineOutput_eq, updateLEDs, delay, emit, clearProcessData, h1, hp]

/-- Both invariants hold after every run from boot. -/
theorem reach_inv (relay : Bool) (lamps : Lamps) (inputs : List Inputs) :
    Inv (run (boot relay lamps) inputs) ∧ Inv2 (run (boot relay lamps) inputs) := by
  have key : ∀ (inputs : List Inputs) (s : Controller), Inv s → Inv2 s →
      Inv (run s inputs) ∧ Inv2 (run s inputs) := by
    intro inputs
    induction inputs with
    | nil => intro s h h2; exact ⟨h, h2⟩
    | cons i rest ih => intro s h h2; exact ih _ (inv_tick s i h) (inv2_tick s i h h2)
  exact key inputs _ (inv_boot relay lamps) (inv2_boot relay lamps)

/-- C19: after any sequence of ticks from the boot state, whatever the
hardware inputs, `bobbinsLatched` is false whenever `resetMonitoringArmed` is
false. -/
theorem latch_implies_armed (relay0 : Bool) (lamps0 : Lamps) (inputs : List Inputs) :
    (run (boot relay0 lamps0) inputs).resetMonitoringArmed = false →
      (run (boot relay0 lamps0) inputs).bobbinsLatched = false :=
  (inv_run inputs _ (inv_boot relay0 lamps0)).2.2.2.2.2.2.2.2.1

/-- After the mismatch cycle and a card removal the monitoring is disarmed and
the latch, set during the cycle, is down. -/
theorem latch_implies_armed_witness :
    (run (boot false lampsOff) mismatchCycle).bobbinsLatched = true
      ∧ (run (boot false lampsOff) mismatchThenRemoval).bobbinsLatched = false :=
  ⟨by decide, latch_implies_armed false lampsOff mismatchThenRemoval (by decide)⟩

/-! ## The controller: what a tick writes -/

theorem tick_entered (s : Controller) (i : Inputs) (h : resetFires s i = false) :
    handleStateMachine s i = stateHandler (entered s i) i :=
  tick_quiet s i h

/-- The fields that the top of the tick leaves alone. -/
theorem entered_fields (s : Controller) (i : Inputs) :
    (entered s i).currentState = s.currentState
    ∧ (entered s i).kanbanData = s.kanbanData
    ∧ (entered s i).qrCode1 = s.qrCode1
    ∧ (entered s i).qrCode2 = s.qrCode2
    ∧ (entered s i).kanbanUID = s.kanbanUID
    ∧ (entered s i).kanbanUIDSize = s.kanbanUIDSize
    ∧ (entered s i).thread1Error = s.thread1Error
    ∧ (entered s i).thread2Error = s.thread2Error
    ∧ (entered s i).resetMonitoringArmed = s.resetMonitoringArmed
    ∧ (entered s i).cardMissingCount = s.cardMissingCount
    ∧ (entered s i).readerReset = s.readerReset
    ∧ (entered s i).lastCardCheckReady = s.lastCardCheckReady
    ∧ (entered s i).lastCardCheckBypass = s.lastCardCheckBypass
    ∧ (entered s i).lastCardCheckError = s.lastCardCheckError
    ∧ (entered s i).lastState = s.lastState
    ∧ (entered s i).initialized = s.initialized
    ∧ (entered s i).relay = s.relay
    ∧ (entered s i).lamps = s.lamps
    ∧ (entered s i).trace = s.trace := by
  unfold entered detectStateChange
  split <;> simp

theorem inv_entered (s : Controller) (i : Inputs) (h : Inv s) : Inv (entered s i) := by
  obtain ⟨h1, h2, h3, h4, h5, h6, h7, h8, h9, h10⟩ := inv_detect s i h
  refine ⟨h1, h2, h3, h4, h5, h6, h7, h8, ?_, h10⟩
  intro ha
  simp only [entered] at ha
  simp [entered, ha, h9 ha]

theorem inv2_entered (s : Controller) (i : Inputs) (h : Inv2 s) : Inv2 (entered s i) := by
  have hd2 : Inv2 (detectStateChange s i) := by
    unfold detectStateChange
    split
    · exact h
    · exact h
  exact hd2

/-- What a tick appends when the state handler runs. -/
theorem tickEvents_quiet (s : Controller) (i : Inputs) (h : resetFires s i = false) :
    tickEvents s i = (stateHandler (entered s i) i).trace.drop (entered s i).trace.length := by
  unfold tickEvents
  rw [tick_entered s i h, (entered_fields s i).2.2.2.2.2.2.2.2.2.2.2.2.2.2.2.2.2.2]

/-- What a tick appends when the reset helper fires: the lamp write comes
first, the relay write, if the relay was high, second. -/
theorem tickEvents_fired (s : Controller) (i : Inputs) (h : resetFires s i = true)
    (h1 : s.initialized = true) (hp : s.relay = s.lastState) :
    tickEvents s i = Event.lamps false false true true ::
      ((if s.lastState = false then [] else [Event.relayPin false, Event.outputLog false])
        ++ [Event.delay RESET_ALARM_DELAY]) := by
  obtain ⟨-, -, -, -, -, -, d7, d8, d9, d10, -⟩ := detect_fields s i
  unfold tickEvents
  rw [tick_fired s i h]
  simp [setMachineOutput_eq, updateLEDs, delay, emit, clearProcessData, d7, d8, d9, d10, h1, hp]

/-- After a call the statics of `setMachineOutput` say that it was called, and
with which value. -/
theorem setMachineOutput_statics (s : Controller) (enable : Bool) :
    (setMachineOutput s enable).initialized = true
      ∧ (setMachineOutput s enable).lastState = enable := by
  unfold setMachineOutput
  cases hi : s.initialized <;> cases hl : s.lastState <;> cases enable <;> simp [hi, hl]

theorem setOutputs_last (s : Controller) (calls : List Bool) (c : Bool) :
    (setOutputs s (calls ++ [c])).initialized = true
      ∧ (setOutputs s (calls ++ [c])).lastState = c := by
  unfold setOutputs
  rw [List.foldl_append]
  exact setMachineOutput_statics _ c

/-- In a tick whose state handler runs, an unchanged relay means no `[OUTPUT]` line. -/
theorem handler_log (s : Controller) (i : Inputs) (h1 : s.initialized = true)
    (hp : s.relay = s.lastState) (hr : (stateHandler s i).relay = s.relay) (b : Bool) :
    Event.outputLog b ∉ (stateHandler s i).trace.drop s.trace.length := by
  revert hr
  cases hs : s.currentState <;>
    simp only [stateHandler, hs, cardCheck, verifyThreads, isKanbanCardStillPresent] <;>
    (try split_ifs) <;>
    simp_all [setMachineOutput_eq, updateLEDs, delay, emit, clearProcessData, cardRemovedReset,
      triggerQRScanner]

/-- C20: `setMachineOutput(enable)` writes the pin and appends the `[OUTPUT]`
line exactly when it has not been called before or `enable` differs from the
value of the previous call, and does nothing otherwise; so in any run from
boot a tick that leaves the relay as it was appends no `[OUTPUT]` line. -/
theorem output_log_edge :
    (∀ (s : Controller) (enable : Bool),
      ((s.initialized = false ∨ s.lastState ≠ enable) →
        ((setMachineOutput s enable).trace
            = s.trace ++ [Event.relayPin enable, Event.outputLog enable]
          ∧ (setMachineOutput s enable).relay = enable))
      ∧ (¬ (s.initialized = false ∨ s.lastState ≠ enable) → setMachineOutput s enable = s))
    ∧ (∀ (relay : Bool) (lamps : Lamps) (calls : List Bool) (enable : Bool),
        (setMachineOutput (setOutputs (powerOn relay lamps) calls) enable).trace
            = (setOutputs (powerOn relay lamps) calls).trace
                ++ [Event.relayPin enable, Event.outputLog enable]
          ↔ (calls = [] ∨ calls.getLast? ≠ some enable))
    ∧ (∀ (relay0 : Bool) (lamps0 : Lamps) (inputs : List Inputs) (i : Inputs),
        (handleStateMachine (run (boot relay0 lamps0) inputs) i).relay
            = (run (boot relay0 lamps0) inputs).relay →
        ∀ b, Event.outputLog b ∉ tickEvents (run (boot relay0 lamps0) inputs) i) := by
  refine ⟨?_, ?_, ?_⟩
  · intro s enable
    unfold setMachineOutput
    cases hi : s.initialized <;> cases hl : s.lastState <;> cases enable <;> simp [hi, hl]
  · intro relay lamps calls enable
    rcases List.eq_nil_or_concat calls with h | ⟨init, c, h⟩
    · subst h
      simp [setOutputs, setMachineOutput, powerOn]
    · subst h
      obtain ⟨hi, hl⟩ := setOutputs_last (powerOn relay lamps) init c
      rw [List.concat_eq_append] at *
      generalize setOutputs (powerOn relay lamps) (init ++ [c]) = t at hi hl ⊢
      unfold setMachineOutput
      cases c <;> cases enable <;> simp [hi, hl]
  · intro relay0 lamps0 inputs i
    obtain ⟨⟨h1, hp, -⟩, -⟩ := reach_inv relay0 lamps0 inputs
    generalize run (boot relay0 lamps0) inputs = s at h1 hp ⊢
    intro hr b
    cases hq : resetFires s i
    · obtain ⟨-, -, -, -, -, -, -, -, -, -, -, -, -, -, e15, e16, e17, -, e19⟩ :=
        entered_fields s i
      rw [tickEvents_quiet s i hq]
      apply handler_log
      · rw [e16]; exact h1
      · rw [e17, e15]; exact hp
      · rw [← tick_entered s i hq, e17]; exact hr
    · rw [tickEvents_fired s i hq h1 hp]
      have hrel : (handleStateMachine s i).relay = false := by
        obtain ⟨-, -, -, -, -, -, d7, d8, d9, -, -⟩ := detect_fields s i
        rw [tick_fired s i hq]
        simp [setMachineOutput_eq, updateLEDs, delay, emit, clearProcessData, d7, d8, d9, h1, hp]
      have hl : s.lastState = false := by rw [← hp, ← hr, hrel]
      simp [hl]

/-- A steady tick in `STATE_READY` leaves the relay high and logs nothing. -/
theorem output_log_edge_witness :
    Event.outputLog true ∉ tickEvents (run (boot false lampsOff) happyCycle)
      (steady 4200 cardRedBlue []) :=
  output_log_edge.2.2 false lampsOff happyCycle (steady 4200 cardRedBlue []) (by decide) true

/-! ## The controller: the error lamps and the return to `STATE_WAIT_KANBAN` -/

/-- The `STATE_ERROR` handler starts with the lamp write of the two flags. -/
theorem handler_error_render (s : Controller) (i : Inputs) (hs : s.currentState = STATE_ERROR)
    (h1 : s.initialized = true) (hp : s.relay = s.lastState) :
    ((stateHandler s i).trace.drop s.trace.length).head?
        = some (Event.lamps (!s.thread1Error) (!s.thread2Error) s.thread1Error s.thread2Error)
    ∧ ((stateHandler s i).currentState = STATE_ERROR →
        (stateHandler s i).lamps
          = ⟨!s.thread1Error, !s.thread2Error, s.thread1Error, s.thread2Error⟩) := by
  simp only [stateHandler, hs, cardCheck, isKanbanCardStillPresent]
  split_ifs <;>
    simp [setMachineOutput_eq, updateLEDs, delay, emit, clearProcessData, cardRemovedReset,
      h1, hp]

/-- The handlers of `STATE_READ_KANBAN` and `STATE_WAIT_BOBBINS` leave the error flags alone. -/
theorem handler_flags_kept (s : Controller) (i : Inputs)
    (hs : s.currentState = STATE_READ_KANBAN ∨ s.currentState = STATE_WAIT_BOBBINS) :
    (stateHandler s i).thread1Error = s.thread1Error
      ∧ (stateHandler s i).thread2Error = s.thread2Error := by
  rcases hs with hs | hs <;>
    simp only [stateHandler, hs] <;>
    split_ifs <;>
    simp [updateLEDs, delay, emit]

/-- A tick in which the reset helper fires ends in `STATE_WAIT_KANBAN`. -/
theorem tick_fired_state (s : Controller) (i : Inputs) (h : resetFires s i = true) :
    (handleStateMachine s i).currentState = STATE_WAIT_KANBAN := by
  rw [tick_fired s i h]

/-- In every run from boot, when `STATE_ERROR` is entered from
`STATE_READ_KANBAN` or from `STATE_WAIT_BOBBINS` both error flags are false; the
lamp write of the `STATE_ERROR` handler lights ALARM1 exactly when
`thread1Error` and ALARM2 exactly when `thread2Error`, so the number of ALARM
lamps lit equals the number of true flags. -/
theorem error_alarm_count (s : Controller) (relay0 : Bool) (lamps0 : Lamps)
    (inputs : List Inputs) (i : Inputs) (hrun : s = run (boot relay0 lamps0) inputs) :
    ((s.currentState = STATE_READ_KANBAN ∨ s.currentState = STATE_WAIT_BOBBINS) →
      (handleStateMachine s i).currentState = STATE_ERROR →
      ((handleStateMachine s i).thread1Error = false
        ∧ (handleStateMachine s i).thread2Error = false))
    ∧ (s.currentState = STATE_ERROR → resetFires s i = false →
      ((tickEvents s i).head?
          = some (Event.lamps (!s.thread1Error) (!s.thread2Error) s.thread1Error s.thread2Error)
        ∧ ((handleStateMachine s i).currentState = STATE_ERROR →
            alarmCount (handleStateMachine s i).lamps = flagCount s)
        ∧ (s.thread1Error = false → s.thread2Error = false →
            (tickEvents s i).head? = some (Event.lamps true true false false)))) := by
  obtain ⟨⟨h1, hp, -⟩, ⟨k1, -, -⟩⟩ := reach_inv relay0 lamps0 inputs
  rw [← hrun] at h1 hp k1
  obtain ⟨e1, -, -, -, -, -, e7, e8, -, -, -, -, -, -, e15, e16, e17, -, e19⟩ :=
    entered_fields s i
  constructor
  · intro hs herr
    cases hq : resetFires s i
    · have hne : s.currentState ≠ STATE_ERROR := by
        rcases hs with h | h <;> rw [h] <;> decide
      obtain ⟨f1, f2⟩ := k1 hne
      have hk := handler_flags_kept (entered s i) i (by rw [e1]; exact hs)
      rw [tick_entered s i hq, hk.1, hk.2, e7, e8]
      exact ⟨f1, f2⟩
    · rw [tick_fired_state s i hq] at herr
      cases herr
  · intro hs hq
    have hr := handler_error_render (entered s i) i (by rw [e1]; exact hs)
      (by rw [e16]; exact h1) (by rw [e17, e15]; exact hp)
    rw [e7, e8, e19] at hr
    rw [← tick_entered s i hq] at hr
    have hhead : (tickEvents s i).head?
        = some (Event.lamps (!s.thread1Error) (!s.thread2Error) s.thread1Error s.thread2Error) :=
      hr.1
    refine ⟨hhead, ?_, ?_⟩
    · intro hst
      rw [hr.2 hst]
      simp [alarmCount, flagCount]
    · intro f1 f2
      rw [hhead, f1, f2]
      rfl

/-- A state handler that returns to `STATE_WAIT_KANBAN` from another state
leaves the process data cleared, but for the first thread name when it is the
handler of `STATE_READ_KANBAN`. -/
theorem handler_return_cleared (s : Controller) (i : Inputs) (h : Inv s) (h2 : Inv2 s)
    (hs : s.currentState ≠ STATE_WAIT_KANBAN)
    (ht : (stateHandler s i).currentState = STATE_WAIT_KANBAN) :
    processDataCleared (withoutThread1 (stateHandler s i))
    ∧ (s.currentState ≠ STATE_READ_KANBAN → processDataCleared (stateHandler s i))
    ∧ (s.currentState = STATE_READ_KANBAN →
        (stateHandler s i).kanbanData = (readKanbanCard i.card).data) := by
  obtain ⟨h1, hp, -, -, -, -, h7, h8, h9, h10⟩ := h
  obtain ⟨k1, k2, k3⟩ := h2
  have hf := readKanbanCard_failed i.card
  revert ht
  unfold processDataCleared withoutThread1
  cases hcs : s.currentState <;> simp only [hcs] at hs h7 h8 k1 k2 k3 <;>
    simp only [stateHandler, hcs, cardCheck, verifyThreads, isKanbanCardStillPresent] <;>
    (try split_ifs) <;>
    simp_all [setMachineOutput_eq, updateLEDs, delay, emit, clearProcessData, cardRemovedReset,
      triggerQRScanner]

/-- A tick in which the reset helper fires leaves the process data cleared. -/
theorem tick_fired_cleared (s : Controller) (i : Inputs) (h : resetFires s i = true)
    (h1 : s.initialized = true) (hp : s.relay = s.lastState) :
    processDataCleared (handleStateMachine s i)
      ∧ (handleStateMachine s i).relay = false
      ∧ (handleStateMachine s i).lamps = ⟨false, false, true, true⟩ := by
  obtain ⟨-, -, -, -, -, -, d7, d8, d9, -, -⟩ := detect_fields s i
  rw [tick_fired s i h]
  simp [processDataCleared, setMachineOutput_eq, updateLEDs, delay, emit, clearProcessData,
    d7, d8, d9, h1, hp]

/-- C12: the return from `STATE_READ_KANBAN` after a failed read of block 5
keeps the first thread name: on the card "RED" whose block 5 cannot be
authenticated the tick ends in `STATE_WAIT_KANBAN` with `thread1` = "RED".
Every other tick of a run from boot that returns to `STATE_WAIT_KANBAN` from
another state leaves the process data cleared, and this one clears all of it
but `thread1`. -/
theorem return_keeps_thread1 :
    readState.currentState = STATE_READ_KANBAN
    ∧ (readKanbanCard cardAuth5Fails).ok = false
    ∧ (handleStateMachine readState (steady 2100 cardAuth5Fails [])).currentState
        = STATE_WAIT_KANBAN
    ∧ (handleStateMachine readState (steady 2100 cardAuth5Fails [])).kanbanData.thread1
        = [82, 69, 68]
    ∧ ¬ processDataCleared (handleStateMachine readState (steady 2100 cardAuth5Fails []))
    ∧ (∀ (s : Controller) (relay0 : Bool) (lamps0 : Lamps) (inputs : List Inputs) (i : Inputs),
        s = run (boot relay0 lamps0) inputs → s.currentState ≠ STATE_WAIT_KANBAN →
        (handleStateMachine s i).currentState = STATE_WAIT_KANBAN →
        (processDataCleared (withoutThread1 (handleStateMachine s i))
          ∧ (s.currentState ≠ STATE_READ_KANBAN → processDataCleared (handleStateMachine s i))
          ∧ (s.currentState = STATE_READ_KANBAN →
              (handleStateMachine s i).kanbanData = (readKanbanCard i.card).data))) := by
  refine ⟨by decide, by decide, by decide, by decide, by decide, ?_⟩
  intro s relay0 lamps0 inputs i hrun hs ht
  obtain ⟨hinv, hinv2⟩ := reach_inv relay0 lamps0 inputs
  rw [← hrun] at hinv hinv2
  cases hq : resetFires s i
  · have he1 := (entered_fields s i).1
    rw [tick_entered s i hq] at ht ⊢
    have := handler_return_cleared (entered s i) i (inv_entered s i hinv) (inv2_entered s i hinv2)
      (by rw [he1]; exact hs) ht
    rw [he1] at this
    exact this
  · have hc := (tick_fired_cleared s i hq hinv.1 hinv.2.1).1
    refine ⟨?_, fun _ => hc, ?_⟩
    · unfold processDataCleared withoutThread1
      unfold processDataCleared at hc
      exact ⟨rfl, hc.2⟩
    · intro hrk
      have harm := hinv.2.2.2.2.2.2.2.1 (Or.inr hrk)
      have hf := (reset_fires_iff s i.resetBobbin1 i.resetBobbin2).mp hq
      rw [harm] at hf
      exact absurd hf.1 (by simp)

/-! ## The controller: order of the writes, card removal, bobbin removal -/

theorem relayBeforeLamps_rfid (ops : List RfidOp) (rest : List Event) :
    relayBeforeLamps (ops.map Event.rfid ++ rest) = relayBeforeLamps rest := by
  induction ops with
  | nil => rfl
  | cons o t ih => simpa [relayBeforeLamps] using ih

theorem relayBeforeLamps_delay (ds : List Nat) (rest : List Event) :
    relayBeforeLamps (ds.map Event.delay ++ rest) = relayBeforeLamps rest := by
  induction ds with
  | nil => rfl
  | cons d t ih => simpa [relayBeforeLamps] using ih

/-- When the state handler runs in a state reached from boot, no relay
de-assertion follows a lamp write of the tick. -/
theorem handler_relay_first (s : Controller) (i : Inputs) (h : Inv s) :
    relayBeforeLamps ((stateHandler s i).trace.drop s.trace.length) = true := by
  obtain ⟨h1, hp, h3, -, -, -, h7, -, -, -⟩ := h
  have hr := relayBeforeLamps_rfid (readKanbanCard i.card).ops
  have hd := relayBeforeLamps_delay (readQRCodeDelays i.rx QR_TIMEOUT)
  have hr0 : relayBeforeLamps ((readKanbanCard i.card).ops.map Event.rfid) = true := by
    have := hr []
    simpa [relayBeforeLamps] using this
  cases hl : s.lastState <;> rw [hl] at hp <;> simp only [hp] at h3 <;>
    cases hs : s.currentState <;> simp only [hs] at h3 h7 <;>
    simp only [stateHandler, hs, cardCheck, verifyThreads, isKanbanCardStillPresent] <;>
    (try split_ifs) <;>
    simp_all [setMachineOutput_eq, updateLEDs, delay, emit, clearProcessData, cardRemovedReset,
      triggerQRScanner, relayBeforeLamps]

set_option maxRecDepth 100000 in
/-- C13: when the bobbin-removal helper fires in `STATE_READY` the ALARM lamps
are written before the relay is de-asserted, and `setupPins` writes the lamps
before the relay too. In a run from boot the other steps keep the order: when
the state handler runs, no relay de-assertion follows a lamp write of the tick,
and a firing helper breaks the order exactly when the relay is high. -/
theorem lamps_before_relay :
    (run (boot false lampsOff) happyCycle).currentState = STATE_READY
    ∧ resetFires (run (boot false lampsOff) happyCycle) (bobbinLost 4200) = true
    ∧ tickEvents (run (boot false lampsOff) happyCycle) (bobbinLost 4200)
        = [Event.lamps false false true true, Event.relayPin false, Event.outputLog false,
            Event.delay 250]
    ∧ relayBeforeLamps (tickEvents (run (boot false lampsOff) happyCycle) (bobbinLost 4200))
        = false
    ∧ (∀ (relay : Bool) (lamps : Lamps),
        (setupPins (powerOn relay lamps)).trace
            = [Event.lamps false false false false, Event.relayPin false, Event.outputLog false]
          ∧ relayBeforeLamps (boot relay lamps).trace = false)
    ∧ (∀ (s : Controller) (relay0 : Bool) (lamps0 : Lamps) (inputs : List Inputs) (i : Inputs),
        s = run (boot relay0 lamps0) inputs →
        ((resetFires s i = false → relayBeforeLamps (tickEvents s i) = true)
          ∧ (resetFires s i = true →
              (relayBeforeLamps (tickEvents s i) = false ↔ s.relay = true)))) := by
  refine ⟨by decide, by decide, by decide, by decide, ?_, ?_⟩
  · intro relay lamps
    constructor
    · simp [setupPins, powerOn, updateLEDs, setMachineOutput]
    · rw [boot_eq]
      decide
  · intro s relay0 lamps0 inputs i hrun
    obtain ⟨hinv, -⟩ := reach_inv relay0 lamps0 inputs
    rw [← hrun] at hinv
    constructor
    · intro hq
      rw [tickEvents_quiet s i hq]
      exact handler_relay_first (entered s i) i (inv_entered s i hinv)
    · intro hq
      rw [tickEvents_fired s i hq hinv.1 hinv.2.1, hinv.2.1]
      cases s.lastState <;> simp [relayBeforeLamps]

/-- A due card check whose probe fails resets at once when the counter is at 0. -/
theorem cardCheck_due_fail (s : Controller) (i : Inputs) (last : Nat)
    (hdue : elapsedMs i.millisCheck last > CARD_CHECK_INTERVAL) (hw : i.wakeupOk = false)
    (hc : s.cardMissingCount = 0) :
    (cardCheck s i last).reset = true
      ∧ (cardCheck s i last).state = cardRemovedReset
          { emit s [Event.rfid RfidOp.PICC_WakeupA, Event.rfid RfidOp.PICC_HaltA] with
            cardMissingCount := 1 } := by
  simp [cardCheck, isKanbanCardStillPresent, hdue, hw, hc, CARD_MISSING_THRESHOLD, emit]

/-- A due card check whose probe succeeds puts the counter at 0 and goes on. -/
theorem cardCheck_due_ok (s : Controller) (i : Inputs) (last : Nat)
    (hdue : elapsedMs i.millisCheck last > CARD_CHECK_INTERVAL) (hw : i.wakeupOk = true) :
    (cardCheck s i last).reset = false
      ∧ (cardCheck s i last).state
          = { emit s [Event.rfid RfidOp.PICC_WakeupA, Event.rfid RfidOp.PICC_HaltA] with
              cardMissingCount := 0 } := by
  simp [cardCheck, isKanbanCardStillPresent, hdue, hw, emit]

/-- The card check of the handlers of `STATE_READY`, `STATE_BYPASS` and
`STATE_ERROR`, when it is due, in a state reached from boot. -/
theorem handler_card_check (s : Controller) (i : Inputs) (h : Inv s)
    (hs : s.currentState = STATE_READY ∨ s.currentState = STATE_BYPASS
      ∨ s.currentState = STATE_ERROR)
    (hdue : elapsedMs i.millisCheck (lastCardCheckOf s) > CARD_CHECK_INTERVAL) :
    (i.wakeupOk = false →
      ((stateHandler s i).currentState = STATE_WAIT_KANBAN
        ∧ (stateHandler s i).relay = false
        ∧ (stateHandler s i).lamps = ⟨false, false, true, true⟩
        ∧ processDataCleared (stateHandler s i)))
    ∧ (i.wakeupOk = true →
      ((stateHandler s i).cardMissingCount = 0
        ∧ Event.rfid RfidOp.PCD_Init ∉ (stateHandler s i).trace.drop s.trace.length
        ∧ ((s.currentState = STATE_BYPASS ∨ (i.bobbin1 = true ∧ i.bobbin2 = true)) →
            (stateHandler s i).currentState = s.currentState))) := by
  obtain ⟨h1, hp, -, -, -, -, -, -, -, h10⟩ := h
  unfold processDataCleared
  rcases hs with hs | hs | hs
  · simp only [lastCardCheckOf, hs] at hdue
    constructor
    · intro hw
      obtain ⟨c1, c2⟩ := cardCheck_due_fail s i _ hdue hw h10
      simp only [stateHandler, hs, c1, c2]
      simp [setMachineOutput_eq, updateLEDs, delay, emit, clearProcessData, cardRemovedReset,
        h1, hp]
    · intro hw
      obtain ⟨c1, c2⟩ := cardCheck_due_ok s i _ hdue hw
      simp only [stateHandler, hs, c1, c2]
      cases hb1 : i.bobbin1 <;> cases hb2 : i.bobbin2 <;>
        simp_all [setMachineOutput_eq, updateLEDs, delay, emit, clearProcessData]
  · simp only [lastCardCheckOf, hs] at hdue
    constructor
    · intro hw
      obtain ⟨c1, c2⟩ := cardCheck_due_fail s i _ hdue hw h10
      simp only [stateHandler, hs, c1, c2]
      simp [setMachineOutput_eq, updateLEDs, delay, emit, clearProcessData, cardRemovedReset,
        h1, hp]
    · intro hw
      obtain ⟨c1, c2⟩ := cardCheck_due_ok s i _ hdue hw
      simp only [stateHandler, hs, c1, c2]
      simp_all [setMachineOutput_eq, updateLEDs, delay, emit, clearProcessData]
  · simp only [lastCardCheckOf, hs] at hdue
    have hdue2 : elapsedMs i.millisCheck
        (setMachineOutput (updateLEDs s (!s.thread1Error) (!s.thread2Error) s.thread1Error
          s.thread2Error) false).lastCardCheckError > CARD_CHECK_INTERVAL := by
      simpa [setMachineOutput_eq, updateLEDs, h1, hp] using hdue
    have hc2 : (setMachineOutput (updateLEDs s (!s.thread1Error) (!s.thread2Error)
        s.thread1Error s.thread2Error) false).cardMissingCount = 0 := by
      simpa [setMachineOutput_eq, updateLEDs, h1, hp] using h10
    constructor
    · intro hw
      obtain ⟨c1, c2⟩ := cardCheck_due_fail _ i _ hdue2 hw hc2
      simp only [stateHandler, hs, c1, c2]
      simp [setMachineOutput_eq, updateLEDs, delay, emit, clearProcessData, cardRemovedReset,
        h1, hp]
    · intro hw
      obtain ⟨c1, c2⟩ := cardCheck_due_ok (setMachineOutput (updateLEDs s (!s.thread1Error)
        (!s.thread2Error) s.thread1Error s.thread2Error) false) i _ hdue2 hw
      simp only [stateHandler, hs, c1, c2]
      cases hb1 : i.bobbin1 <;> cases hb2 : i.bobbin2 <;>
        simp_all [setMachineOutput_eq, updateLEDs, delay, emit, clearProcessData]

/-- The handler of `STATE_READY` when its own bobbin sample finds a bobbin absent. -/
theorem handler_ready_bobbin (s : Controller) (i : Inputs) (h : Inv s)
    (hs : s.currentState = STATE_READY) (hb : i.bobbin1 = false ∨ i.bobbin2 = false) :
    (stateHandler s i).currentState = STATE_WAIT_KANBAN
      ∧ (stateHandler s i).relay = false
      ∧ (stateHandler s i).lamps = ⟨false, false, true, true⟩
      ∧ processDataCleared (stateHandler s i)
      ∧ Event.relayPin true ∉ (stateHandler s i).trace.drop s.trace.length := by
  obtain ⟨h1, hp, -, -, -, -, -, -, -, h10⟩ := h
  unfold processDataCleared
  rcases hb with hb | hb <;>
    simp only [stateHandler, hs, cardCheck, isKanbanCardStillPresent] <;>
    (try split_ifs) <;>
    simp_all [setMachineOutput_eq, updateLEDs, delay, emit, clearProcessData, cardRemovedReset,
      CARD_MISSING_THRESHOLD]

/-- The top of the tick leaves the `lastCardCheck` static of the state alone. -/
theorem lastCardCheckOf_entered (s : Controller) (i : Inputs) :
    lastCardCheckOf (entered s i) = lastCardCheckOf s := by
  obtain ⟨e1, -, -, -, -, -, -, -, -, -, -, e12, e13, e14, -⟩ := entered_fields s i
  unfold lastCardCheckOf
  rw [e1, e12, e13, e14]

/-- C15: `CARD_MISSING_THRESHOLD` is 1, and in every tick of a run from boot
whose state handler runs in `STATE_READY`, `STATE_BYPASS` or `STATE_ERROR` with
more than 300 ms elapsed since that state's last card check: a failed wake-up
probe ends the tick in `STATE_WAIT_KANBAN` with the relay low, the lamps
(off, off, on, on) and the process data cleared; a successful probe puts
`cardMissingCount` at 0 and brings no card-removal reset, the state being
kept unless a bobbin is sampled absent in `STATE_READY` or `STATE_ERROR`. -/
theorem card_removal_fails_closed (s : Controller) (relay0 : Bool) (lamps0 : Lamps)
    (inputs : List Inputs) (i : Inputs) (hrun : s = run (boot relay0 lamps0) inputs)
    (hs : s.currentState = STATE_READY ∨ s.currentState = STATE_BYPASS
      ∨ s.currentState = STATE_ERROR)
    (hq : resetFires s i = false)
    (hdue : elapsedMs i.millisCheck (lastCardCheckOf s) > CARD_CHECK_INTERVAL) :
    CARD_MISSING_THRESHOLD = 1
    ∧ (i.wakeupOk = false →
      ((handleStateMachine s i).currentState = STATE_WAIT_KANBAN
        ∧ (handleStateMachine s i).relay = false
        ∧ (handleStateMachine s i).lamps = ⟨false, false, true, true⟩
        ∧ processDataCleared (handleStateMachine s i)))
    ∧ (i.wakeupOk = true →
      ((handleStateMachine s i).cardMissingCount = 0
        ∧ Event.rfid RfidOp.PCD_Init ∉ tickEvents s i
        ∧ ((s.currentState = STATE_BYPASS ∨ (i.bobbin1 = true ∧ i.bobbin2 = true)) →
            (handleStateMachine s i).currentState = s.currentState))) := by
  obtain ⟨hinv, -⟩ := reach_inv relay0 lamps0 inputs
  rw [← hrun] at hinv
  have he1 := (entered_fields s i).1
  have hk := handler_card_check (entered s i) i (inv_entered s i hinv)
    (by rw [he1]; exact hs) (by rw [lastCardCheckOf_entered]; exact hdue)
  rw [← tickEvents_quiet s i hq, ← tick_entered s i hq, he1] at hk
  exact ⟨rfl, hk⟩

/-- In the happy path the card is removed in `STATE_READY`: the tick ends in
`STATE_WAIT_KANBAN` with the relay low, both ALARM lamps lit and the data cleared. -/
theorem card_removal_fails_closed_witness :
    (handleStateMachine (run (boot false lampsOff) happyCycle) (cardGone 4500)).currentState
        = STATE_WAIT_KANBAN
      ∧ (handleStateMachine (run (boot false lampsOff) happyCycle) (cardGone 4500)).relay = false
      ∧ (handleStateMachine (run (boot false lampsOff) happyCycle) (cardGone 4500)).lamps
        = ⟨false, false, true, true⟩
      ∧ processDataCleared
          (handleStateMachine (run (boot false lampsOff) happyCycle) (cardGone 4500)) :=
  (card_removal_fails_closed _ false lampsOff happyCycle (cardGone 4500) rfl
    (by decide) (by decide) (by decide)).2.1 (by decide)

/-- C16: in every tick of a run from boot that starts in `STATE_READY` and in
which the handler samples BOBBIN1 or BOBBIN2 absent, whatever the helper's
samples, the latch and the card probe, the tick ends in `STATE_WAIT_KANBAN`
with the relay low, the lamps (off, off, on, on) and the process data cleared,
and the relay pin is not written high in the tick. -/
theorem bobbin_removal_fails_closed (s : Controller) (relay0 : Bool) (lamps0 : Lamps)
    (inputs : List Inputs) (i : Inputs) (hrun : s = run (boot relay0 lamps0) inputs)
    (hs : s.currentState = STATE_READY) (hb : i.bobbin1 = false ∨ i.bobbin2 = false) :
    (handleStateMachine s i).currentState = STATE_WAIT_KANBAN
      ∧ (handleStateMachine s i).relay = false
      ∧ (handleStateMachine s i).lamps = ⟨false, false, true, true⟩
      ∧ processDataCleared (handleStateMachine s i)
      ∧ Event.relayPin true ∉ tickEvents s i := by
  obtain ⟨hinv, -⟩ := reach_inv relay0 lamps0 inputs
  rw [← hrun] at hinv
  cases hq : resetFires s i
  · have he1 := (entered_fields s i).1
    have hk := handler_ready_bobbin (entered s i) i (inv_entered s i hinv)
      (by rw [he1]; exact hs) hb
    rw [← tickEvents_quiet s i hq, ← tick_entered s i hq] at hk
    exact hk
  · obtain ⟨c1, c2, c3⟩ := tick_fired_cleared s i hq hinv.1 hinv.2.1
    refine ⟨tick_fired_state s i hq, c2, c3, c1, ?_⟩
    rw [tickEvents_fired s i hq hinv.1 hinv.2.1]
    cases s.lastState <;> simp

/-- In the happy path bobbin 1 is removed in `STATE_READY`. -/
theorem bobbin_removal_fails_closed_witness :
    (handleStateMachine (run (boot false lampsOff) happyCycle) (bobbinLost 4200)).currentState
        = STATE_WAIT_KANBAN
      ∧ (handleStateMachine (run (boot false lampsOff) happyCycle) (bobbinLost 4200)).relay
        = false :=
  ⟨(bobbin_removal_fails_closed _ false lampsOff happyCycle (bobbinLost 4200) rfl
      (by decide) (by decide)).1,
    (bobbin_removal_fails_closed _ false lampsOff happyCycle (bobbinLost 4200) rfl
      (by decide) (by decide)).2.1⟩

/-- The claim C14 as written fails: from `STATE_BYPASS`, with the same clock
values and the wake-up probe succeeding throughout, the run in which both
bobbins are seen and bobbin 1 is then removed ends in `STATE_WAIT_KANBAN` with
the relay low, and the run without bobbins stays in `STATE_BYPASS` with the
relay high. -/
theorem bypass_bobbins_counterexample :
    bypassState.currentState = STATE_BYPASS
    ∧ sameExceptBobbins (steady 2200 cardRedBlue []) (noBobbins 2200)
    ∧ sameExceptBobbins (bobbinLost 2300) (noBobbins 2300)
    ∧ (∀ i ∈ bobbinsThenOneLost ++ bobbinsNever, i.wakeupOk = true)
    ∧ (run bypassState bobbinsThenOneLost).currentState = STATE_WAIT_KANBAN
    ∧ (run bypassState bobbinsThenOneLost).relay = false
    ∧ (run bypassState bobbinsNever).currentState = STATE_BYPASS
    ∧ (run bypassState bobbinsNever).relay = true := by
  decide

/-- The handler of `STATE_BYPASS` does not read the bobbins and passes the latch on. -/
theorem handler_bypass_latch (s : Controller) (i j : Inputs) (l : Bool)
    (hs : s.currentState = STATE_BYPASS) (hij : sameExceptBobbins i j) :
    stateHandler { s with bobbinsLatched := l } j
      = { stateHandler s i with bobbinsLatched :=
            (stateHandler { s with bobbinsLatched := l } j).bobbinsLatched } := by
  unfold sameExceptBobbins at hij
  rcases i with ⟨i1, i2, i3, i4, i5, i6, i7, i8, i9, i10, i11, i12, i13⟩
  rcases j with ⟨j1, j2, j3, j4, j5, j6, j7, j8, j9, j10, j11, j12, j13⟩
  simp only [Inputs.mk.injEq] at hij
  obtain ⟨rfl, -, -, rfl, rfl, rfl, -, -, rfl, rfl, rfl, rfl, rfl⟩ := hij
  by_cases hdue : elapsedMs i11 s.lastCardCheckBypass > CARD_CHECK_INTERVAL <;>
    by_cases hc : s.cardMissingCount + 1 ≥ CARD_MISSING_THRESHOLD <;>
    cases hi : s.initialized <;> cases hl : s.lastState <;> cases i13 <;>
    simp [stateHandler, hs, cardCheck, isKanbanCardStillPresent, setMachineOutput, updateLEDs,
      delay, emit, clearProcessData, cardRemovedReset, hdue, hc, hi, hl]

theorem sameExceptBobbins_fields (i j : Inputs) (h : sameExceptBobbins i j) :
    i.millisEntry = j.millisEntry ∧ i.wakeupOk = j.wakeupOk := by
  unfold sameExceptBobbins at h
  rw [← h]
  exact ⟨rfl, rfl⟩

/-- The top of the tick keeps two controllers equal up to the latch. -/
theorem entered_latch (s : Controller) (i j : Inputs) (l : Bool)
    (hm : i.millisEntry = j.millisEntry) :
    entered { s with bobbinsLatched := l } j
      = { entered s i with
          bobbinsLatched := (entered { s with bobbinsLatched := l } j).bobbinsLatched } := by
  unfold entered detectStateChange
  simp only [hm]
  split <;> rfl

/-- The handler of `STATE_BYPASS` stays there while the wake-up probe succeeds. -/
theorem handler_bypass_stays (s : Controller) (i : Inputs) (hs : s.currentState = STATE_BYPASS)
    (hw : i.wakeupOk = true) :
    (stateHandler s i).currentState = STATE_BYPASS
      ∧ (stateHandler s i).bobbinsLatched = s.bobbinsLatched
      ∧ (stateHandler s i).resetMonitoringArmed = s.resetMonitoringArmed := by
  by_cases hdue : elapsedMs i.millisCheck s.lastCardCheckBypass > CARD_CHECK_INTERVAL <;>
    cases hi : s.initialized <;> cases hl : s.lastState <;>
    simp [stateHandler, hs, cardCheck, isKanbanCardStillPresent, setMachineOutput, updateLEDs,
      delay, emit, hdue, hi, hl, hw]

/-- From `STATE_BYPASS` with the latch down, ticks in which the wake-up probe
succeeds and the helper never sees both bobbins stay in `STATE_BYPASS`. -/
theorem bypass_run_stays (inputs : List Inputs) : ∀ (s : Controller),
    s.currentState = STATE_BYPASS → s.bobbinsLatched = false →
    (∀ i ∈ inputs, i.wakeupOk = true ∧ ¬ (i.resetBobbin1 = true ∧ i.resetBobbin2 = true)) →
    (run s inputs).currentState = STATE_BYPASS ∧ (run s inputs).bobbinsLatched = false := by
  induction inputs with
  | nil => intro s hs hl _; exact ⟨hs, hl⟩
  | cons i rest ih =>
    intro s hs hl hall
    obtain ⟨hw, hb⟩ := hall i (List.mem_cons_self _ _)
    have hq : resetFires s i = false := by
      cases hf : resetFires s i
      · rfl
      · have := (reset_fires_iff s i.resetBobbin1 i.resetBobbin2).mp hf
        rw [hl] at this
        exact absurd this.2.1 (by simp)
    obtain ⟨e1, -⟩ := entered_fields s i
    have hel : (entered s i).bobbinsLatched = false := by
      have hd : (detectStateChange s i).bobbinsLatched = s.bobbinsLatched := by
        unfold detectStateChange
        split <;> rfl
      cases h1 : i.resetBobbin1 <;> cases h2 : i.resetBobbin2 <;>
        simp_all [entered]
    obtain ⟨k1, k2, -⟩ := handler_bypass_stays (entered s i) i (by rw [e1]; exact hs) hw
    apply ih
    · rw [tick_entered s i hq]; exact k1
    · rw [tick_entered s i hq, k2]; exact hel
    · intro j hj
      exact hall j (List.mem_cons_of_mem _ hj)

/-- C14 (amended): in `STATE_BYPASS` the bobbins matter through the reset helper
only. For two controllers in `STATE_BYPASS` equal up to the latch, fed with the
same clock values and card-probe results but different bobbin samples, a tick
in which the helper fires in neither run ends in the same state, relay, lamps
and data, equal again up to the latch; the helper fires, and ends the tick in
`STATE_WAIT_KANBAN`, exactly when the latch is up (both bobbins were seen in
one sample since the card was read) and a bobbin is sampled absent. In
particular no sequence of samples that never shows both bobbins makes the
controller leave `STATE_BYPASS` while the wake-up probe succeeds. -/
theorem bypass_bobbins (s t : Controller) (i j : Inputs)
    (hs : s.currentState = STATE_BYPASS) (hst : sameExceptLatch s t)
    (hij : sameExceptBobbins i j) :
    (resetFires s i = false → resetFires t j = false →
      (sameExceptLatch (handleStateMachine s i) (handleStateMachine t j)
        ∧ (handleStateMachine s i).currentState = (handleStateMachine t j).currentState
        ∧ (handleStateMachine s i).relay = (handleStateMachine t j).relay
        ∧ (handleStateMachine s i).lamps = (handleStateMachine t j).lamps))
    ∧ (resetFires s i = true ↔
        (s.resetMonitoringArmed = true ∧ s.bobbinsLatched = true
          ∧ ¬ (i.resetBobbin1 = true ∧ i.resetBobbin2 = true)))
    ∧ (resetFires s i = true → (handleStateMachine s i).currentState = STATE_WAIT_KANBAN)
    ∧ (resetFires s i = false → i.wakeupOk = true →
        (handleStateMachine s i).currentState = STATE_BYPASS)
    ∧ (∀ inputs : List Inputs, s.bobbinsLatched = false →
        (∀ k ∈ inputs, k.wakeupOk = true ∧ ¬ (k.resetBobbin1 = true ∧ k.resetBobbin2 = true)) →
        (run s inputs).currentState = STATE_BYPASS) := by
  refine ⟨?_, reset_fires_iff s i.resetBobbin1 i.resetBobbin2, tick_fired_state s i, ?_, ?_⟩
  · intro hq hq'
    obtain ⟨l, rfl⟩ : ∃ l, t = { s with bobbinsLatched := l } := ⟨_, hst.symm⟩
    obtain ⟨hm, -⟩ := sameExceptBobbins_fields i j hij
    obtain ⟨e1, -⟩ := entered_fields s i
    have key : handleStateMachine { s with bobbinsLatched := l } j
        = { handleStateMachine s i with
            bobbinsLatched := (handleStateMachine { s with bobbinsLatched := l } j).bobbinsLatched } := by
      rw [tick_entered _ j hq', tick_entered s i hq, entered_latch s i j l hm]
      exact handler_bypass_latch (entered s i) i j _ (by rw [e1]; exact hs) hij
    refine ⟨key.symm, ?_, ?_, ?_⟩
    · rw [key]
    · rw [key]
    · rw [key]
  · intro hq hw
    obtain ⟨e1, -⟩ := entered_fields s i
    rw [tick_entered s i hq]
    exact (handler_bypass_stays (entered s i) i (by rw [e1]; exact hs) hw).1
  · intro inputs hl hall
    exact (bypass_run_stays inputs s hs hl hall).1

/-- From `STATE_BYPASS` two ticks without bobbins and two ticks with only
bobbin 2 end alike, in `STATE_BYPASS`. -/
theorem bypass_bobbins_witness :
    (handleStateMachine bypassState (noBobbins 2200)).currentState
        = (handleStateMachine bypassState (bobbinLost 2200)).currentState
      ∧ (run bypassState bobbinsNever).currentState = STATE_BYPASS :=
  ⟨((bypass_bobbins bypassState bypassState (noBobbins 2200) (bobbinLost 2200)
      (by decide) rfl (by decide)).1 (by decide) (by decide)).2.1,
    (bypass_bobbins bypassState bypassState (noBobbins 2200) (bobbinLost 2200)
      (by decide) rfl (by decide)).2.2.2.2 bobbinsNever (by decide) (by decide)⟩

theorem elapsedMs_shift (now since now2 since2 d : Nat) (h1 : u32 now2 = u32 (now + d))
    (h2 : since2 = u32 (since + d)) : elapsedMs now2 since2 = elapsedMs now since := by
  unfold elapsedMs
  unfold u32 at *
  omega

/-- The state-change detection keeps two controllers at the same point of a cycle
and brings their entry-time statics in agreement. -/
theorem sameCycle_detect (d : Nat) (a b : Controller) (i j : Inputs) (h : sameCycle d a b)
    (hij : sameCycleInput d i j) :
    sameCycle d (detectStateChange a i) (detectStateChange b j)
      ∧ sameEntry d (detectStateChange a i) (detectStateChange b j) := by
  obtain ⟨hm, -⟩ := hij
  have hm2 : u32 j.millisEntry = u32 (u32 i.millisEntry + d) := by
    rw [hm]
    unfold u32
    omega
  obtain ⟨h1, h2, h3, h4, h5, h6, h7, h8, h9, h10, h11, h12, h13, h14, h15, h16, h17, h18⟩ := h
  have key : sameEntry d (detectStateChange a i) (detectStateChange b j) := by
    unfold sameEntry detectStateChange
    rcases h18 with ⟨ha, hb⟩ | ⟨hp, he⟩
    · have ha2 : (a.currentState != a.previousState) = true := by
        simpa [bne_iff_ne] using fun h => ha h.symm
      have hb2 : (b.currentState != b.previousState) = true := by
        simpa [bne_iff_ne] using fun h => hb h.symm
      rw [if_pos ha2, if_pos hb2]
      exact ⟨h1, hm2⟩
    · rw [← h1, ← hp]
      split
      · simp [hm2, h1]
      · exact ⟨hp, he⟩
  refine ⟨?_, key⟩
  have hf : ∀ (s : Controller) (k : Inputs),
      (detectStateChange s k).currentState = s.currentState
      ∧ (detectStateChange s k).kanbanData = s.kanbanData
      ∧ (detectStateChange s k).qrCode1 = s.qrCode1
      ∧ (detectStateChange s k).qrCode2 = s.qrCode2
      ∧ (detectStateChange s k).kanbanUID = s.kanbanUID
      ∧ (detectStateChange s k).kanbanUIDSize = s.kanbanUIDSize
      ∧ (detectStateChange s k).thread1Error = s.thread1Error
      ∧ (detectStateChange s k).thread2Error = s.thread2Error
      ∧ (detectStateChange s k).resetMonitoringArmed = s.resetMonitoringArmed
      ∧ (detectStateChange s k).bobbinsLatched = s.bobbinsLatched
      ∧ (detectStateChange s k).cardMissingCount = s.cardMissingCount
      ∧ (detectStateChange s k).readerReset = s.readerReset
      ∧ (detectStateChange s k).lastState = s.lastState
      ∧ (detectStateChange s k).initialized = s.initialized
      ∧ (detectStateChange s k).relay = s.relay
      ∧ (detectStateChange s k).lamps = s.lamps := by
    intro s k
    unfold detectStateChange
    split <;> simp
  obtain ⟨a1, a2, a3, a4, a5, a6, a7, a8, a9, a10, a11, a12, a13, a14, a15, a16⟩ := hf a i
  obtain ⟨b1, b2, b3, b4, b5, b6, b7, b8, b9, b10, b11, b12, b13, b14, b15, b16⟩ := hf b j
  unfold sameCycle
  rw [a1, a2, a3, a4, a5, a6, a7, a8, a9, a10, a11, a12, a13, a14, a15, a16,
    b1, b2, b3, b4, b5, b6, b7, b8, b9, b10, b11, b12, b13, b14, b15, b16]
  exact ⟨h1, h2, h3, h4, h5, h6, h7, h8, h9, h10, h11, h12, h13, h14, h15, h16, h17, Or.inr key⟩

/-- The reset helper fires in both controllers or in neither, and keeps them at
the same point of a cycle. -/
theorem sameCycle_helper (d : Nat) (a b : Controller) (b1 b2 : Bool) (h : sameCycle d a b)
    (he : sameEntry d a b) :
    (handleResetIfBobbinRemoved a b1 b2).1 = (handleResetIfBobbinRemoved b b1 b2).1
      ∧ sameCycle d (handleResetIfBobbinRemoved a b1 b2).2 (handleResetIfBobbinRemoved b b1 b2).2
      ∧ sameEntry d (handleResetIfBobbinRemoved a b1 b2).2
          (handleResetIfBobbinRemoved b b1 b2).2 := by
  obtain ⟨h1, h2, h3, h4, h5, h6, h7, h8, h9, h10, h11, h12, h13, h14, h15, h16, h17, h18⟩ := h
  obtain ⟨e1, e2⟩ := he
  unfold sameCycle sameEntry
  cases hb1 : b1 <;> cases hb2 : b2 <;> cases ha : a.resetMonitoringArmed <;>
    cases hl : a.bobbinsLatched <;> cases hi : a.initialized <;> cases hls : a.lastState <;>
    simp_all [handleResetIfBobbinRemoved, ← h9, ← h10, setMachineOutput, updateLEDs, delay, emit,
      clearProcessData]

theorem setMachineOutput_counter (s : Controller) (enable : Bool) :
    (setMachineOutput s enable).cardMissingCount = s.cardMissingCount := by
  unfold setMachineOutput
  split <;> rfl

/-- With the card answering and the counter at 0, the card check changes the
trace at most. -/
theorem cardCheck_ok (s : Controller) (i : Inputs) (last : Nat) (hw : i.wakeupOk = true)
    (hc : s.cardMissingCount = 0) :
    (cardCheck s i last).reset = false
      ∧ ∃ tr, (cardCheck s i last).state = { s with trace := tr } := by
  by_cases hdue : elapsedMs i.millisCheck last > CARD_CHECK_INTERVAL
  · refine ⟨by simp [cardCheck, isKanbanCardStillPresent, hdue, hw],
      s.trace ++ [Event.rfid RfidOp.PICC_WakeupA, Event.rfid RfidOp.PICC_HaltA], ?_⟩
    simp only [cardCheck, isKanbanCardStillPresent, hdue, hw, emit, if_true, Bool.not_true,
      Bool.false_eq_true, if_false, ← hc]
  · exact ⟨by simp [cardCheck, hdue], s.trace, by simp [cardCheck, hdue]⟩

set_option maxHeartbeats 1600000 in
/-- The state handler keeps two controllers at the same point of a cycle. -/
theorem sameCycle_handler (d : Nat) (a b : Controller) (i j : Inputs) (h : sameCycle d a b)
    (he : sameEntry d a b) (hij : sameCycleInput d i j) :
    sameCycle d (stateHandler a i) (stateHandler b j)
      ∧ sameEntry d (stateHandler a i) (stateHandler b j) := by
  obtain ⟨h1, h2, h3, h4, h5, h6, h7, h8, h9, h10, h11, h12, h13, h14, h15, h16, h17, -⟩ := h
  obtain ⟨e1, e2⟩ := he
  obtain ⟨-, i2, -, -, i5, i6, i7, i8, i9, i10, i11⟩ := hij
  have ht : elapsedMs j.millisTimeout b.stateEntryTime
      = elapsedMs i.millisTimeout a.stateEntryTime := elapsedMs_shift _ _ _ _ d i2 e2
  unfold sameCycle sameEntry
  cases hs : a.currentState <;> (have hsb := h1.symm.trans hs) <;>
    simp only [stateHandler, hs, hsb]
  · simp_all
  · cases hr : a.readerReset <;> cases hn : i.newCard <;> cases hi : a.initialized <;>
      cases hl : a.lastState <;>
      simp_all [setMachineOutput, updateLEDs, delay, emit]
  · rw [i6]
    cases hok : (readKanbanCard i.card).ok <;>
      cases hbp : (readKanbanCard i.card).data.isBypass <;>
      by_cases hl1 : (readKanbanCard i.card).data.thread1.length > 0 <;>
      by_cases hl2 : (readKanbanCard i.card).data.thread2.length > 0 <;>
      simp_all [delay, emit]
  · rw [e2] at ht
    cases hb1 : i.bobbin1 <;> cases hb2 : i.bobbin2 <;>
      by_cases hto : elapsedMs i.millisTimeout a.stateEntryTime > BOBBIN_WAIT_TIMEOUT <;>
      simp [updateLEDs, delay, emit, hto, hb1, hb2, i7, i8, h2, h3, h4, h5, h6, h7, h8, h9, h10,
        h11, h12, h13, h14, h15, h16, e1, e2, ht, hs, hsb]
  · rw [i9]
    by_cases hq : ((readQRCode i.rx QR_TIMEOUT).getD []).length > 0 <;>
      simp_all [triggerQRScanner, updateLEDs, delay, emit]
  · rw [i9]
    by_cases hq : ((readQRCode i.rx QR_TIMEOUT).getD []).length > 0 <;>
      simp_all [triggerQRScanner, updateLEDs, delay, emit]
  · by_cases hm1 : b.qrCode1 = b.kanbanData.thread1 <;>
      by_cases hm2 : b.qrCode2 = b.kanbanData.thread2 <;>
      simp_all [verifyThreads]
  · obtain ⟨ca1, tra, ca2⟩ := cardCheck_ok a i a.lastCardCheckReady i10 h11
    obtain ⟨cb1, trb, cb2⟩ := cardCheck_ok b j b.lastCardCheckReady i11 h12
    simp only [ca1, ca2, cb1, cb2]
    cases hb1 : i.bobbin1 <;> cases hb2 : i.bobbin2 <;>
      cases hi : b.initialized <;> cases hl : b.lastState <;>
      simp [setMachineOutput, updateLEDs, delay, emit, clearProcessData, hb1, hb2, hi, hl,
        i7, i8, h2, h3, h4, h5, h6, h7, h8, h9, h10, h11, h12, h13, h14, h15, h16, e1, e2, hs, hsb]
  · obtain ⟨ca1, tra, ca2⟩ := cardCheck_ok (setMachineOutput (updateLEDs a (!a.thread1Error)
      (!a.thread2Error) a.thread1Error a.thread2Error) false) i
      (setMachineOutput (updateLEDs a (!a.thread1Error) (!a.thread2Error) a.thread1Error
        a.thread2Error) false).lastCardCheckError i10
      (by rw [setMachineOutput_counter]; exact h11)
    obtain ⟨cb1, trb, cb2⟩ := cardCheck_ok (setMachineOutput (updateLEDs b (!b.thread1Error)
      (!b.thread2Error) b.thread1Error b.thread2Error) false) j
      (setMachineOutput (updateLEDs b (!b.thread1Error) (!b.thread2Error) b.thread1Error
        b.thread2Error) false).lastCardCheckError i11
      (by rw [setMachineOutput_counter]; exact h12)
    simp only [ca1, ca2, cb1, cb2]
    cases hb1 : i.bobbin1 <;> cases hb2 : i.bobbin2 <;>
      cases hi : b.initialized <;> cases hl : b.lastState <;>
      simp [setMachineOutput, updateLEDs, delay, emit, clearProcessData, hb1, hb2, hi, hl,
        i7, i8, h2, h3, h4, h5, h6, h7, h8, h9, h10, h11, h12, h13, h14, h15, h16, e1, e2, hs, hsb]
  · obtain ⟨ca1, tra, ca2⟩ := cardCheck_ok a i a.lastCardCheckBypass i10 h11
    obtain ⟨cb1, trb, cb2⟩ := cardCheck_ok b j b.lastCardCheckBypass i11 h12
    simp only [ca1, ca2, cb1, cb2]
    cases hi : b.initialized <;> cases hl : b.lastState <;>
      simp [setMachineOutput, updateLEDs, delay, emit, hi, hl,
        h2, h3, h4, h5, h6, h7, h8, h9, h10, h11, h12, h13, h14, h15, h16, e1, e2, hs, hsb]

/-- One tick keeps two controllers at the same point of a cycle. -/
theorem sameCycle_tick (d : Nat) (a b : Controller) (i j : Inputs) (h : sameCycle d a b)
    (hij : sameCycleInput d i j) :
    sameCycle d (handleStateMachine a i) (handleStateMachine b j) := by
  obtain ⟨hd, hde⟩ := sameCycle_detect d a b i j h hij
  obtain ⟨k1, k2, k3⟩ := sameCycle_helper d _ _ i.resetBobbin1 i.resetBobbin2 hd hde
  have ea : handleStateMachine a i
      = if (handleResetIfBobbinRemoved (detectStateChange a i) i.resetBobbin1 i.resetBobbin2).1
        then (handleResetIfBobbinRemoved (detectStateChange a i) i.resetBobbin1 i.resetBobbin2).2
        else stateHandler
          (handleResetIfBobbinRemoved (detectStateChange a i) i.resetBobbin1 i.resetBobbin2).2 i :=
    rfl
  have eb : handleStateMachine b j
      = if (handleResetIfBobbinRemoved (detectStateChange b j) i.resetBobbin1 i.resetBobbin2).1
        then (handleResetIfBobbinRemoved (detectStateChange b j) i.resetBobbin1 i.resetBobbin2).2
        else stateHandler
          (handleResetIfBobbinRemoved (detectStateChange b j) i.resetBobbin1 i.resetBobbin2).2 j := by
    rw [← hij.2.2.1, ← hij.2.2.2.1]
    rfl
  rw [ea, eb, ← k1]
  split
  · exact k2
  · exact (sameCycle_handler d _ _ i j k2 k3 hij).1

/-- Two runs from the same point of a cycle stay at the same point. -/
theorem sameCycle_run (d : Nat) (cycle1 cycle2 : List Inputs)
    (hc : List.Forall₂ (sameCycleInput d) cycle1 cycle2) :
    ∀ a b : Controller, sameCycle d a b → sameCycle d (run a cycle1) (run b cycle2) := by
  induction hc with
  | nil => intro a b h; exact h
  | cons hij _ ih =>
    intro a b h
    exact ih _ _ (sameCycle_tick d a b _ _ h hij)

/-- After the top of the tick the state is recorded as the previous one. -/
theorem entered_previous (s : Controller) (i : Inputs) :
    (entered s i).previousState = s.currentState := by
  unfold entered detectStateChange
  split
  · rfl
  · rename_i hne
    simp only [bne_iff_ne, ne_eq, not_not] at hne
    exact hne.symm

/-- The card-removal reset of `STATE_READY`, in a state reached from boot. -/
theorem handler_ready_removal (s : Controller) (i : Inputs) (h : Inv s) (h2 : Inv2 s)
    (hs : s.currentState = STATE_READY)
    (hdue : elapsedMs i.millisCheck s.lastCardCheckReady > CARD_CHECK_INTERVAL)
    (hw : i.wakeupOk = false) :
    (stateHandler s i).currentState = STATE_WAIT_KANBAN
      ∧ (stateHandler s i).kanbanData = ⟨[], [], false⟩
      ∧ (stateHandler s i).qrCode1 = [] ∧ (stateHandler s i).qrCode2 = []
      ∧ (stateHandler s i).kanbanUID = List.replicate 10 0
      ∧ (stateHandler s i).kanbanUIDSize = 0
      ∧ (stateHandler s i).thread1Error = false ∧ (stateHandler s i).thread2Error = false
      ∧ (stateHandler s i).resetMonitoringArmed = false
      ∧ (stateHandler s i).bobbinsLatched = false
      ∧ (stateHandler s i).cardMissingCount = 0
      ∧ (stateHandler s i).readerReset = false
      ∧ (stateHandler s i).lastState = false ∧ (stateHandler s i).initialized = true
      ∧ (stateHandler s i).relay = false
      ∧ (stateHandler s i).previousState = s.previousState := by
  obtain ⟨h1, hp, -, -, -, -, -, -, -, h10⟩ := h
  have hrr : s.readerReset = false := h2.2.2 (by rw [hs]; decide)
  obtain ⟨c1, c2⟩ := cardCheck_due_fail s i _ hdue hw h10
  simp only [stateHandler, hs, c1, c2]
  simp [setMachineOutput_eq, updateLEDs, delay, emit, clearProcessData, cardRemovedReset,
    h1, hp, hrr]

/-- C17: in a run from boot, a tick that starts in `STATE_READY` and in which
the due card check finds no card leaves `currentState`, the expected-thread
record, `qrCode1`, `qrCode2`, the stored UID and its size, `thread1Error`,
`thread2Error`, `resetMonitoringArmed`, `bobbinsLatched`, `cardMissingCount`
and the reader-reset flag of `STATE_WAIT_KANBAN` at their values right after
boot. So a cycle fed from there with the card, bobbin and scanner inputs of a
cycle fed from boot, the card answering the probes and the clock `d` ms later,
goes through the same states with the same data and relay level, and where the
first cycle is in `STATE_READY` the second is too, with the same relay level and
lamps. -/
theorem cycle_repeats (s : Controller) (relay0 : Bool) (lamps0 : Lamps)
    (inputs : List Inputs) (i : Inputs) (hrun : s = run (boot relay0 lamps0) inputs)
    (hs : s.currentState = STATE_READY) (hq : resetFires s i = false)
    (hdue : elapsedMs i.millisCheck s.lastCardCheckReady > CARD_CHECK_INTERVAL)
    (hw : i.wakeupOk = false) :
    ((handleStateMachine s i).currentState = (boot relay0 lamps0).currentState
      ∧ (handleStateMachine s i).kanbanData = (boot relay0 lamps0).kanbanData
      ∧ (handleStateMachine s i).qrCode1 = (boot relay0 lamps0).qrCode1
      ∧ (handleStateMachine s i).qrCode2 = (boot relay0 lamps0).qrCode2
      ∧ (handleStateMachine s i).kanbanUID = (boot relay0 lamps0).kanbanUID
      ∧ (handleStateMachine s i).kanbanUIDSize = (boot relay0 lamps0).kanbanUIDSize
      ∧ (handleStateMachine s i).thread1Error = (boot relay0 lamps0).thread1Error
      ∧ (handleStateMachine s i).thread2Error = (boot relay0 lamps0).thread2Error
      ∧ (handleStateMachine s i).resetMonitoringArmed = (boot relay0 lamps0).resetMonitoringArmed
      ∧ (handleStateMachine s i).bobbinsLatched = (boot relay0 lamps0).bobbinsLatched
      ∧ (handleStateMachine s i).cardMissingCount = (boot relay0 lamps0).cardMissingCount
      ∧ (handleStateMachine s i).readerReset = (boot relay0 lamps0).readerReset)
    ∧ ∀ (d : Nat) (cycle1 cycle2 : List Inputs),
        List.Forall₂ (sameCycleInput d) cycle1 cycle2 →
        (sameCycle d (run (boot relay0 lamps0) cycle1) (run (handleStateMachine s i) cycle2)
          ∧ ((run (boot relay0 lamps0) cycle1).currentState = STATE_READY →
              ((run (handleStateMachine s i) cycle2).currentState = STATE_READY
                ∧ (run (handleStateMachine s i) cycle2).relay
                    = (run (boot relay0 lamps0) cycle1).relay
                ∧ (run (handleStateMachine s i) cycle2).lamps
                    = (run (boot relay0 lamps0) cycle1).lamps))) := by
  obtain ⟨hinv, hinv2⟩ := reach_inv relay0 lamps0 inputs
  rw [← hrun] at hinv hinv2
  obtain ⟨e1, -, -, -, -, -, -, -, -, -, -, e12, -⟩ := entered_fields s i
  have hk := handler_ready_removal (entered s i) i (inv_entered s i hinv)
    (inv2_entered s i hinv2) (by rw [e1]; exact hs) (by rw [e12]; exact hdue) hw
  rw [← tick_entered s i hq, entered_previous, hs] at hk
  obtain ⟨k1, k2, k3, k4, k5, k6, k7, k8, k9, k10, k11, k12, k13, k14, k15, k16⟩ := hk
  rw [boot_eq relay0 lamps0]
  refine ⟨⟨k1, k2, k3, k4, k5, k6, k7, k8, k9, k10, k11, k12⟩, ?_⟩
  intro d cycle1 cycle2 hc
  have h0 : sameCycle d (boot false lampsOff) (handleStateMachine s i) := by
    unfold sameCycle
    rw [k1, k2, k3, k4, k5, k6, k7, k8, k9, k10, k11, k12, k13, k14, k15, k16]
    refine ⟨rfl, rfl, rfl, rfl, rfl, rfl, rfl, rfl, rfl, rfl, rfl, rfl, rfl, rfl, rfl, rfl, ?_,
      Or.inl ⟨by decide, by decide⟩⟩
    intro hcs
    exact absurd hcs (by decide)
  have hr := sameCycle_run d cycle1 cycle2 hc _ _ h0
  refine ⟨hr, ?_⟩
  intro hready
  obtain ⟨r1, -, -, -, -, -, -, -, -, -, -, -, -, -, -, r16, r17, -⟩ := hr
  exact ⟨r1 ▸ hready, r16.symm, (r17 (Or.inr (Or.inr hready))).symm⟩

set_option maxRecDepth 100000 in
/-- After the happy path and the removal of the card in `STATE_READY`, the
happy path presented again 3000 ms later ends in `STATE_READY` with the relay
high and both READY lamps lit, as the first time. -/
theorem cycle_repeats_witness :
    (run (boot false lampsOff) happyCycle).currentState = STATE_READY
      ∧ (run (boot false lampsOff) happyCycle).relay = true
      ∧ (run (boot false lampsOff) happyCycle).lamps = ⟨true, true, false, false⟩
      ∧ (handleStateMachine (run (boot false lampsOff) happyCycle) (cardGone 4500)).currentState
          = STATE_WAIT_KANBAN
      ∧ (run (handleStateMachine (run (boot false lampsOff) happyCycle) (cardGone 4500))
          (happyCycle.map (later 3000))).currentState = STATE_READY
      ∧ (run (handleStateMachine (run (boot false lampsOff) happyCycle) (cardGone 4500))
          (happyCycle.map (later 3000))).relay = true
      ∧ (run (handleStateMachine (run (boot false lampsOff) happyCycle) (cardGone 4500))
          (happyCycle.map (later 3000))).lamps = ⟨true, true, false, false⟩ :=
  have h := cycle_repeats (run (boot false lampsOff) happyCycle) false lampsOff happyCycle
    (cardGone 4500) rfl (by decide) (by decide) (by decide) (by decide)
  have h2 := (h.2 3000 happyCycle (happyCycle.map (later 3000))
    (by simp [List.forall₂_map_right_iff, List.forall₂_same]; decide)).2 (by decide)
  ⟨by decide, by decide, by decide, h.1.1,
    h2.1, h2.2.1.trans (by decide), h2.2.2.trans (by decide)⟩

theorem qrInner_header_burst (now T : Nat) (hT : T ≤ now) (header : List Nat)
    (hh : header.length = 7) (rest : Rx) (qd : Str) :
    qrInner now (burst T header ++ rest) 0 false qd = qrInner now rest 7 true qd := by
  match header, hh with
  | [a, b, c, d, e, f, g], _ => simp [burst, qrInner, hT]

theorem qrInner_payload_burst (now T : Nat) (hT : T ≤ now) (rest : Rx) (hb : Nat) :
    ∀ (payload : List Nat) (qd : Str), (∀ b ∈ payload, 32 ≤ b ∧ b ≤ 126) →
    qrInner now (burst T payload ++ rest) hb true qd
      = qrInner now rest hb true (qd ++ payload) := by
  intro payload
  induction payload with
  | nil => intro qd _; simp [burst]
  | cons b t ih =>
    intro qd h
    have hb1 := h b (List.mem_cons_self _ _)
    have hne : ¬ (b = 13 ∨ b = 10) := by omega
    have ih2 := ih (qd ++ [b]) (fun c hc => h c (List.mem_cons_of_mem _ hc))
    simp only [burst, List.map_cons, List.cons_append] at ih2 ⊢
    conv_lhs => unfold qrInner
    simp [hne, hb1.1, hb1.2, ih2, hT]

/-- A pass of the inner loop at or after the arrival of a whole frame reads it. -/
theorem qrInner_burst (now T : Nat) (hT : T ≤ now) (header payload : List Nat) (term : Nat)
    (hh : header.length = 7) (hne : payload ≠ [])
    (hp : ∀ b ∈ payload, 32 ≤ b ∧ b ≤ 126) (ht : term = 13 ∨ term = 10) :
    qrInner now (burst T (header ++ payload ++ [term])) 0 false [] = ⟨[], 7, true, payload⟩ := by
  have hlen : 0 < payload.length := List.length_pos.mpr hne
  have hsplit : burst T (header ++ payload ++ [term])
      = burst T header ++ (burst T payload ++ [(T, term)]) := by
    simp [burst]
  rw [hsplit, qrInner_header_burst now T hT header hh,
    qrInner_payload_burst now T hT _ 7 payload [] hp]
  unfold qrInner
  simp [ht, hlen, qrInner, hT]

/-- A pass of the inner loop before the first byte arrives changes nothing. -/
theorem qrInner_idle (now : Nat) (rx : Rx) (hb : Nat) (hs : Bool) (qd : Str)
    (h : ∀ p, rx.head? = some p → now < p.1) :
    qrInner now rx hb hs qd = ⟨rx, hb, hs, qd⟩ := by
  cases rx with
  | nil => simp [qrInner]
  | cons x rest =>
    obtain ⟨t, b⟩ := x
    have := h (t, b) rfl
    simp only at this
    unfold qrInner
    simp [show ¬ t ≤ now by omega]

/-- The polling loop on a whole frame that arrives at `T`, when a poll at or
after `T` falls before the timeout: the payload is returned. -/
theorem qrOuter_burst (T timeoutMs : Nat) (header payload : List Nat) (term : Nat)
    (hh : header.length = 7) (hne : payload ≠ [])
    (hp : ∀ b ∈ payload, 32 ≤ b ∧ b ≤ 126) (ht : term = 13 ∨ term = 10) :
    ∀ (k fuel now : Nat), k < fuel → now + 10 * k < timeoutMs → T ≤ now + 10 * k →
      qrOuter fuel timeoutMs now ⟨burst T (header ++ payload ++ [term]), 0, false, []⟩
        = some payload := by
  have hlen : 0 < payload.length := List.length_pos.mpr hne
  have hread : ∀ fuel now, 0 < fuel → now < timeoutMs → T ≤ now →
      qrOuter fuel timeoutMs now ⟨burst T (header ++ payload ++ [term]), 0, false, []⟩
        = some payload := by
    intro fuel now hf hnow hT
    obtain ⟨n, rfl⟩ : ∃ n, fuel = n + 1 := ⟨fuel - 1, by omega⟩
    unfold qrOuter
    simp only [hnow, if_true, qrInner_burst now T hT header payload term hh hne hp ht]
    simp [hlen, available]
  intro k
  induction k with
  | zero =>
    intro fuel now hf hnow hT
    exact hread fuel now (by omega) (by omega) (by omega)
  | succ k ih =>
    intro fuel now hf hnow hT
    by_cases hT2 : T ≤ now
    · exact hread fuel now (by omega) (by omega) hT2
    · obtain ⟨n, rfl⟩ : ∃ n, fuel = n + 1 := ⟨fuel - 1, by omega⟩
      have hidle := qrInner_idle now (burst T (header ++ payload ++ [term])) 0 false []
        (by
          intro p hp2
          have hmem := List.mem_of_mem_head? hp2
          simp only [burst, List.mem_map] at hmem
          obtain ⟨b, -, rfl⟩ := hmem
          simp only
          omega)
      conv_lhs => unfold qrOuter
      simp only [show now < timeoutMs by omega, if_true, hidle]
      simp only [List.length_nil, gt_iff_lt, lt_self_iff_false, decide_False, Bool.false_and,
        Bool.false_eq_true, if_false, QR_POLL_DELAY]
      exact ih n (now + 10) (by omega) (by omega) (by omega)

/-- The polling loop on a line whose first byte arrives after the last poll
before the timeout: nothing is read. -/
theorem qrOuter_late (timeoutMs : Nat) (rx : Rx) (hb : Nat) (hs : Bool) :
    ∀ (fuel now : Nat), timeoutMs - now < fuel →
      (∀ p, rx.head? = some p → ∀ k, now + 10 * k < timeoutMs → now + 10 * k < p.1) →
      qrOuter fuel timeoutMs now ⟨rx, hb, hs, []⟩ = some [] := by
  intro fuel
  induction fuel with
  | zero => intro now h; omega
  | succ n ih =>
    intro now hf hlate
    unfold qrOuter
    by_cases hnow : now < timeoutMs
    · have hidle := qrInner_idle now rx hb hs []
        (fun p hp => by simpa using hlate p hp 0 (by simpa using hnow))
      simp only [hnow, if_true, hidle]
      simp only [List.length_nil, gt_iff_lt, lt_self_iff_false, decide_False, Bool.false_and,
        Bool.false_eq_true, if_false, QR_POLL_DELAY]
      apply ih (now + 10) (by omega)
      intro p hp k hk
      have := hlate p hp (k + 1) (by omega)
      omega
    · simp [hnow]

/-- A payload of printable bytes that neither starts nor ends with a space is
left alone by `trim`. -/
theorem trim_payload (payload : List Nat) (hp : ∀ b ∈ payload, 32 ≤ b ∧ b ≤ 126)
    (hfirst : payload.head? ≠ some 32) (hlast : payload.getLast? ≠ some 32) :
    trim payload = payload := by
  have hsp : ∀ c, 32 ≤ c ∧ c ≤ 126 → c ≠ 32 → isSpace c = false := by
    intro c hc hne32
    simp only [isSpace, Bool.or_eq_false_iff, beq_eq_false_iff_ne, ne_eq, hne32,
      not_false_eq_true, Bool.and_eq_false_imp, decide_eq_true_eq, decide_eq_false_iff_not,
      true_and]
    omega
  apply trim_eq_self
  · intro c hc
    have hmem : c ∈ payload := List.mem_of_mem_head? hc
    exact hsp c (hp c hmem) (fun h => hfirst (h ▸ hc))
  · intro c hc
    have hmem : c ∈ payload := List.mem_of_mem_getLast? hc
    exact hsp c (hp c hmem) (fun h => hlast (h ▸ hc))

set_option maxRecDepth 100000 in
/-- The claim C18 as written fails: a complete frame of "RED" whose bytes all
become available exactly 5000 ms after the call is not returned; the result
is the empty string. -/
theorem readQRCode_deadline_counterexample :
    burst 5000 frameRED = [(5000, 2), (5000, 0), (5000, 0), (5000, 1), (5000, 0), (5000, 0),
        (5000, 3), (5000, 82), (5000, 69), (5000, 68), (5000, 13)]
      ∧ readQRCode (burst 5000 frameRED) 5000 = some []
      ∧ readQRCode (burst 5000 frameRED) 5000 ≠ some [82, 69, 68] := by
  decide

/-- C18 (amended): the loop of `readQRCode` polls the line every 10 ms while it
holds no payload and leaves as soon as the elapsed time is no longer below the
timeout, so with the timeout of 5000 ms the last poll is at 4990 ms. A complete
frame (7-byte header, non-empty printable payload without a space at either
end, CR or LF) whose bytes all become available `T` ms after the call is
returned as its payload when `T ≤ 4990`, and more generally when the first poll
at or after `T` falls before the timeout; it yields the empty string when
`T > 4990`, in particular at exactly 5000 ms and later, as does every line all
of whose bytes become available later than 4990 ms. -/
theorem readQRCode_deadline (header payload : List Nat) (term T : Nat)
    (hh : header.length = 7) (hne : payload ≠ [])
    (hp : ∀ b ∈ payload, 32 ≤ b ∧ b ≤ 126)
    (hfirst : payload.head? ≠ some 32) (hlast : payload.getLast? ≠ some 32)
    (ht : term = 13 ∨ term = 10) :
    (T ≤ 4990 → readQRCode (burst T (header ++ payload ++ [term])) QR_TIMEOUT = some payload)
    ∧ (4990 < T → readQRCode (burst T (header ++ payload ++ [term])) QR_TIMEOUT = some [])
    ∧ (∀ timeoutMs, (T + 9) / 10 * 10 < timeoutMs →
        readQRCode (burst T (header ++ payload ++ [term])) timeoutMs = some payload)
    ∧ (∀ timeoutMs, timeoutMs ≤ (T + 9) / 10 * 10 →
        readQRCode (burst T (header ++ payload ++ [term])) timeoutMs = some [])
    ∧ (∀ rx : Rx, (∀ p ∈ rx, 4990 < p.1) → readQRCode rx QR_TIMEOUT = some []) := by
  have hread : ∀ timeoutMs, (T + 9) / 10 * 10 < timeoutMs →
      readQRCode (burst T (header ++ payload ++ [term])) timeoutMs = some payload := by
    intro timeoutMs hto
    have h := qrOuter_burst T timeoutMs header payload term hh hne hp ht ((T + 9) / 10)
      (timeoutMs + 1) 0 (by omega) (by omega) (by omega)
    unfold readQRCode readQRCodeRaw
    rw [h]
    exact congrArg some (trim_payload payload hp hfirst hlast)
  have hlate : ∀ (rx : Rx) (timeoutMs : Nat),
      (∀ p ∈ rx, ∀ k, 10 * k < timeoutMs → 10 * k < p.1) →
      readQRCode rx timeoutMs = some [] := by
    intro rx timeoutMs hall
    have h := qrOuter_late timeoutMs rx 0 false (timeoutMs + 1) 0 (by omega)
      (fun p hp2 k hk => by
        have := hall p (List.mem_of_mem_head? hp2) k (by omega)
        omega)
    unfold readQRCode readQRCodeRaw
    rw [h]
    rfl
  have hburst : ∀ timeoutMs, timeoutMs ≤ (T + 9) / 10 * 10 →
      readQRCode (burst T (header ++ payload ++ [term])) timeoutMs = some [] := by
    intro timeoutMs hto
    apply hlate
    intro p hp2 k hk
    simp only [burst, List.mem_map] at hp2
    obtain ⟨b, -, rfl⟩ := hp2
    simp only
    omega
  refine ⟨fun hT => hread QR_TIMEOUT (by unfold QR_TIMEOUT; omega),
    fun hT => hburst QR_TIMEOUT (by unfold QR_TIMEOUT; omega), hread, hburst, ?_⟩
  intro rx hall
  apply hlate
  intro p hp2 k hk
  have := hall p hp2
  unfold QR_TIMEOUT at hk
  omega

/-- The frame of "RED" is returned when it becomes available 4990 ms after the
call, and gives the empty string when it becomes available at 5000 ms. -/
theorem readQRCode_deadline_witness :
    readQRCode (burst 4990 ([2, 0, 0, 1, 0, 0, 3] ++ [82, 69, 68] ++ [13])) QR_TIMEOUT
        = some [82, 69, 68]
      ∧ readQRCode (burst 5000 ([2, 0, 0, 1, 0, 0, 3] ++ [82, 69, 68] ++ [13])) QR_TIMEOUT
        = some [] :=
  ⟨(readQRCode_deadline [2, 0, 0, 1, 0, 0, 3] [82, 69, 68] 13 4990 rfl (by decide) (by decide)
      (by decide) (by decide) (Or.inl rfl)).1 (by decide),
    (readQRCode_deadline [2, 0, 0, 1, 0, 0, 3] [82, 69, 68] 13 5000 rfl (by decide) (by decide)
      (by decide) (by decide) (Or.inl rfl)).2.1 (by decide)⟩

theorem setMachineOutput_latched (s : Controller) (enable : Bool) :
    (setMachineOutput s enable).bobbinsLatched = s.bobbinsLatched := by
  unfold setMachineOutput
  split <;> rfl

/-- No state handler sets the latch. -/
theorem handler_latch_down (s : Controller) (i : Inputs) (h : s.bobbinsLatched = false) :
    (stateHandler s i).bobbinsLatched = false := by
  cases hs : s.currentState <;>
    simp only [stateHandler, hs, cardCheck, verifyThreads, isKanbanCardStillPresent] <;>
    (try split_ifs) <;>
    simp [setMachineOutput_latched, updateLEDs, delay, emit, clearProcessData, cardRemovedReset,
      triggerQRScanner, h]

/-- A tick in which the helper does not sample both bobbins present leaves the
latch down. -/
theorem tick_latch_down (s : Controller) (i : Inputs) (h : s.bobbinsLatched = false)
    (hb : ¬ (i.resetBobbin1 = true ∧ i.resetBobbin2 = true)) :
    (handleStateMachine s i).bobbinsLatched = false := by
  have hq : resetFires s i = false := by
    cases hf : resetFires s i
    · rfl
    · have := (reset_fires_iff s i.resetBobbin1 i.resetBobbin2).mp hf
      rw [h] at this
      exact absurd this.2.1 (by simp)
  rw [tick_entered s i hq]
  apply handler_latch_down
  have hd : (detectStateChange s i).bobbinsLatched = s.bobbinsLatched := by
    unfold detectStateChange
    split <;> rfl
  cases h1 : i.resetBobbin1 <;> cases h2 : i.resetBobbin2 <;> simp_all [entered]

theorem run_latch_down (inputs : List Inputs) : ∀ (s : Controller),
    s.bobbinsLatched = false →
    (∀ k ∈ inputs, ¬ (k.resetBobbin1 = true ∧ k.resetBobbin2 = true)) →
    (run s inputs).bobbinsLatched = false := by
  induction inputs with
  | nil => intro s h _; exact h
  | cons i rest ih =>
    intro s h hall
    exact ih _ (tick_latch_down s i h (hall i (List.mem_cons_self _ _)))
      (fun k hk => hall k (List.mem_cons_of_mem _ hk))

/-- C21: `clearProcessData` applied twice gives the controller that one
application gives, it leaves the process data cleared, and it changes neither
`currentState` nor the relay nor the lamps. -/
theorem clearProcessData_idempotent (s : Controller) :
    clearProcessData (clearProcessData s) = clearProcessData s
      ∧ processDataCleared (clearProcessData s)
      ∧ (clearProcessData s).currentState = s.currentState
      ∧ (clearProcessData s).relay = s.relay
      ∧ (clearProcessData s).lamps = s.lamps :=
  ⟨rfl, ⟨rfl, rfl, rfl, rfl, rfl, rfl, rfl, rfl, rfl, rfl, rfl, rfl⟩, rfl, rfl, rfl⟩

/-- C22: for every controller whose relay pin holds what `setMachineOutput`
last wrote and all bobbin samples `b1`, `b2`, `handleResetIfBobbinRemoved`
returns true exactly when `resetMonitoringArmed` and `bobbinsLatched` are set
before the call and not both bobbins are present; then the state is
`STATE_WAIT_KANBAN`, the relay low, the lamps (off, off, on, on) and the process
data cleared; when it returns false nothing changes but `bobbinsLatched`, which
is set when it was not and the monitoring is armed and both bobbins are
present. So in a run from boot the helper does not fire before one of its
samples has found both bobbins present. -/
theorem reset_helper_latch_then_watch (s : Controller) (b1 b2 : Bool)
    (hpin : s.initialized = true → s.relay = s.lastState) :
    ((handleResetIfBobbinRemoved s b1 b2).1 = true ↔
      (s.resetMonitoringArmed = true ∧ s.bobbinsLatched = true ∧ ¬ (b1 = true ∧ b2 = true)))
    ∧ ((handleResetIfBobbinRemoved s b1 b2).1 = true →
        ((handleResetIfBobbinRemoved s b1 b2).2.currentState = STATE_WAIT_KANBAN
          ∧ (handleResetIfBobbinRemoved s b1 b2).2.relay = false
          ∧ (handleResetIfBobbinRemoved s b1 b2).2.lamps = ⟨false, false, true, true⟩
          ∧ processDataCleared (handleResetIfBobbinRemoved s b1 b2).2))
    ∧ ((handleResetIfBobbinRemoved s b1 b2).1 = false →
        ((handleResetIfBobbinRemoved s b1 b2).2
            = { s with bobbinsLatched := (handleResetIfBobbinRemoved s b1 b2).2.bobbinsLatched }
          ∧ (handleResetIfBobbinRemoved s b1 b2).2.currentState = s.currentState
          ∧ (handleResetIfBobbinRemoved s b1 b2).2.relay = s.relay
          ∧ (handleResetIfBobbinRemoved s b1 b2).2.lamps = s.lamps
          ∧ ((handleResetIfBobbinRemoved s b1 b2).2.bobbinsLatched = true ↔
              (s.bobbinsLatched = true
                ∨ (s.resetMonitoringArmed = true ∧ b1 = true ∧ b2 = true)))))
    ∧ (∀ (relay0 : Bool) (lamps0 : Lamps) (inputs : List Inputs) (i : Inputs),
        (∀ k ∈ inputs, ¬ (k.resetBobbin1 = true ∧ k.resetBobbin2 = true)) →
        resetFires (run (boot relay0 lamps0) inputs) i = false) := by
  refine ⟨reset_fires_iff s b1 b2, ?_, ?_, ?_⟩
  · intro h
    rw [reset_true_eq s b1 b2 h]
    unfold processDataCleared
    cases hi : s.initialized
    · simp [setMachineOutput, updateLEDs, delay, emit, clearProcessData, hi]
    · have hp := hpin hi
      simp [setMachineOutput_eq, updateLEDs, delay, emit, clearProcessData, hi, hp]
  · intro h
    rw [reset_false_eq s b1 b2 h]
    refine ⟨rfl, rfl, rfl, rfl, ?_⟩
    simp [and_assoc]
  · intro relay0 lamps0 inputs i hall
    have hl := run_latch_down inputs (boot relay0 lamps0) (by rw [boot_eq]; rfl) hall
    cases hf : resetFires (run (boot relay0 lamps0) inputs) i
    · rfl
    · have := (reset_fires_iff _ i.resetBobbin1 i.resetBobbin2).mp hf
      rw [hl] at this
      exact absurd this.2.1 (by simp)

/-- In `STATE_READY` after the happy path the helper fires when bobbin 1 is
gone, and the reset leaves `STATE_WAIT_KANBAN` with the relay low. -/
theorem reset_helper_latch_then_watch_witness :
    (handleResetIfBobbinRemoved (run (boot false lampsOff) happyCycle) false true).1 = true
      ∧ (handleResetIfBobbinRemoved (run (boot false lampsOff) happyCycle)
          false true).2.currentState = STATE_WAIT_KANBAN
      ∧ (handleResetIfBobbinRemoved (run (boot false lampsOff) happyCycle)
          false true).2.relay = false :=
  have h := reset_helper_latch_then_watch (run (boot false lampsOff) happyCycle) false true
    (by decide)
  ⟨h.1.mpr (by decide), (h.2.1 (h.1.mpr (by decide))).1, (h.2.1 (h.1.mpr (by decide))).2.1⟩

/-- The handler of `STATE_WAIT_BOBBINS`: the timeout test comes last. -/
theorem handler_wait_bobbins (s : Controller) (i : Inputs)
    (hs : s.currentState = STATE_WAIT_BOBBINS) :
    (stateHandler s i).currentState
      = if elapsedMs i.millisTimeout s.stateEntryTime > BOBBIN_WAIT_TIMEOUT then STATE_ERROR
        else if i.bobbin1 = true ∧ i.bobbin2 = true then STATE_SCAN_QR1
        else STATE_WAIT_BOBBINS := by
  by_cases hto : elapsedMs i.millisTimeout s.stateEntryTime > BOBBIN_WAIT_TIMEOUT <;>
    cases hb1 : i.bobbin1 <;> cases hb2 : i.bobbin2 <;>
    simp [stateHandler, hs, updateLEDs, delay, emit, hto, hb1, hb2]

/-- The entry time that the state handler finds. -/
theorem entered_entryTime (s : Controller) (i : Inputs) :
    (entered s i).stateEntryTime
      = if s.currentState = s.previousState then s.stateEntryTime else u32 i.millisEntry := by
  unfold entered detectStateChange
  by_cases h : s.currentState = s.previousState
  · simp [h]
  · simp [h, bne_iff_ne]

/-- C23: in every `STATE_WAIT_BOBBINS` tick whose state handler runs, the
entry time is the clock value recorded when the state was first seen; if at the
timeout check more than 30000 ms have elapsed since then the tick ends in
`STATE_ERROR`, also when both bobbins were sampled present; otherwise it ends in
`STATE_SCAN_QR1` when both bobbins were sampled present and in
`STATE_WAIT_BOBBINS` when one was absent. Exactly 30000 ms is no timeout. -/
theorem waitBobbins_exits (s : Controller) (i : Inputs)
    (hs : s.currentState = STATE_WAIT_BOBBINS) (hq : resetFires s i = false) :
    BOBBIN_WAIT_TIMEOUT = 30000
    ∧ (entered s i).stateEntryTime
        = (if s.previousState = STATE_WAIT_BOBBINS then s.stateEntryTime else u32 i.millisEntry)
    ∧ (elapsedMs i.millisTimeout (entered s i).stateEntryTime > 30000 →
        (handleStateMachine s i).currentState = STATE_ERROR)
    ∧ (elapsedMs i.millisTimeout (entered s i).stateEntryTime ≤ 30000 →
        i.bobbin1 = true → i.bobbin2 = true →
        (handleStateMachine s i).currentState = STATE_SCAN_QR1)
    ∧ (elapsedMs i.millisTimeout (entered s i).stateEntryTime ≤ 30000 →
        (i.bobbin1 = false ∨ i.bobbin2 = false) →
        (handleStateMachine s i).currentState = STATE_WAIT_BOBBINS)
    ∧ (elapsedMs i.millisTimeout (entered s i).stateEntryTime = 30000 →
        (handleStateMachine s i).currentState ≠ STATE_ERROR) := by
  have he : (entered s i).currentState = STATE_WAIT_BOBBINS := by
    rw [(entered_fields s i).1]; exact hs
  have hk := handler_wait_bobbins (entered s i) i he
  rw [← tick_entered s i hq] at hk
  refine ⟨rfl, ?_, ?_, ?_, ?_, ?_⟩
  · rw [entered_entryTime, hs]
    by_cases hp : s.previousState = STATE_WAIT_BOBBINS
    · rw [if_pos hp, if_pos hp.symm]
    · rw [if_neg hp, if_neg (fun h => hp h.symm)]
  · intro hto
    rw [hk]
    simp [BOBBIN_WAIT_TIMEOUT, hto]
  · intro hto h1 h2
    rw [hk]
    simp [BOBBIN_WAIT_TIMEOUT, Nat.not_lt.mpr hto, h1, h2]
  · intro hto hb
    rw [hk]
    rcases hb with hb | hb <;> simp [BOBBIN_WAIT_TIMEOUT, Nat.not_lt.mpr hto, hb]
  · intro hto
    rw [hk]
    cases hb1 : i.bobbin1 <;> cases hb2 : i.bobbin2 <;> simp [BOBBIN_WAIT_TIMEOUT, hto]

/-- After 37800 ms of waiting the tick ends in `STATE_ERROR` although both
bobbins are present, and after exactly 30000 ms it goes on to `STATE_SCAN_QR1`. -/
theorem waitBobbins_exits_witness :
    (handleStateMachine waitingState (steady 40000 cardRedBlue [])).currentState = STATE_ERROR
      ∧ (handleStateMachine waitingState (steady 32200 cardRedBlue [])).currentState
          = STATE_SCAN_QR1 :=
  ⟨(waitBobbins_exits waitingState (steady 40000 cardRedBlue []) (by decide) (by decide)).2.2.1
      (by decide),
    (waitBobbins_exits waitingState (steady 32200 cardRedBlue []) (by decide) (by decide)).2.2.2.1
      (by decide) rfl rfl⟩

/-- Every `delay` inside `readQRCode` lasts `QR_READ_DELAY` or `QR_POLL_DELAY`. -/
theorem qrDelays_values (timeoutMs : Nat) : ∀ (fuel now : Nat) (l : QrLocals),
    ∀ d ∈ qrDelays fuel timeoutMs now l, d = 50 ∨ d = 10 := by
  intro fuel
  induction fuel with
  | zero => intro now l d hd; simp [qrDelays] at hd
  | succ n ih =>
    intro now l d hd
    unfold qrDelays at hd
    split at hd
    · simp only at hd
      split at hd
      · split at hd
        · simp only [List.mem_singleton, QR_READ_DELAY] at hd
          exact Or.inl hd
        · simp only [List.mem_cons, QR_READ_DELAY, QR_POLL_DELAY] at hd
          rcases hd with hd | hd | hd
          · exact Or.inl hd
          · exact Or.inr hd
          · exact ih _ _ d hd
      · simp only [List.mem_cons, QR_POLL_DELAY] at hd
        rcases hd with hd | hd
        · exact Or.inr hd
        · exact ih _ _ d hd
    · simp at hd

/-- The handlers of `STATE_SCAN_QR1` and `STATE_SCAN_QR2`, on the string that
`readQRCode` returns. -/
theorem handler_scan (s : Controller) (i : Inputs) (code : Str)
    (hc : readQRCode i.rx QR_TIMEOUT = some code) :
    (s.currentState = STATE_SCAN_QR1 →
      (stateHandler s i).qrCode1 = code
      ∧ (stateHandler s i).qrCode2 = s.qrCode2
      ∧ (code ≠ [] →
          (stateHandler s i).trace = s.trace ++ ([Event.qrTrigger 1, Event.delay QR_TRIGGER_DELAY]
              ++ (readQRCodeDelays i.rx QR_TIMEOUT).map Event.delay
              ++ [Event.lamps true false false false])
          ∧ (stateHandler s i).lamps = ⟨true, false, false, false⟩
          ∧ (stateHandler s i).currentState = STATE_SCAN_QR2
          ∧ (stateHandler s i).thread1Error = s.thread1Error
          ∧ (stateHandler s i).thread2Error = s.thread2Error)
      ∧ (code = [] →
          (stateHandler s i).trace = s.trace ++ ([Event.qrTrigger 1, Event.delay QR_TRIGGER_DELAY]
              ++ (readQRCodeDelays i.rx QR_TIMEOUT).map Event.delay
              ++ [Event.lamps false false true false])
          ∧ (stateHandler s i).lamps = ⟨false, false, true, false⟩
          ∧ (stateHandler s i).currentState = STATE_ERROR
          ∧ (stateHandler s i).thread1Error = true
          ∧ (stateHandler s i).thread2Error = false))
    ∧ (s.currentState = STATE_SCAN_QR2 →
      (stateHandler s i).qrCode2 = code
      ∧ (stateHandler s i).qrCode1 = s.qrCode1
      ∧ (code ≠ [] →
          (stateHandler s i).trace = s.trace ++ ([Event.qrTrigger 2, Event.delay QR_TRIGGER_DELAY]
              ++ (readQRCodeDelays i.rx QR_TIMEOUT).map Event.delay
              ++ [Event.lamps true true false false])
          ∧ (stateHandler s i).lamps = ⟨true, true, false, false⟩
          ∧ (stateHandler s i).currentState = STATE_VERIFY
          ∧ (stateHandler s i).thread1Error = s.thread1Error
          ∧ (stateHandler s i).thread2Error = s.thread2Error)
      ∧ (code = [] →
          (stateHandler s i).trace = s.trace ++ ([Event.qrTrigger 2, Event.delay QR_TRIGGER_DELAY]
              ++ (readQRCodeDelays i.rx QR_TIMEOUT).map Event.delay
              ++ [Event.lamps true false false true])
          ∧ (stateHandler s i).lamps = ⟨true, false, false, true⟩
          ∧ (stateHandler s i).currentState = STATE_ERROR
          ∧ (stateHandler s i).thread1Error = false
          ∧ (stateHandler s i).thread2Error = true))
    ∧ (s.currentState = STATE_SCAN_QR1 ∨ s.currentState = STATE_SCAN_QR2 →
      (stateHandler s i).relay = s.relay ∧ (stateHandler s i).kanbanData = s.kanbanData
      ∧ Event.relayPin true ∉ (stateHandler s i).trace.drop s.trace.length) := by
  have hpos : ∀ l : Str, l ≠ [] → 0 < l.length := fun l h => List.length_pos.mpr h
  refine ⟨?_, ?_, ?_⟩
  · intro hs
    by_cases hne : code = []
    · subst hne
      simp [stateHandler, hs, hc, triggerQRScanner, updateLEDs, delay, emit]
    · have := hpos code hne
      simp [stateHandler, hs, hc, triggerQRScanner, updateLEDs, delay, emit, hne, this]
  · intro hs
    by_cases hne : code = []
    · subst hne
      simp [stateHandler, hs, hc, triggerQRScanner, updateLEDs, delay, emit]
    · have := hpos code hne
      simp [stateHandler, hs, hc, triggerQRScanner, updateLEDs, delay, emit, hne, this]
  · intro hs
    by_cases hne : code = []
    · subst hne
      rcases hs with hs | hs <;>
        simp [stateHandler, hs, hc, triggerQRScanner, updateLEDs, delay, emit]
    · have := hpos code hne
      rcases hs with hs | hs <;>
        simp [stateHandler, hs, hc, triggerQRScanner, updateLEDs, delay, emit, hne, this]

/-- C24: in every tick of a run from boot whose state handler runs in
`STATE_SCAN_QR1` or `STATE_SCAN_QR2`, `readQRCode` returns a string `code`.
In `STATE_SCAN_QR1` it is stored in `qrCode1`; when it is not empty the tick
writes the lamps (on, off, off, off) and ends in `STATE_SCAN_QR2` with the flags
as they were, and when it is empty the tick sets `thread1Error`, clears
`thread2Error`, writes the lamps (off, off, on, off) and ends in `STATE_ERROR`.
In `STATE_SCAN_QR2` it is stored in `qrCode2`; when it is not empty the tick
writes the lamps (on, on, off, off) and ends in `STATE_VERIFY`, and when it is
empty the tick clears `thread1Error`, sets `thread2Error`, writes the lamps
(on, off, off, on) and ends in `STATE_ERROR`. In all four cases the scanner
trigger, the 500 ms delay, the delays of 50 ms and 10 ms inside `readQRCode`
and the lamp write are all that the tick does, in this order: the relay is low
and not written, and `kanbanData` is unchanged. -/
theorem scan_transitions (s : Controller) (relay0 : Bool) (lamps0 : Lamps)
    (inputs : List Inputs) (i : Inputs) (hrun : s = run (boot relay0 lamps0) inputs)
    (hq : resetFires s i = false) :
    ∃ code, readQRCode i.rx QR_TIMEOUT = some code
      ∧ (s.currentState = STATE_SCAN_QR1 →
          (handleStateMachine s i).qrCode1 = code
          ∧ (handleStateMachine s i).qrCode2 = s.qrCode2
          ∧ (code ≠ [] →
              tickEvents s i = [Event.qrTrigger 1, Event.delay 500]
                  ++ (readQRCodeDelays i.rx QR_TIMEOUT).map Event.delay
                  ++ [Event.lamps true false false false]
              ∧ (handleStateMachine s i).lamps = ⟨true, false, false, false⟩
              ∧ (handleStateMachine s i).currentState = STATE_SCAN_QR2
              ∧ (handleStateMachine s i).thread1Error = s.thread1Error
              ∧ (handleStateMachine s i).thread2Error = s.thread2Error)
          ∧ (code = [] →
              tickEvents s i = [Event.qrTrigger 1, Event.delay 500]
                  ++ (readQRCodeDelays i.rx QR_TIMEOUT).map Event.delay
                  ++ [Event.lamps false false true false]
              ∧ (handleStateMachine s i).lamps = ⟨false, false, true, false⟩
              ∧ (handleStateMachine s i).currentState = STATE_ERROR
              ∧ (handleStateMachine s i).thread1Error = true
              ∧ (handleStateMachine s i).thread2Error = false))
      ∧ (s.currentState = STATE_SCAN_QR2 →
          (handleStateMachine s i).qrCode2 = code
          ∧ (handleStateMachine s i).qrCode1 = s.qrCode1
          ∧ (code ≠ [] →
              tickEvents s i = [Event.qrTrigger 2, Event.delay 500]
                  ++ (readQRCodeDelays i.rx QR_TIMEOUT).map Event.delay
                  ++ [Event.lamps true true false false]
              ∧ (handleStateMachine s i).lamps = ⟨true, true, false, false⟩
              ∧ (handleStateMachine s i).currentState = STATE_VERIFY
              ∧ (handleStateMachine s i).thread1Error = s.thread1Error
              ∧ (handleStateMachine s i).thread2Error = s.thread2Error)
          ∧ (code = [] →
              tickEvents s i = [Event.qrTrigger 2, Event.delay 500]
                  ++ (readQRCodeDelays i.rx QR_TIMEOUT).map Event.delay
                  ++ [Event.lamps true false false true]
              ∧ (handleStateMachine s i).lamps = ⟨true, false, false, true⟩
              ∧ (handleStateMachine s i).currentState = STATE_ERROR
              ∧ (handleStateMachine s i).thread1Error = false
              ∧ (handleStateMachine s i).thread2Error = true))
      ∧ (s.currentState = STATE_SCAN_QR1 ∨ s.currentState = STATE_SCAN_QR2 →
          s.relay = false ∧ (handleStateMachine s i).relay = false
          ∧ (handleStateMachine s i).kanbanData = s.kanbanData
          ∧ Event.relayPin true ∉ tickEvents s i)
      ∧ (∀ d ∈ readQRCodeDelays i.rx QR_TIMEOUT, d = 50 ∨ d = 10) := by
  obtain ⟨code, hc⟩ := readQRCode_total i.rx QR_TIMEOUT
  obtain ⟨hinv, -⟩ := reach_inv relay0 lamps0 inputs
  rw [← hrun] at hinv
  obtain ⟨e1, e2, e3, e4, -, -, e7, e8, -, -, -, -, -, -, -, -, e17, -, e19⟩ := entered_fields s i
  obtain ⟨k1, k2, k3⟩ := handler_scan (entered s i) i code hc
  rw [e1, ← tickEvents_quiet s i hq] at k3
  rw [e1] at k1 k2
  have hev : ∀ l, (handleStateMachine s i).trace = s.trace ++ l → tickEvents s i = l := by
    intro l hl
    unfold tickEvents
    rw [hl, List.drop_left]
  simp only [← tick_entered s i hq, e2, e3, e4, e7, e8, e17, e19, QR_TRIGGER_DELAY]
    at k1 k2 k3
  refine ⟨code, hc, ?_, ?_, ?_, fun d hd => qrDelays_values _ _ _ _ d hd⟩
  · intro hs
    obtain ⟨a1, a2, a3, a4⟩ := k1 hs
    refine ⟨a1, a2, fun hne => ?_, fun he => ?_⟩
    · obtain ⟨b1, b2⟩ := a3 hne
      exact ⟨hev _ b1, b2⟩
    · obtain ⟨b1, b2⟩ := a4 he
      exact ⟨hev _ b1, b2⟩
  · intro hs
    obtain ⟨a1, a2, a3, a4⟩ := k2 hs
    refine ⟨a1, a2, fun hne => ?_, fun he => ?_⟩
    · obtain ⟨b1, b2⟩ := a3 hne
      exact ⟨hev _ b1, b2⟩
    · obtain ⟨b1, b2⟩ := a4 he
      exact ⟨hev _ b1, b2⟩
  · intro hs
    have hr : s.relay = false := by
      cases hrel : s.relay
      · rfl
      · rcases hinv.2.2.1 hrel with h | h <;> rcases hs with hs | hs <;> rw [h] at hs <;>
          exact absurd hs (by decide)
    obtain ⟨c1, c2, c3⟩ := k3 hs
    exact ⟨hr, c1.trans hr, c2, c3⟩

set_option maxRecDepth 100000 in
/-- In the happy path scanner 1 returns "RED": it is stored in `qrCode1` and the
tick ends in `STATE_SCAN_QR2`, after the one 50 ms delay of `readQRCode`. -/
theorem scan_transitions_witness :
    (run (boot false lampsOff) (happyCycle.take 3)).currentState = STATE_SCAN_QR1
      ∧ (handleStateMachine (run (boot false lampsOff) (happyCycle.take 3))
          (steady 2800 cardRedBlue (buffered frameRED))).qrCode1 = [82, 69, 68]
      ∧ (handleStateMachine (run (boot false lampsOff) (happyCycle.take 3))
          (steady 2800 cardRedBlue (buffered frameRED))).currentState = STATE_SCAN_QR2
      ∧ tickEvents (run (boot false lampsOff) (happyCycle.take 3))
          (steady 2800 cardRedBlue (buffered frameRED))
        = [Event.qrTrigger 1, Event.delay 500, Event.delay 50,
            Event.lamps true false false false] := by
  obtain ⟨code, hc, h1, -, -⟩ := scan_transitions _ false lampsOff (happyCycle.take 3)
    (steady 2800 cardRedBlue (buffered frameRED)) rfl (by decide)
  have hred : readQRCode (steady 2800 cardRedBlue (buffered frameRED)).rx QR_TIMEOUT
      = some [82, 69, 68] := by decide
  have hcode : code = [82, 69, 68] := Option.some.inj (hc.symm.trans hred)
  subst hcode
  have hd : readQRCodeDelays (steady 2800 cardRedBlue (buffered frameRED)).rx QR_TIMEOUT
      = [50] := by decide
  have htr := ((h1 (by decide)).2.2.1 (by decide)).1
  rw [hd] at htr
  exact ⟨by decide, (h1 (by decide)).1, ((h1 (by decide)).2.2.1 (by decide)).2.2.1, htr⟩

/-- A handler of `STATE_READY`, `STATE_BYPASS` or `STATE_ERROR` that ends in
`STATE_WAIT_KANBAN`, in a state reached from boot: the relay is low, the data
cleared, and the last lamp write is (off, off, on, on), except for the bobbin
reset of `STATE_ERROR`, which writes no lamps after the error lamps. -/
theorem handler_reset_lamps (s : Controller) (i : Inputs) (h : Inv s)
    (hs : s.currentState = STATE_READY ∨ s.currentState = STATE_BYPASS
      ∨ s.currentState = STATE_ERROR)
    (ht : (stateHandler s i).currentState = STATE_WAIT_KANBAN) :
    (stateHandler s i).relay = false
      ∧ processDataCleared (stateHandler s i)
      ∧ lastLampWrite ((stateHandler s i).trace.drop s.trace.length)
          = some (if s.currentState = STATE_ERROR
                    ∧ ¬ (elapsedMs i.millisCheck s.lastCardCheckError > CARD_CHECK_INTERVAL
                          ∧ i.wakeupOk = false)
                  then ⟨!s.thread1Error, !s.thread2Error, s.thread1Error, s.thread2Error⟩
                  else ⟨false, false, true, true⟩) := by
  obtain ⟨h1, hp, -, -, -, -, -, -, -, h10⟩ := h
  revert ht
  unfold processDataCleared
  rcases hs with hs | hs | hs
  · by_cases hdue : elapsedMs i.millisCheck s.lastCardCheckReady > CARD_CHECK_INTERVAL <;>
      cases hw : i.wakeupOk <;> cases hb1 : i.bobbin1 <;> cases hb2 : i.bobbin2 <;>
      cases hl : s.lastState <;>
      simp [stateHandler, hs, cardCheck, isKanbanCardStillPresent, setMachineOutput, updateLEDs,
        delay, emit, clearProcessData, cardRemovedReset, lastLampWrite, CARD_MISSING_THRESHOLD,
        hdue, hw, hb1, hb2, hl, h1, hp, h10]
  · by_cases hdue : elapsedMs i.millisCheck s.lastCardCheckBypass > CARD_CHECK_INTERVAL <;>
      cases hw : i.wakeupOk <;> cases hl : s.lastState <;>
      simp [stateHandler, hs, cardCheck, isKanbanCardStillPresent, setMachineOutput, updateLEDs,
        delay, emit, clearProcessData, cardRemovedReset, lastLampWrite, CARD_MISSING_THRESHOLD,
        hdue, hw, hl, h1, hp, h10]
  · by_cases hdue : elapsedMs i.millisCheck s.lastCardCheckError > CARD_CHECK_INTERVAL <;>
      cases hw : i.wakeupOk <;> cases hb1 : i.bobbin1 <;> cases hb2 : i.bobbin2 <;>
      cases hl : s.lastState <;>
      simp [stateHandler, hs, cardCheck, isKanbanCardStillPresent, setMachineOutput, updateLEDs,
        delay, emit, clearProcessData, cardRemovedReset, lastLampWrite, CARD_MISSING_THRESHOLD,
        hdue, hw, hb1, hb2, hl, h1, hp, h10]

set_option maxRecDepth 100000 in
/-- C26: the bobbin reset of `STATE_ERROR` flashes no alarm. After the card
with an empty second thread name the controller is in `STATE_ERROR`; a tick
without bobbins ends in `STATE_WAIT_KANBAN` and its last and only lamp write is
the error display (on, on, off, off). After the mismatch cycle a tick in which
the handler of `STATE_ERROR` finds bobbin 1 gone ends in `STATE_WAIT_KANBAN`
with (off, on, on, off) as last lamp write. In every run from boot a tick from
`STATE_READY`, `STATE_BYPASS` or `STATE_ERROR` to `STATE_WAIT_KANBAN` leaves the
relay low and the process data cleared, and its last lamp write is
(off, off, on, on) unless it is that bobbin reset of `STATE_ERROR`, whose last
lamp write is the error display. -/
theorem error_bobbin_reset_lamps :
    (run (boot false lampsOff) malformedCardRun).currentState = STATE_ERROR
    ∧ (handleStateMachine (run (boot false lampsOff) malformedCardRun)
        (noBobbins 2200)).currentState = STATE_WAIT_KANBAN
    ∧ tickEvents (run (boot false lampsOff) malformedCardRun) (noBobbins 2200)
        = [Event.lamps true true false false, Event.rfid RfidOp.PICC_WakeupA,
            Event.rfid RfidOp.PICC_HaltA, Event.delay 250]
    ∧ lastLampWrite (tickEvents (run (boot false lampsOff) malformedCardRun) (noBobbins 2200))
        = some ⟨true, true, false, false⟩
    ∧ (run (boot false lampsOff) mismatchCycle).currentState = STATE_ERROR
    ∧ (handleStateMachine (run (boot false lampsOff) mismatchCycle)
        (bobbinSlips 4100)).currentState = STATE_WAIT_KANBAN
    ∧ lastLampWrite (tickEvents (run (boot false lampsOff) mismatchCycle) (bobbinSlips 4100))
        = some ⟨false, true, true, false⟩
    ∧ (∀ (s : Controller) (relay0 : Bool) (lamps0 : Lamps) (inputs : List Inputs) (i : Inputs),
        s = run (boot relay0 lamps0) inputs →
        (s.currentState = STATE_READY ∨ s.currentState = STATE_BYPASS
          ∨ s.currentState = STATE_ERROR) →
        (handleStateMachine s i).currentState = STATE_WAIT_KANBAN →
        ((handleStateMachine s i).relay = false
          ∧ processDataCleared (handleStateMachine s i)
          ∧ lastLampWrite (tickEvents s i)
              = some (if s.currentState = STATE_ERROR ∧ resetFires s i = false
                        ∧ ¬ (elapsedMs i.millisCheck s.lastCardCheckError > CARD_CHECK_INTERVAL
                              ∧ i.wakeupOk = false)
                      then ⟨!s.thread1Error, !s.thread2Error, s.thread1Error, s.thread2Error⟩
                      else ⟨false, false, true, true⟩))) := by
  refine ⟨by decide, by decide, by decide, by decide, by decide, by decide, by decide, ?_⟩
  intro s relay0 lamps0 inputs i hrun hs ht
  obtain ⟨hinv, -⟩ := reach_inv relay0 lamps0 inputs
  rw [← hrun] at hinv
  cases hq : resetFires s i
  · obtain ⟨e1, -, -, -, -, -, e7, e8, -, -, -, -, -, e14, -⟩ := entered_fields s i
    have hk := handler_reset_lamps (entered s i) i (inv_entered s i hinv)
      (by rw [e1]; exact hs) (by rw [← tick_entered s i hq]; exact ht)
    rw [← tickEvents_quiet s i hq, ← tick_entered s i hq, e1, e7, e8, e14] at hk
    simpa using hk
  · obtain ⟨c1, c2, -⟩ := tick_fired_cleared s i hq hinv.1 hinv.2.1
    refine ⟨c2, c1, ?_⟩
    rw [tickEvents_fired s i hq hinv.1 hinv.2.1]
    cases hl : s.lastState <;> simp [lastLampWrite]

/-! ## The scanner frame reader: the first payload byte -/

/-- The inner loop only appends to `qrData`. -/
theorem qrInner_keeps (now : Nat) : ∀ (rx : Rx) (hb : Nat) (hs : Bool) (qd : Str),
    ∀ c ∈ qd, c ∈ (qrInner now rx hb hs qd).qrData := by
  intro rx
  induction rx with
  | nil => intro hb hs qd c hc; simpa [qrInner] using hc
  | cons p rest ih =>
    obtain ⟨t, b⟩ := p
    intro hb hs qd c hc
    unfold qrInner
    split
    · split
      · exact ih _ _ _ c hc
      · split
        · split
          · exact hc
          · exact ih _ _ _ c hc
        · split
          · exact ih _ _ _ c (List.mem_append_left _ hc)
          · exact ih _ _ _ c hc
    · exact hc

/-- One pass of the inner loop while no payload byte is held, on a line whose
first payload byte `b`, not a space, comes after the bytes `W` (what is left of
the seven header bytes, then bytes outside 32..126): either all of it has
arrived and `b` is read, or the pass stops at a byte that has not arrived and
holds no payload byte yet. -/
theorem qrInner_first_payload (now t b : Nat) (B : Rx) (hb1 : 33 ≤ b) (hb2 : b ≤ 126) :
    ∀ (W : Rx) (hb : Nat) (hs : Bool), (hs = true ↔ 7 ≤ hb) → 7 - hb ≤ W.length →
    (∀ q ∈ W.drop (7 - hb), ¬ (32 ≤ q.2 ∧ q.2 ≤ 126)) →
    (((∀ q ∈ W, q.1 ≤ now) ∧ t ≤ now)
        ∧ b ∈ (qrInner now (W ++ (t, b) :: B) hb hs []).qrData)
    ∨ (¬ ((∀ q ∈ W, q.1 ≤ now) ∧ t ≤ now)
        ∧ ∃ (C W2 : Rx) (hb2 : Nat) (hs2 : Bool), W = C ++ W2 ∧ (∀ q ∈ C, q.1 ≤ now)
          ∧ qrInner now (W ++ (t, b) :: B) hb hs [] = ⟨W2 ++ (t, b) :: B, hb2, hs2, []⟩
          ∧ (hs2 = true ↔ 7 ≤ hb2) ∧ 7 - hb2 ≤ W2.length
          ∧ (∀ q ∈ W2.drop (7 - hb2), ¬ (32 ≤ q.2 ∧ q.2 ≤ 126))) := by
  intro W
  induction W with
  | nil =>
    intro hb hs h1 h2 h3
    have h7 : 7 ≤ hb := by
      simp only [List.length_nil] at h2
      omega
    have hst : hs = true := h1.mpr h7
    subst hst
    by_cases ht : t ≤ now
    · left
      refine ⟨⟨by simp, ht⟩, ?_⟩
      have hne : ¬ (b = 13 ∨ b = 10) := by omega
      have hstep : qrInner now ([] ++ (t, b) :: B) hb true []
          = qrInner now B hb true ([] ++ [b]) := by
        conv_lhs => unfold qrInner
        simp [ht, hne, show 32 ≤ b by omega, hb2]
      rw [hstep]
      exact qrInner_keeps now B hb true _ b (by simp)
    · right
      refine ⟨fun h => ht h.2, [], [], hb, true, rfl, by simp, ?_, h1, h2, by simp⟩
      conv_lhs => unfold qrInner
      simp [ht]
  | cons x W1 ih =>
    obtain ⟨t0, b0⟩ := x
    intro hb hs h1 h2 h3
    by_cases ht0 : t0 ≤ now
    · have key : ∃ hbn hsn, qrInner now ((t0, b0) :: W1 ++ (t, b) :: B) hb hs []
            = qrInner now (W1 ++ (t, b) :: B) hbn hsn []
          ∧ (hsn = true ↔ 7 ≤ hbn) ∧ 7 - hbn ≤ W1.length
          ∧ (∀ q ∈ W1.drop (7 - hbn), ¬ (32 ≤ q.2 ∧ q.2 ≤ 126)) := by
        cases hs with
        | false =>
          have hlt : hb < 7 := by
            by_contra hc
            have := h1.mpr (by omega)
            cases this
          refine ⟨hb + 1, decide (hb + 1 ≥ 7), ?_, by simp, ?_, ?_⟩
          · conv_lhs => unfold qrInner
            simp [ht0]
          · simp only [List.length_cons] at h2
            omega
          · intro q hq
            apply h3 q
            have : 7 - hb = (7 - (hb + 1)) + 1 := by omega
            rw [this, List.drop_succ_cons]
            exact hq
        | true =>
          have h7 : 7 ≤ hb := h1.mp rfl
          have h0 : 7 - hb = 0 := by omega
          rw [h0] at h3
          have hnp := h3 (t0, b0) (by simp)
          simp only at hnp
          refine ⟨hb, true, ?_, h1, by omega, ?_⟩
          · conv_lhs => unfold qrInner
            by_cases hcr : b0 = 13 ∨ b0 = 10
            · simp [ht0, hcr]
            · have hnp2 : ¬ (32 ≤ b0 ∧ b0 ≤ 126) := hnp
              simp [ht0, hcr, hnp2]
          · intro q hq
            rw [h0] at hq
            exact h3 q (by simpa using Or.inr (by simpa using hq))
      obtain ⟨hbn, hsn, hst, k1, k2, k3⟩ := key
      rcases ih hbn hsn k1 k2 k3 with ⟨⟨ha, hta⟩, hmem⟩ | ⟨hna, C, W2, hbx, hsx, hC, hCt, hr, r1, r2, r3⟩
      · left
        refine ⟨⟨?_, hta⟩, ?_⟩
        · intro q hq
          rcases List.mem_cons.mp hq with rfl | hq
          · exact ht0
          · exact ha q hq
        · rw [hst]
          exact hmem
      · right
        refine ⟨?_, (t0, b0) :: C, W2, hbx, hsx, by rw [hC]; rfl, ?_, ?_, r1, r2, r3⟩
        · intro h
          exact hna ⟨fun q hq => h.1 q (List.mem_cons_of_mem _ hq), h.2⟩
        · intro q hq
          rcases List.mem_cons.mp hq with rfl | hq
          · exact ht0
          · exact hCt q hq
        · rw [hst]
          exact hr
    · right
      refine ⟨fun h => ht0 (h.1 (t0, b0) (List.mem_cons_self _ _)), [], (t0, b0) :: W1, hb, hs,
        rfl, by simp, ?_, h1, h2, h3⟩
      rw [List.cons_append]
      conv_lhs => unfold qrInner
      simp [ht0]

/-- The polling loop when the first payload byte, not a space, is available at
a poll before the timeout: the result holds it. -/
theorem qrOuter_payload_read (timeoutMs t b : Nat) (B : Rx) (hb1 : 33 ≤ b) (hb2 : b ≤ 126) :
    ∀ (fuel j : Nat) (W : Rx) (hb : Nat) (hs : Bool), timeoutMs - 10 * j < fuel →
    (hs = true ↔ 7 ≤ hb) → 7 - hb ≤ W.length →
    (∀ q ∈ W.drop (7 - hb), ¬ (32 ≤ q.2 ∧ q.2 ≤ 126)) →
    ∀ m, j ≤ m → 10 * m < timeoutMs → (∀ q ∈ W, q.1 ≤ 10 * m) → t ≤ 10 * m →
    ∃ r, qrOuter fuel timeoutMs (10 * j) ⟨W ++ (t, b) :: B, hb, hs, []⟩ = some r ∧ b ∈ r := by
  intro fuel
  induction fuel with
  | zero => intro j W hb hs h; omega
  | succ n ih =>
    intro j W hb hs hf h1 h2 h3 m hjm hm hW ht
    have hnow : 10 * j < timeoutMs := by omega
    unfold qrOuter
    simp only [hnow, if_true]
    rcases qrInner_first_payload (10 * j) t b B hb1 hb2 W hb hs h1 h2 h3 with
      ⟨-, hmem⟩ | ⟨hna, C, W2, hbx, hsx, hC, hCt, hr, r1, r2, r3⟩
    · have hfin : ∀ now2, 10 * j < now2 →
          ∃ r, qrOuter n timeoutMs now2
            (qrInner (10 * j) (W ++ (t, b) :: B) hb hs []) = some r ∧ b ∈ r := by
        intro now2 hn2
        obtain ⟨l1, hP, hq⟩ := qrOuter_inv (fun l => b ∈ l.qrData) timeoutMs
          (fun now l _ hl => qrInner_keeps now l.rx l.headerBytes l.headerSkipped l.qrData b hl)
          n now2 _ (by omega) hmem
        exact ⟨_, hq, hP⟩
      split
      · split
        · exact ⟨_, rfl, hmem⟩
        · exact hfin _ (by simp only [QR_READ_DELAY, QR_POLL_DELAY]; omega)
      · exact hfin _ (by simp only [QR_POLL_DELAY]; omega)
    · have hjm2 : j + 1 ≤ m := by
        by_contra hc
        have hj : j = m := by omega
        subst hj
        exact hna ⟨hW, ht⟩
      rw [hr]
      simp only [List.length_nil, gt_iff_lt, lt_self_iff_false, decide_False, Bool.false_and,
        Bool.false_eq_true, if_false, QR_POLL_DELAY]
      have h10 : 10 * j + 10 = 10 * (j + 1) := by omega
      rw [h10]
      exact ih (j + 1) W2 hbx hsx (by omega) r1 r2 r3 m hjm2 hm
        (fun q hq => hW q (by rw [hC]; exact List.mem_append_right _ hq)) ht

/-- The polling loop when the first payload byte is available at no poll
before the timeout: nothing is held at the end. -/
theorem qrOuter_payload_late (timeoutMs t b : Nat) (B : Rx) (hb1 : 33 ≤ b) (hb2 : b ≤ 126) :
    ∀ (fuel j : Nat) (W : Rx) (hb : Nat) (hs : Bool), timeoutMs - 10 * j < fuel →
    (hs = true ↔ 7 ≤ hb) → 7 - hb ≤ W.length →
    (∀ q ∈ W.drop (7 - hb), ¬ (32 ≤ q.2 ∧ q.2 ≤ 126)) →
    (∀ m, j ≤ m → 10 * m < timeoutMs → ¬ ((∀ q ∈ W, q.1 ≤ 10 * m) ∧ t ≤ 10 * m)) →
    qrOuter fuel timeoutMs (10 * j) ⟨W ++ (t, b) :: B, hb, hs, []⟩ = some [] := by
  intro fuel
  induction fuel with
  | zero => intro j W hb hs h; omega
  | succ n ih =>
    intro j W hb hs hf h1 h2 h3 hlate
    unfold qrOuter
    by_cases hnow : 10 * j < timeoutMs
    · simp only [hnow, if_true]
      rcases qrInner_first_payload (10 * j) t b B hb1 hb2 W hb hs h1 h2 h3 with
        ⟨ha, -⟩ | ⟨-, C, W2, hbx, hsx, hC, hCt, hr, r1, r2, r3⟩
      · exact absurd ha (hlate j (Nat.le_refl _) hnow)
      · rw [hr]
        simp only [List.length_nil, gt_iff_lt, lt_self_iff_false, decide_False, Bool.false_and,
          Bool.false_eq_true, if_false, QR_POLL_DELAY]
        have h10 : 10 * j + 10 = 10 * (j + 1) := by omega
        rw [h10]
        apply ih (j + 1) W2 hbx hsx (by omega) r1 r2 r3
        intro m hjm hm hread
        apply hlate m (by omega) hm
        refine ⟨?_, hread.2⟩
        intro q hq
        rw [hC] at hq
        rcases List.mem_append.mp hq with hq | hq
        · have := hCt q hq
          omega
        · exact hread.1 q hq
    · simp [hnow]

/-- On a line whose first payload byte is not a space, `readQRCode` returns the
empty string exactly when that byte is available at no poll before the
timeout. -/
theorem readQRCode_first_payload (W B : Rx) (t b timeoutMs : Nat) (hW : 7 ≤ W.length)
    (hN : ∀ q ∈ W.drop 7, ¬ (32 ≤ q.2 ∧ q.2 ≤ 126)) (hb1 : 33 ≤ b) (hb2 : b ≤ 126) :
    readQRCode (W ++ (t, b) :: B) timeoutMs = some [] ↔
      ∀ m, 10 * m < timeoutMs → ¬ ((∀ q ∈ W, q.1 ≤ 10 * m) ∧ t ≤ 10 * m) := by
  constructor
  · intro hempty m hm hread
    obtain ⟨r, hr, hmem⟩ := qrOuter_payload_read timeoutMs t b B hb1 hb2 (timeoutMs + 1) 0 W 0
      false (by omega) (by simp) (by omega) (by simpa using hN) m (Nat.zero_le _) hm hread.1
      hread.2
    have hraw : readQRCodeRaw (W ++ (t, b) :: B) timeoutMs = some r := hr
    have hq : readQRCode (W ++ (t, b) :: B) timeoutMs = some (trim r) := by
      unfold readQRCode
      rw [hraw]
      rfl
    rw [hq, Option.some.injEq, trim_eq_nil_iff] at hempty
    have hsp := hempty b hmem
    simp only [isSpace, Bool.or_eq_true, beq_iff_eq, Bool.and_eq_true, decide_eq_true_eq] at hsp
    omega
  · intro hlate
    have hr := qrOuter_payload_late timeoutMs t b B hb1 hb2 (timeoutMs + 1) 0 W 0 false
      (by omega) (by simp) (by omega) (by simpa using hN)
      (fun m _ hm => hlate m hm)
    have hraw : readQRCodeRaw (W ++ (t, b) :: B) timeoutMs = some [] := hr
    unfold readQRCode
    rw [hraw]
    rfl

/-- C9 (amended): for every received byte stream and timeout, `readQRCode`
returns the empty string whenever no payload byte other than a space (a byte
in 33..126 after the first seven bytes) arrived within the timeout. When the
first payload byte (the first byte in 32..126 after the first seven bytes) is
not a space, `readQRCode` returns the empty string if and only if that byte is
available (it and every byte before it have arrived) at no poll before the
timeout, the polls being every 10 ms from the call; so the result is not empty
when it has arrived at least 10 ms before the timeout. In every case the result
is empty if and only if every byte accumulated before the final trim is a
space. -/
theorem readQRCode_empty (rx : Rx) (timeoutMs : Nat) :
    ((∀ p ∈ rx.drop 7, 33 ≤ p.2 → p.2 ≤ 126 → timeoutMs ≤ p.1) →
      readQRCode rx timeoutMs = some [])
    ∧ (∀ (W B : Rx) (t b : Nat), rx = W ++ (t, b) :: B → 7 ≤ W.length →
        (∀ q ∈ W.drop 7, ¬ (32 ≤ q.2 ∧ q.2 ≤ 126)) → 33 ≤ b → b ≤ 126 →
        ((readQRCode rx timeoutMs = some [] ↔
            ∀ m, 10 * m < timeoutMs → ¬ ((∀ q ∈ W, q.1 ≤ 10 * m) ∧ t ≤ 10 * m))
          ∧ ((∀ q ∈ W, q.1 + 10 ≤ timeoutMs) → t + 10 ≤ timeoutMs →
              readQRCode rx timeoutMs ≠ some [])))
    ∧ ∃ raw, readQRCodeRaw rx timeoutMs = some raw
        ∧ readQRCode rx timeoutMs = some (trim raw)
        ∧ (∀ c ∈ raw, 32 ≤ c ∧ c ≤ 126)
        ∧ (readQRCode rx timeoutMs = some [] ↔ ∀ c ∈ raw, c = 32) := by
  refine ⟨?_, ?_, ?_⟩
  · intro h
    obtain ⟨l1, hP, hq⟩ := qrOuter_inv
      (fun l => (l.headerSkipped = true ↔ 7 ≤ l.headerBytes)
        ∧ (∀ p ∈ l.rx.drop (7 - l.headerBytes), 33 ≤ p.2 → p.2 ≤ 126 → timeoutMs ≤ p.1)
        ∧ (∀ c ∈ l.qrData, c = 32)) timeoutMs
      (fun now l hnow hl => qrInner_spaces timeoutMs now hnow l.rx l.headerBytes
        l.headerSkipped l.qrData hl.1 hl.2.1 hl.2.2)
      (timeoutMs + 1) 0 ⟨rx, 0, false, []⟩ (by omega)
      ⟨by simp, by simpa using h, by simp⟩
    have htrim : trim l1.qrData = [] :=
      (trim_eq_nil_iff _).mpr (fun c hc => by rw [hP.2.2 c hc]; rfl)
    simp [readQRCode, readQRCodeRaw, hq, htrim]
  · intro W B t b hrx hW hN hb1 hb2
    subst hrx
    have hiff := readQRCode_first_payload W B t b timeoutMs hW hN hb1 hb2
    refine ⟨hiff, ?_⟩
    intro hWt ht hempty
    apply hiff.mp hempty ((timeoutMs - 1) / 10) (by omega)
    refine ⟨?_, by omega⟩
    intro q hq
    have := hWt q hq
    omega
  · obtain ⟨l1, hP, hq⟩ := qrOuter_inv (fun l => ∀ c ∈ l.qrData, 32 ≤ c ∧ c ≤ 126) timeoutMs
      (fun now l _ hl => qrInner_printable now l.rx l.headerBytes l.headerSkipped l.qrData hl)
      (timeoutMs + 1) 0 ⟨rx, 0, false, []⟩ (by omega) (by simp)
    refine ⟨l1.qrData, hq, by simp [readQRCode, readQRCodeRaw, hq], hP, ?_⟩
    have hq2 : readQRCode rx timeoutMs = some (trim l1.qrData) := by
      simp [readQRCode, readQRCodeRaw, hq]
    rw [hq2, Option.some.injEq, trim_eq_nil_iff]
    constructor
    · intro hall c hc
      have h1 := hall c hc
      have h2 := hP c hc
      simp only [isSpace, Bool.or_eq_true, beq_iff_eq, Bool.and_eq_true, decide_eq_true_eq] at h1
      omega
    · intro hall c hc
      rw [hall c hc]
      rfl

/-- A payload that arrives only after the timeout gives the empty string, and
the frame of "RED" that is in the receive buffer at the call does not. -/
theorem readQRCode_empty_witness :
    readQRCode rxLate 5000 = some [] ∧ readQRCode (buffered frameRED) 5000 ≠ some [] :=
  ⟨(readQRCode_empty rxLate 5000).1 (by decide),
    ((readQRCode_empty (buffered frameRED) 5000).2.1 (buffered [2, 0, 0, 1, 0, 0, 3])
      (buffered [69, 68, 13]) 0 82 rfl (by decide) (by decide) (by decide) (by decide)).2
      (by decide) (by decide)⟩

/-! ## The controller: the lamps of `STATE_ERROR` -/

/-- The entries into `STATE_ERROR` from the scan states and from
`STATE_VERIFY` set an error flag. -/
theorem handler_error_entry (s : Controller) (i : Inputs)
    (hs : s.currentState = STATE_SCAN_QR1 ∨ s.currentState = STATE_SCAN_QR2
      ∨ s.currentState = STATE_VERIFY)
    (ht : (stateHandler s i).currentState = STATE_ERROR) :
    (stateHandler s i).thread1Error = true ∨ (stateHandler s i).thread2Error = true := by
  revert ht
  rcases hs with hs | hs | hs
  · by_cases hq : ((readQRCode i.rx QR_TIMEOUT).getD []).length > 0 <;>
      simp [stateHandler, hs, triggerQRScanner, updateLEDs, delay, emit, hq]
  · by_cases hq : ((readQRCode i.rx QR_TIMEOUT).getD []).length > 0 <;>
      simp [stateHandler, hs, triggerQRScanner, updateLEDs, delay, emit, hq]
  · by_cases hm1 : s.qrCode1 = s.kanbanData.thread1 <;>
      by_cases hm2 : s.qrCode2 = s.kanbanData.thread2 <;>
      simp [stateHandler, hs, verifyThreads, hm1, hm2]

set_option maxRecDepth 100000 in
/-- C11: the errors that belong to no channel light no ALARM lamp. After a card
with an empty second thread name, and after a bobbin timeout, the controller is
in `STATE_ERROR` with both flags false, and the lamp write of the next tick
lights READY1 and READY2 and no ALARM lamp. In every run from boot the entries
into `STATE_ERROR` from `STATE_SCAN_QR1`, `STATE_SCAN_QR2` and `STATE_VERIFY`
set a flag, so that an ALARM lamp is lit; the entries from `STATE_READ_KANBAN`
and `STATE_WAIT_BOBBINS` set none; and the handler of `STATE_ERROR` lights as
many ALARM lamps as flags are set. -/
theorem error_without_alarm :
    (run (boot false lampsOff) malformedCardRun).currentState = STATE_ERROR
    ∧ (run (boot false lampsOff) malformedCardRun).kanbanData = ⟨[82, 69, 68], [], false⟩
    ∧ (run (boot false lampsOff) malformedCardRun).thread1Error = false
    ∧ (run (boot false lampsOff) malformedCardRun).thread2Error = false
    ∧ tickEvents (run (boot false lampsOff) malformedCardRun) (steady 2200 cardNoThread2 [])
        = [Event.lamps true true false false, Event.rfid RfidOp.PICC_WakeupA,
            Event.rfid RfidOp.PICC_HaltA]
    ∧ alarmCount (run (boot false lampsOff)
        (malformedCardRun ++ [steady 2200 cardNoThread2 []])).lamps = 0
    ∧ (run (boot false lampsOff) bobbinTimeoutRun).currentState = STATE_ERROR
    ∧ (tickEvents (run (boot false lampsOff) bobbinTimeoutRun) (steady 40100 cardRedBlue [])).head?
        = some (Event.lamps true true false false)
    ∧ alarmCount (run (boot false lampsOff)
        (bobbinTimeoutRun ++ [steady 40100 cardRedBlue []])).lamps = 0
    ∧ (∀ (s : Controller) (relay0 : Bool) (lamps0 : Lamps) (inputs : List Inputs) (i : Inputs),
        s = run (boot relay0 lamps0) inputs →
        (handleStateMachine s i).currentState = STATE_ERROR →
        (((s.currentState = STATE_SCAN_QR1 ∨ s.currentState = STATE_SCAN_QR2
              ∨ s.currentState = STATE_VERIFY) →
            ((handleStateMachine s i).thread1Error = true
              ∨ (handleStateMachine s i).thread2Error = true))
          ∧ ((s.currentState = STATE_READ_KANBAN ∨ s.currentState = STATE_WAIT_BOBBINS) →
            ((handleStateMachine s i).thread1Error = false
              ∧ (handleStateMachine s i).thread2Error = false))
          ∧ (s.currentState = STATE_ERROR →
              alarmCount (handleStateMachine s i).lamps = flagCount s))) := by
  refine ⟨by decide, by decide, by decide, by decide, by decide, by decide, by decide,
    by decide, by decide, ?_⟩
  intro s relay0 lamps0 inputs i hrun herr
  have hq : resetFires s i = false := by
    cases hf : resetFires s i
    · rfl
    · rw [tick_fired_state s i hf] at herr
      cases herr
  obtain ⟨e1, -⟩ := entered_fields s i
  refine ⟨?_, fun hs => (error_alarm_count s relay0 lamps0 inputs i hrun).1 hs herr, ?_⟩
  · intro hs
    have hk := handler_error_entry (entered s i) i (by rw [e1]; exact hs)
      (by rw [← tick_entered s i hq]; exact herr)
    rw [← tick_entered s i hq] at hk
    exact hk
  · intro hs
    exact ((error_alarm_count s relay0 lamps0 inputs i hrun).2 hs hq).2.1 herr

end TVS
